import Mathlib

/-!
# 3D Artisan editor (`src/main.js`): shallow embedding and verified properties

The class `App` of `src/main.js` is embedded as a record `App α` of its mutable fields
together with the parts of the DOM, the camera and the scene graph that its methods read
or write.  Every method becomes a function from states to states.  The definitions use only
the arithmetic operations and comparisons of the number type `α`, so they can be read over
the doubles of JavaScript (`Dbl`) as well as over an ordered field (exact arithmetic); a theorem
that needs the laws of a field assumes `LinearOrderedField α`.  `sin` and `cos` are parameters
of the bend.
Objects created by `new THREE.Mesh(...)` receive a fresh identity from the counter
`nextRef`; `===` on meshes is equality of identities.
-/

namespace Artisan

/-! ## Vectors, planes, geometries, meshes -/

/-- `THREE.Vector2`. -/
structure Vector2 (α : Type) where
  x : α
  y : α
deriving DecidableEq, Repr

/-- `THREE.Vector3`. -/
structure Vector3 (α : Type) where
  x : α
  y : α
  z : α
deriving DecidableEq, Repr

/-- `THREE.Quaternion`. -/
structure Quaternion (α : Type) where
  x : α
  y : α
  z : α
  w : α
deriving DecidableEq, Repr

/-- `THREE.Plane`: the points `q` with `normal . q + constant = 0`. -/
structure Plane (α : Type) where
  normal : Vector3 α
  constant : α
deriving DecidableEq, Repr

namespace Vector3

variable {α : Type}

/-- `v.multiplyScalar(s)`. -/
def multiplyScalar [Mul α] (v : Vector3 α) (s : α) : Vector3 α :=
  ⟨v.x * s, v.y * s, v.z * s⟩

/-- `v.add(w)`. -/
def add [Add α] (v w : Vector3 α) : Vector3 α :=
  ⟨v.x + w.x, v.y + w.y, v.z + w.z⟩

/-- `v.dot(w)`. -/
def dot [Add α] [Mul α] (v w : Vector3 α) : α :=
  v.x * w.x + v.y * w.y + v.z * w.z

end Vector3

/-- `THREE.BufferGeometry`: the `type` tag, the constructor `parameters`, and the vertex
buffer `attributes.position` (absent when the attribute is undefined). -/
structure BufferGeometry (α : Type) where
  type : String
  parameters : List α
  position : Option (List (Vector3 α))
deriving DecidableEq, Repr

/-- `THREE.MeshStandardMaterial`, with the properties the editor sets. -/
structure Material (α : Type) where
  color : Nat
  transparent : Bool
  opacity : α
  metalness : α
  roughness : α
  clippingPlanes : List (Plane α)
deriving DecidableEq, Repr

/-- `THREE.Mesh`: geometry, material and transform; `id` is the identity of the object
(two references are `===` when their identities are equal). -/
structure Mesh (α : Type) where
  id : Nat
  geometry : BufferGeometry α
  material : Material α
  position : Vector3 α
  quaternion : Quaternion α
  scale : Vector3 α
deriving DecidableEq, Repr

/-- Transform of a freshly constructed `Object3D`: position `(0, 0, 0)`. -/
def defaultPosition {α : Type} [Zero α] : Vector3 α := ⟨0, 0, 0⟩

/-- Transform of a freshly constructed `Object3D`: identity quaternion. -/
def defaultQuaternion {α : Type} [Zero α] [One α] : Quaternion α := ⟨0, 0, 0, 1⟩

/-- Transform of a freshly constructed `Object3D`: scale `(1, 1, 1)`. -/
def defaultScale {α : Type} [One α] : Vector3 α := ⟨1, 1, 1⟩

/-! ## The application state -/

/-- The `button` elements of the document: the eight tool buttons bound in `initUI`, and
any other button. -/
inductive Btn where
  | select
  | draw
  | circleDraw
  | carve
  | scale
  | circleCarve
  | bend
  | sketchCarve
  | other (n : Nat)
deriving DecidableEq, Repr

/-- The eight tool modes. -/
inductive Tool where
  | select
  | draw
  | circleDraw
  | carve
  | scale
  | circleCarve
  | bend
  | sketchCarve
deriving DecidableEq, Repr

/-- The string that names a tool in the calls of `toggleTool`. -/
def Tool.name : Tool → String
  | .select => "select"
  | .draw => "draw"
  | .circleDraw => "circle-draw"
  | .carve => "carve"
  | .scale => "scale"
  | .circleCarve => "circle-carve"
  | .bend => "bend"
  | .sketchCarve => "sketch-carve"

/-- The button whose `onclick` handler `initUI` binds to `toggleTool(tool, button)`. -/
def buttonOf : Tool → Btn
  | .select => .select
  | .draw => .draw
  | .circleDraw => .circleDraw
  | .carve => .carve
  | .scale => .scale
  | .circleCarve => .circleCarve
  | .bend => .bend
  | .sketchCarve => .sketchCarve

/-- The `params` object of `lastCarve`: each property is present or undefined. -/
structure CarveParams (α : Type) where
  mesh : Option (Mesh α) := none
  point : Option (Vector3 α) := none
  normal : Option (Vector3 α) := none
  cameraPos : Option (Vector3 α) := none
  points : Option (List (Vector2 α)) := none
  center : Option (Vector3 α) := none
  cameraDir : Option (Vector3 α) := none
  /-- The property `points` of a `shapeify` record, whose elements have three components. -/
  points3 : Option (List (Vector3 α)) := none
  position : Option (Vector3 α) := none
  type : Option String := none
  radius : Option α := none
deriving DecidableEq, Repr

/-- The object `{ type, params }` held by `this.lastCarve`. -/
structure LastCarve (α : Type) where
  type : String
  params : CarveParams α
deriving DecidableEq, Repr

/-- The fields of `App` and the collaborators its methods act on. -/
structure App (α : Type) where
  /-- `this.meshes`, the registry. -/
  meshes : List (Mesh α)
  /-- `this.scene.children`, by identity. -/
  scene : List Nat
  currentDrawPoints : List (Vector3 α)
  isSelecting : Bool
  isDrawing : Bool
  isStraight : Bool
  isCarving : Bool
  isScaling : Bool
  isMerging : Bool
  isCircleCarving : Bool
  isCircleDrawing : Bool
  isBending : Bool
  isSketchCarving : Bool
  lastCarve : Option (LastCarve α)
  /-- `this.transformControls.object`. -/
  attached : Option (Mesh α)
  /-- `this.camera.position`. -/
  cameraPosition : Vector3 α
  /-- `this.renderer.localClippingEnabled`. -/
  localClippingEnabled : Bool
  /-- The buttons whose class list contains `active`. -/
  activeButtons : List Btn
  /-- Whether `#repeat-carve-prompt` has the class `hidden`. -/
  repeatPromptHidden : Bool
  /-- The panel of the repeat prompt that `showRepeatOptions` left visible. -/
  repeatPanel : String
  /-- Whether `#btn-repeat-equal-mode` is displayed. -/
  equalModeShown : Bool
  /-- The text of `#repeat-title`. -/
  repeatTitle : String
  /-- The label of `#btn-delete-shape`. -/
  deleteButtonText : String
  /-- The texts passed to `showNotification`, oldest first. -/
  notifications : List String
  /-- The identity the next constructed object receives. -/
  nextRef : Nat
  /-- `this.controls.enabled`. -/
  controlsEnabled : Bool
  /-- `this.previewLine`, by identity. -/
  previewLine : Option Nat
  circleCenter : Option (Vector3 α)
  circlePreview : Option (Mesh α)
  /-- The mode of `this.transformControls`. -/
  transformMode : String
  currentProjectName : String

variable {α : Type}

/-! ## DOM and scene helpers -/

/-- `element.classList.add(cls)` on the set of elements that carry the class. -/
def classListAdd (l : List Btn) (b : Btn) : List Btn :=
  if l.contains b then l else l ++ [b]

/-- `showNotification(text)`. -/
def showNotification (app : App α) (text : String) : App α :=
  { app with notifications := app.notifications ++ [text] }

/-- `hideRepeatPrompt()`. -/
def hideRepeatPrompt (app : App α) : App α :=
  { app with repeatPromptHidden := true }

/-- `scene.remove(object)`: the first occurrence leaves the children. -/
def sceneRemove (scene : List Nat) (r : Nat) : List Nat :=
  scene.erase r

/-- `scene.add(object)`: an object that is already a child is removed first, then the
object is appended to the children. -/
def sceneAdd (scene : List Nat) (r : Nat) : List Nat :=
  scene.erase r ++ [r]

/-- `getMeshName(mesh)` for a mesh with a geometry. -/
def getMeshName (mesh : Mesh α) : String :=
  let type := mesh.geometry.type
  if type == "BoxGeometry" then "Cube"
  else if type == "SphereGeometry" then "Sphere"
  else if type == "CylinderGeometry" then "Cylinder"
  else if type == "ConeGeometry" then "Cone"
  else if type == "TorusGeometry" then "Circle"
  else if type == "RingGeometry" then "Ring"
  else if type == "TubeGeometry" then "Sketch"
  else "Shape"

/-- `updateDeleteButtonText()`. -/
def updateDeleteButtonText (app : App α) : App α :=
  match app.attached with
  | some mesh => { app with deleteButtonText := "Delete " ++ getMeshName mesh }
  | none => { app with deleteButtonText := "Delete Shape" }

/-- `this.transformControls.detach()`: the object of the gizmo becomes undefined; when the
gizmo held an object, it dispatches the event `object-changed`, whose handler (lines 33-35)
is `updateDeleteButtonText()`. -/
def detach (app : App α) : App α :=
  let changed := app.attached.isSome
  let app := { app with attached := none }
  if changed then updateDeleteButtonText app else app

/-- `this.transformControls.attach(object)`: the object of the gizmo becomes `object`; when
the gizmo held another object or none, it dispatches the event `object-changed`, whose
handler (lines 33-35) is `updateDeleteButtonText()`. -/
def attach (app : App α) (object : Mesh α) : App α :=
  let changed := app.attached.map (fun m => m.id) != some object.id
  let app := { app with attached := some object }
  if changed then updateDeleteButtonText app else app

/-- `deleteSelectedShape()`; `confirmed` is the answer of the `confirm` dialog. -/
def deleteSelectedShape (app : App α) (confirmed : Bool) : App α :=
  match app.attached with
  | some mesh =>
    let name := getMeshName mesh
    if confirmed then
      let app := { app with scene := sceneRemove app.scene mesh.id }
      let app := { app with meshes := app.meshes.filter (fun m => m.id != mesh.id) }
      let app := detach app
      let app := updateDeleteButtonText app
      showNotification app (name ++ " deleted.")
    else app
  | none => showNotification app "Select a shape first! (Use the Select Tool)"

/-! ## Tool modes: `toggleTool` (lines 149-206) and `onKeyDown` -/

/-- `toggleTool(tool, btn)`. -/
def toggleTool (app : App α) (tool : String) (btn : Btn) : App α :=
  let isActive := app.activeButtons.contains btn
  -- Reset others
  let app := { app with
    isSelecting := false, isDrawing := false, isCarving := false, isScaling := false,
    isCircleCarving := false, isCircleDrawing := false, isBending := false,
    isSketchCarving := false }
  let app := detach app
  let app := hideRepeatPrompt app
  let app := { app with activeButtons := [] }
  -- Toggle back to select if clicking active tool
  if isActive && tool != "select" then
    let app := { app with isSelecting := true }
    let app := { app with activeButtons := classListAdd app.activeButtons Btn.select }
    showNotification app "Return to Selection mode."
  else if tool == "select" then
    let app := { app with isSelecting := true }
    let app := { app with activeButtons := classListAdd app.activeButtons btn }
    showNotification app "Select mode active. Move or scale shapes."
  else if tool == "draw" then
    let app := { app with isDrawing := true }
    let app := { app with activeButtons := classListAdd app.activeButtons btn }
    showNotification app "Drawing mode active. Drag to sketch."
  else if tool == "carve" then
    let app := { app with isCarving := true }
    let app := { app with activeButtons := classListAdd app.activeButtons btn }
    showNotification app "Carve mode active. Select a shape to split."
  else if tool == "scale" then
    let app := { app with isScaling := true }
    let app := { app with activeButtons := classListAdd app.activeButtons btn }
    showNotification app "Scale mode active. Click a shape to resize it."
  else if tool == "circle-carve" then
    let app := { app with isCircleCarving := true }
    let app := { app with activeButtons := classListAdd app.activeButtons btn }
    showNotification app "Circle Carve active. Click to punch a hole!"
  else if tool == "circle-draw" then
    let app := { app with isCircleDrawing := true }
    let app := { app with activeButtons := classListAdd app.activeButtons btn }
    showNotification app "Circle Draw active. Click and drag to set radius."
  else if tool == "bend" then
    let app := { app with isBending := true }
    let app := { app with activeButtons := classListAdd app.activeButtons btn }
    showNotification app "Bend mode active. Click a shape to curve it."
  else if tool == "sketch-carve" then
    let app := { app with isSketchCarving := true }
    let app := { app with activeButtons := classListAdd app.activeButtons btn }
    showNotification app "Sketch Carve active. Draw a shape to punch it through!"
  else app

/-- A `keydown` event: its `key` and its `code`. -/
structure KeyEvent where
  key : String
  code : String
deriving DecidableEq, Repr

/-- `onKeyDown(event)`; `activeTag` is `document.activeElement.tagName` and `confirmed`
the answer of the `confirm` dialog of `deleteSelectedShape`. -/
def onKeyDown (app : App α) (event : KeyEvent) (activeTag : String) (confirmed : Bool) :
    App α :=
  let app :=
    if event.key == "Escape" then
      showNotification (toggleTool app "select" Btn.select) "Mode canceled. Selection active."
    else app
  if event.code == "Delete" || event.code == "Backspace" then
    -- Only delete if not typing in a project name or number input
    if activeTag != "INPUT" then deleteSelectedShape app confirmed else app
  else app

/-- A sequence of `toggleTool` calls, each with its tool string and its button. -/
def runToggles (app : App α) : List (String × Btn) → App α
  | [] => app
  | (tool, btn) :: rest => runToggles (toggleTool app tool btn) rest

/-- The eight mode flags, in the order select, draw, circle-draw, carve, scale,
circle-carve, bend, sketch-carve. -/
def modeFlags (app : App α) : List Bool :=
  [app.isSelecting, app.isDrawing, app.isCircleDrawing, app.isCarving, app.isScaling,
   app.isCircleCarving, app.isBending, app.isSketchCarving]

/-- How many of the eight mode flags are true. -/
def activeCount (app : App α) : Nat :=
  (modeFlags app).count true

/-- The flag of a tool mode. -/
def flagOf (app : App α) : Tool → Bool
  | .select => app.isSelecting
  | .draw => app.isDrawing
  | .circleDraw => app.isCircleDrawing
  | .carve => app.isCarving
  | .scale => app.isScaling
  | .circleCarve => app.isCircleCarving
  | .bend => app.isBending
  | .sketchCarve => app.isSketchCarving

/-- The tool modes whose flag is true. -/
def activeModes (app : App α) : List Tool :=
  [Tool.select, Tool.draw, Tool.circleDraw, Tool.carve, Tool.scale, Tool.circleCarve,
   Tool.bend, Tool.sketchCarve].filter (flagOf app)

/-! ## The registry and the repeat record -/

/-- `this.meshes.indexOf(mesh)`: the first index that holds the object, or `-1`. -/
def indexOf (meshes : List (Mesh α)) (mesh : Mesh α) : Int :=
  match meshes with
  | [] => -1
  | m :: rest =>
    if m.id == mesh.id then 0
    else if indexOf rest mesh > -1 then indexOf rest mesh + 1 else -1

/-- The two statements `const index = this.meshes.indexOf(mesh);`
`if (index > -1) this.meshes.splice(index, 1);`. -/
def removeFromRegistry (meshes : List (Mesh α)) (mesh : Mesh α) : List (Mesh α) :=
  let index := indexOf meshes mesh
  if index > -1 then meshes.eraseIdx index.toNat else meshes

/-- `showRepeatOptions(mode)`: the three panels are hidden, then the panel of `mode` is
shown. -/
def showRepeatOptions (app : App α) (mode : String) : App α :=
  if mode == "choices" then { app with repeatPanel := "choices" }
  else if mode == "normal" then { app with repeatPanel := "normal" }
  else if mode == "equal" then { app with repeatPanel := "equal" }
  else { app with repeatPanel := "" }

/-- `storeLastCarve(type, params)`. -/
def storeLastCarve (app : App α) (type : String) (params : CarveParams α) : App α :=
  let app := { app with lastCarve := some { type := type, params := params } }
  let app := showRepeatOptions app "choices"
  let app := { app with repeatPromptHidden := false }
  let isCarve := ["split", "splitCustom", "punchHole", "sketchCarve"].contains type
  { app with
    equalModeShown := isCarve,
    repeatTitle := if isCarve then "Repeat last carve?" else "Repeat last shape?" }

/-! ## Plane splits: `splitMeshCustom` (lines 647-681) and `splitMesh` (lines 1055-1088) -/

section Split

variable [Zero α] [One α] [Add α] [Sub α] [Mul α] [Div α] [Neg α] [NatCast α]
  [OfScientific α] [LT α] [DecidableRel (α := α) (· < ·)] [Min α] [Max α] [DecidableEq α]

/-- The closure `createClipped(side)` of `splitMeshCustom(mesh, point, normal)`. -/
def splitMeshCustom.createClipped (mesh : Mesh α) (point normal : Vector3 α) (app : App α)
    (side : α) : App α :=
  let geom := mesh.geometry
  let mat := mesh.material
  let planeNormal := normal.multiplyScalar side
  -- d = -n . p
  let constant := -(planeNormal.dot point)
  let plane : Plane α := { normal := planeNormal, constant := constant }
  let mat := { mat with clippingPlanes := [plane] }
  let app := { app with localClippingEnabled := true }
  let m : Mesh α :=
    { id := app.nextRef, geometry := geom, material := mat, position := defaultPosition,
      quaternion := defaultQuaternion, scale := defaultScale }
  let app := { app with nextRef := app.nextRef + 1 }
  let m := { m with position := mesh.position }
  let m := { m with quaternion := mesh.quaternion }
  let m := { m with scale := mesh.scale }
  -- Visual offset
  let offset := normal.multiplyScalar (side * 0.2)
  let m := { m with position := m.position.add offset }
  let app := { app with scene := sceneAdd app.scene m.id }
  { app with meshes := app.meshes ++ [m] }

/-- `splitMeshCustom(mesh, point, normal)`. -/
def splitMeshCustom (app : App α) (mesh : Mesh α) (point normal : Vector3 α) : App α :=
  let app := { app with meshes := removeFromRegistry app.meshes mesh }
  let app := { app with scene := sceneRemove app.scene mesh.id }
  let app := splitMeshCustom.createClipped mesh point normal app 1
  let app := splitMeshCustom.createClipped mesh point normal app (-1)
  let app := showNotification app "Shape carved with a straight line!"
  storeLastCarve app "splitCustom"
    { mesh := some mesh, point := some point, normal := some normal }

/-- The closure `createClipped(side)` of `splitMesh(mesh, point)`; `planeNormal` is the
constant of the enclosing call. -/
def splitMesh.createClipped (mesh : Mesh α) (point planeNormal : Vector3 α) (app : App α)
    (side : α) : App α :=
  let geom := mesh.geometry
  let mat := mesh.material
  -- Clipping plane logic
  let plane : Plane α :=
    { normal := planeNormal.multiplyScalar side,
      constant := if side > 0 then -point.y else point.y }
  let mat := { mat with clippingPlanes := [plane] }
  let app := { app with localClippingEnabled := true }
  let m : Mesh α :=
    { id := app.nextRef, geometry := geom, material := mat, position := defaultPosition,
      quaternion := defaultQuaternion, scale := defaultScale }
  let app := { app with nextRef := app.nextRef + 1 }
  let m := { m with position := mesh.position }
  -- Offset a bit to show split
  let m := { m with position := { m.position with y := m.position.y + side * 0.2 } }
  let app := { app with scene := sceneAdd app.scene m.id }
  { app with meshes := app.meshes ++ [m] }

/-- `splitMesh(mesh, point)`. -/
def splitMesh (app : App α) (mesh : Mesh α) (point : Vector3 α) : App α :=
  -- Find index and remove
  let app := { app with meshes := removeFromRegistry app.meshes mesh }
  let app := { app with scene := sceneRemove app.scene mesh.id }
  -- Define a split plane (using the click point and a default normal)
  let planeNormal : Vector3 α := ⟨0, 1, 0⟩
  let app := splitMesh.createClipped mesh point planeNormal app 1
  let app := splitMesh.createClipped mesh point planeNormal app (-1)
  let app := showNotification app "Shape carved and split into two!"
  storeLastCarve app "split" { mesh := some mesh, point := some point }

end Split

/-! ## Boolean cuts: `punchHole` (lines 837-870) and `applySketchCarveAt` (lines 783-821) -/

/-- The operation constants of `three-bvh-csg`. -/
inductive CsgOp where
  | ADDITION
  | SUBTRACTION
  | REVERSE_SUBTRACTION
  | INTERSECTION
  | DIFFERENCE
deriving DecidableEq, Repr

/-- `Brush` of `three-bvh-csg`: a geometry and a material with a transform. -/
structure Brush (α : Type) where
  geometry : BufferGeometry α
  material : Material α
  position : Vector3 α
  quaternion : Quaternion α
  scale : Vector3 α
deriving DecidableEq, Repr

/-- The functions of `three` and `three-bvh-csg` that the boolean cuts call; the libraries
are not part of the sources, so their results are given. -/
structure Three (α : Type) where
  /-- The geometry of `new Evaluator().evaluate(a, b, operation)`. -/
  evaluate : Brush α → Brush α → CsgOp → BufferGeometry α
  /-- The orientation that `object.lookAt(target)` gives an object at `position`. -/
  lookAt : (position : Vector3 α) → (target : Vector3 α) → Quaternion α
  /-- The orientation after `object.rotateX(Math.PI / 2)`. -/
  rotateX : Quaternion α → Quaternion α
  /-- `new THREE.CylinderGeometry(radiusTop, radiusBottom, height, radialSegments)`. -/
  cylinderGeometry : α → α → α → Nat → BufferGeometry α
  /-- `new THREE.ExtrudeGeometry(new THREE.Shape(points), settings)` with `bevelEnabled`
  false and the given `depth`, after `geometry.center()`. -/
  extrudeGeometry : List (Vector2 α) → (depth : α) → BufferGeometry α

/-- An exception raised by the evaluation of a method. -/
inductive JsError where
  | ReferenceError (identifier : String)
  | TypeError (message : String)
  | SyntaxError (message : String)
deriving DecidableEq, Repr

/-- The binding of the identifier `INTERSECTION` in the module: line 6 imports
`SUBTRACTION`, `Brush` and `Evaluator` only and no other declaration binds it, so the
identifier is unbound and its evaluation raises a `ReferenceError`. -/
def INTERSECTION : Option CsgOp := none

section Cuts

variable [Zero α] [One α] [Add α] [Sub α] [Mul α] [Div α] [Neg α] [NatCast α]
  [OfScientific α] [LT α] [DecidableRel (α := α) (· < ·)] [Min α] [Max α] [DecidableEq α]

/-- `new THREE.MeshStandardMaterial({ color })` with the defaults of the library for the
other properties. -/
def standardMaterial (color : Nat) : Material α :=
  { color := color, transparent := false, opacity := 1, metalness := 0, roughness := 1,
    clippingPlanes := [] }

/-- The target brush of a boolean cut: `new Brush(mesh.geometry, mesh.material)` with the
position, quaternion and scale of the mesh copied. -/
def targetBrush (mesh : Mesh α) : Brush α :=
  let targetBrush : Brush α :=
    { geometry := mesh.geometry, material := mesh.material, position := defaultPosition,
      quaternion := defaultQuaternion, scale := defaultScale }
  let targetBrush := { targetBrush with position := mesh.position }
  let targetBrush := { targetBrush with quaternion := mesh.quaternion }
  { targetBrush with scale := mesh.scale }

/-- The cutter of `punchHole`: a cylinder at `point` whose axis is the view line. -/
def punchHole.cutterBrush (lib : Three α) (app : App α) (point : Vector3 α) : Brush α :=
  -- Create a cylinder to act as the circular cutter
  let cutterGeom := lib.cylinderGeometry 0.3 0.3 5 32
  let cutterMat : Material α := standardMaterial 0xffffff
  let cutterBrush : Brush α :=
    { geometry := cutterGeom, material := cutterMat, position := defaultPosition,
      quaternion := defaultQuaternion, scale := defaultScale }
  -- Orient cutter to look at camera (punch "through" from view)
  let cutterBrush := { cutterBrush with position := point }
  let cutterBrush :=
    { cutterBrush with quaternion := lib.lookAt cutterBrush.position app.cameraPosition }
  -- Align cylinder axis with view line
  { cutterBrush with quaternion := lib.rotateX cutterBrush.quaternion }

/-- `punchHole(mesh, point)`. -/
def punchHole (lib : Three α) (app : App α) (mesh : Mesh α) (point : Vector3 α) : App α :=
  -- CSG Boolean Subtraction
  let targetBrush := targetBrush mesh
  let cutterBrush := punchHole.cutterBrush lib app point
  let resultGeometry := lib.evaluate targetBrush cutterBrush CsgOp.SUBTRACTION
  -- Update scene
  let app := { app with meshes := removeFromRegistry app.meshes mesh }
  let app := { app with scene := sceneRemove app.scene mesh.id }
  let resultMesh : Mesh α :=
    { id := app.nextRef, geometry := resultGeometry, material := mesh.material,
      position := defaultPosition, quaternion := defaultQuaternion, scale := defaultScale }
  let app := { app with nextRef := app.nextRef + 1 }
  let app := { app with meshes := app.meshes ++ [resultMesh] }
  let app := { app with scene := sceneAdd app.scene resultMesh.id }
  let app := showNotification app "Perfect circular hole carved!"
  storeLastCarve app "punchHole"
    { mesh := some mesh, point := some point, cameraPos := some app.cameraPosition }

/-- The cutter of `applySketchCarveAt`: the extruded sketch at `center`, looking along
`direction`. -/
def applySketchCarveAt.cutterBrush (lib : Three α) (shapePoints : List (Vector2 α))
    (center direction : Vector3 α) : Brush α :=
  let geometry := lib.extrudeGeometry shapePoints 20
  let material : Material α := standardMaterial 0xff0000
  let cutterBrush : Brush α :=
    { geometry := geometry, material := material, position := defaultPosition,
      quaternion := defaultQuaternion, scale := defaultScale }
  let cutterBrush := { cutterBrush with position := center }
  { cutterBrush with quaternion := lib.lookAt cutterBrush.position (center.add direction) }

/-- The loop `for (const mesh of targets)` of `applySketchCarveAt`, from the state `app`
with the current value of `carvedSomething`; `binding` is the binding of the identifier
`INTERSECTION`.  The result is the state at the end of the loop, or at the point where an
exception is raised, with the value of `carvedSomething` or the exception. -/
def applySketchCarveAt.loop (lib : Three α) (binding : Option CsgOp) (cutterBrush : Brush α) :
    List (Mesh α) → App α → Bool → App α × Except JsError Bool
  | [], app, carvedSomething => (app, Except.ok carvedSomething)
  | mesh :: targets, app, carvedSomething =>
    let targetBrush := targetBrush mesh
    match binding with
    | none => (app, Except.error (JsError.ReferenceError "INTERSECTION"))
    | some operation =>
      match (lib.evaluate targetBrush cutterBrush operation).position with
      | none => (app, Except.error (JsError.TypeError "position is undefined"))
      | some position =>
        if position.length > 0 then
          let resultGeometry := lib.evaluate targetBrush cutterBrush CsgOp.SUBTRACTION
          let app := { app with meshes := removeFromRegistry app.meshes mesh }
          let app := { app with scene := sceneRemove app.scene mesh.id }
          let resultMesh : Mesh α :=
            { id := app.nextRef, geometry := resultGeometry, material := mesh.material,
              position := defaultPosition, quaternion := defaultQuaternion,
              scale := defaultScale }
          let app := { app with nextRef := app.nextRef + 1 }
          let app := { app with meshes := app.meshes ++ [resultMesh] }
          let app := { app with scene := sceneAdd app.scene resultMesh.id }
          applySketchCarveAt.loop lib binding cutterBrush targets app true
        else
          applySketchCarveAt.loop lib binding cutterBrush targets app carvedSomething

/-- The body of `applySketchCarveAt(shapePoints, center, direction)` for a given binding
of the identifier `INTERSECTION`. -/
def applySketchCarveAtWith (lib : Three α) (binding : Option CsgOp) (app : App α)
    (shapePoints : List (Vector2 α)) (center direction : Vector3 α) :
    App α × Except JsError Bool :=
  let cutterBrush := applySketchCarveAt.cutterBrush lib shapePoints center direction
  let carvedSomething := false
  let targets := app.meshes
  applySketchCarveAt.loop lib binding cutterBrush targets app carvedSomething

/-- `applySketchCarveAt(shapePoints, center, direction)` as the module evaluates it. -/
def applySketchCarveAt (lib : Three α) (app : App α) (shapePoints : List (Vector2 α))
    (center direction : Vector3 α) : App α × Except JsError Bool :=
  applySketchCarveAtWith lib INTERSECTION app shapePoints center direction

end Cuts

/-! ## Bend: `applyBend` (lines 716-743) -/

section Bend

variable [Zero α] [One α] [Add α] [Sub α] [Mul α] [Div α] [Neg α] [NatCast α]
  [OfScientific α] [LT α] [DecidableRel (α := α) (· < ·)] [Min α] [Max α] [DecidableEq α]

/-- `position.getX(i)` of a `BufferAttribute`. -/
def getX (position : List (Vector3 α)) (i : Nat) : α :=
  (position.getD i defaultPosition).x

/-- `position.getY(i)` of a `BufferAttribute`. -/
def getY (position : List (Vector3 α)) (i : Nat) : α :=
  (position.getD i defaultPosition).y

/-- `position.getZ(i)` of a `BufferAttribute`. -/
def getZ (position : List (Vector3 α)) (i : Nat) : α :=
  (position.getD i defaultPosition).z

/-- `position.setXY(i, x, y)` of a `BufferAttribute`: the third component stays. -/
def setXY (position : List (Vector3 α)) (i : Nat) (x y : α) : List (Vector3 α) :=
  position.modify (fun v => { v with x := x, y := y }) i

/-- The iterations `i`, `i + 1`, ... of the loop of lines 727-738, `remaining` of them,
on the buffer `position`. -/
def applyBend.loop (sin cos : α → α) (bendFactor : α) :
    (remaining : Nat) → (i : Nat) → List (Vector3 α) → List (Vector3 α)
  | 0, _, position => position
  | remaining + 1, i, position =>
    let x := getX position i
    let y := getY position i
    -- Bend formula: higher X means more rotation around Z
    let angle := x * bendFactor
    let newX := sin angle * (1 / bendFactor + y)
    let newY := cos angle * (1 / bendFactor + y) - 1 / bendFactor
    applyBend.loop sin cos bendFactor remaining (i + 1) (setXY position i newX newY)

/-- The vertex buffer that `applyBend` leaves in place of `position`: the loop runs for
`i` from 0 to `position.count - 1` with `bendFactor = 0.5`. -/
def applyBend.buffer (sin cos : α → α) (position : List (Vector3 α)) : List (Vector3 α) :=
  let bendFactor : α := 0.5
  applyBend.loop sin cos bendFactor position.length 0 position

/-- The assignment in place to the vertex buffer of the object `id`: every reference to
the object (registry, transform controls, repeat record) observes the new buffer. -/
def writePosition (app : App α) (id : Nat) (position : List (Vector3 α)) : App α :=
  let write := fun (m : Mesh α) =>
    if m.id == id then { m with geometry := { m.geometry with position := some position } }
    else m
  { app with
    meshes := app.meshes.map write,
    attached := app.attached.map write,
    lastCarve := app.lastCarve.map (fun carve =>
      { carve with params := { carve.params with mesh := carve.params.mesh.map write } }) }

/-- `applyBend(mesh)`; `sin` and `cos` are `Math.sin` and `Math.cos`. -/
def applyBend (sin cos : α → α) (app : App α) (mesh : Mesh α) : App α :=
  match mesh.geometry.position with
  | none => app
  | some position =>
    let app := writePosition app mesh.id (applyBend.buffer sin cos position)
    showNotification app "Shape curved and bent!"

end Bend

/-! ## Sample states -/

/-- The state of the page that the constructor finds: `index.html` is not part of the
sources, so the classes and texts of its elements are given. -/
structure Page where
  activeButtons : List Btn
  repeatPromptHidden : Bool
  repeatPanel : String
  equalModeShown : Bool
  repeatTitle : String
  deleteButtonText : String
deriving DecidableEq, Repr

/-- The state at the end of the constructor (lines 10-75): the scene holds the transform
controls, two lights and the grid, which receive the identities 0 to 3. -/
def App.init [NatCast α] (page : Page) : App α :=
  { meshes := []
    scene := [0, 1, 2, 3]
    currentDrawPoints := []
    isSelecting := true
    isDrawing := false
    isStraight := false
    isCarving := false
    isScaling := false
    isMerging := false
    isCircleCarving := false
    isCircleDrawing := false
    isBending := false
    isSketchCarving := false
    lastCarve := none
    attached := none
    cameraPosition := ⟨5, 5, 5⟩
    localClippingEnabled := false
    activeButtons := page.activeButtons
    repeatPromptHidden := page.repeatPromptHidden
    repeatPanel := page.repeatPanel
    equalModeShown := page.equalModeShown
    repeatTitle := page.repeatTitle
    deleteButtonText := page.deleteButtonText
    notifications := []
    nextRef := 4
    controlsEnabled := true
    previewLine := none
    circleCenter := none
    circlePreview := none
    transformMode := "translate"
    currentProjectName := "Untitled Project" }

/-- A page on which the select button is highlighted and the repeat prompt hidden. -/
def samplePage : Page :=
  { activeButtons := [Btn.select]
    repeatPromptHidden := true
    repeatPanel := "choices"
    equalModeShown := true
    repeatTitle := "Repeat last carve?"
    deleteButtonText := "Delete Shape" }

/-- The material that `addPrimitive` gives a new shape. -/
def defaultMaterial [OfScientific α] : Material α :=
  { color := 0x00f2ff, transparent := true, opacity := 0.8, metalness := 0.5,
    roughness := 0.2, clippingPlanes := [] }

/-- A sample shape: a rod of two vertices on the local X axis, with identity `id`, placed
at height `y`. -/
def sampleRod [Zero α] [One α] [OfScientific α] (id : Nat) (y : α) : Mesh α :=
  { id := id
    geometry := { type := "BufferGeometry", parameters := [], position := some [⟨0, 0, 0⟩, ⟨1, 0, 0⟩] }
    material := defaultMaterial
    position := ⟨0, y, 0⟩
    quaternion := defaultQuaternion
    scale := defaultScale }

/-- A sample state: two rods in the registry and in the scene. -/
def sampleApp : App ℚ :=
  { (App.init samplePage : App ℚ) with
    meshes := [sampleRod 4 0, sampleRod 5 2]
    scene := [0, 1, 2, 3, 4, 5]
    nextRef := 6 }

/-- A sample library in which every intersection is empty and a subtraction returns the
geometry of the target. -/
def disjointLib : Three ℚ :=
  { evaluate := fun a _ operation =>
      match operation with
      | CsgOp.INTERSECTION => { type := "BufferGeometry", parameters := [], position := some [] }
      | _ => a.geometry
    lookAt := fun _ _ => defaultQuaternion
    rotateX := fun q => q
    cylinderGeometry := fun _ _ _ _ =>
      { type := "CylinderGeometry", parameters := [], position := some [] }
    extrudeGeometry := fun _ _ =>
      { type := "ExtrudeGeometry", parameters := [], position := some [] } }

/-- A sample library in which every intersection is the target itself and a subtraction
leaves a single vertex. -/
def overlapLib : Three ℚ :=
  { evaluate := fun a _ operation =>
      match operation with
      | CsgOp.INTERSECTION => a.geometry
      | _ => { type := "BufferGeometry", parameters := [], position := some [⟨0, 0, 0⟩] }
    lookAt := fun _ _ => defaultQuaternion
    rotateX := fun q => q
    cylinderGeometry := fun _ _ _ _ =>
      { type := "CylinderGeometry", parameters := [], position := some [] }
    extrudeGeometry := fun _ _ =>
      { type := "ExtrudeGeometry", parameters := [], position := some [] } }

/-! ## Geometry constructors, camera and picking -/

/-- The Euler angles of `object.rotation`, with their order. -/
structure Euler (α : Type) where
  x : α
  y : α
  z : α
  order : String
deriving DecidableEq, Repr

/-- The geometry classes and utilities of `three` that create and combine shapes; the
library is not part of the sources, so their results are given. -/
structure Shapes (α : Type) where
  /-- The `parameters` object that the constructor of the class `type` records for the
  given arguments: the arguments, completed by the defaults of the library. -/
  parameters : (type : String) → (arguments : List α) → List α
  /-- The vertex buffer that the constructor of the class `type` computes. -/
  vertices : (type : String) → (arguments : List α) → Option (List (Vector3 α))
  /-- `new THREE.TubeGeometry(new THREE.CatmullRomCurve3(points), 64, 0.1, 8, false)`. -/
  tubeGeometry : (points : List (Vector3 α)) → BufferGeometry α
  /-- `geometry.clone()` after `applyMatrix4(matrixWorld)`, for the world matrix composed
  of the position, quaternion and scale of a child of the scene. -/
  applyMatrix4 : BufferGeometry α → Vector3 α → Quaternion α → Vector3 α → BufferGeometry α
  /-- `BufferGeometryUtils.mergeGeometries(geometries)`: the merged geometry, or `null`
  when the library refuses the list (it mixes geometries with and without an index, or
  their attributes differ). -/
  mergeGeometries : List (BufferGeometry α) → Option (BufferGeometry α)
  /-- The Euler angles that `object.rotation` shows for the orientation `quaternion`. -/
  toEuler : Quaternion α → Euler α
  /-- The orientation that `object.rotation.fromArray(array)` gives the object. -/
  fromEuler : Euler α → Quaternion α

/-- `new THREE.<type>(...arguments)`. -/
def Shapes.construct (shapes : Shapes α) (type : String) (arguments : List α) :
    BufferGeometry α :=
  { type := type
    parameters := shapes.parameters type arguments
    position := shapes.vertices type arguments }

/-- The camera and the ray caster at the time of a call. -/
structure View (α : Type) where
  /-- `new THREE.Vector3(1, 0, 0).applyQuaternion(this.camera.quaternion)`. -/
  viewRight : Vector3 α
  /-- The first element of `this.raycaster.intersectObjects(meshes)` for the ray with the
  given origin and direction: the object and the point, or nothing. -/
  intersectObjects : (origin direction : Vector3 α) → List (Mesh α) →
    Option (Mesh α × Vector3 α)
  /-- The text that a template literal shows for a number. -/
  format : α → String
  /-- `this.camera.getWorldDirection(cameraDir)`. -/
  cameraDir : Vector3 α
  /-- `new THREE.Vector3(0, 1, 0).applyQuaternion(this.camera.quaternion)`. -/
  cameraUp : Vector3 α
  /-- `new THREE.Vector3().crossVectors(cameraDir, cameraUp).normalize()`. -/
  cameraRight : Vector3 α

/-- What the handlers of a pointer event derive from the event, the window and the camera
through the ray caster. -/
structure PointerEvent (α : Type) where
  /-- The first element of `intersectObjects(this.meshes)` for the ray of the pointer. -/
  hit : Option (Mesh α × Vector3 α)
  /-- `this.raycaster.ray.at(5, point)`. -/
  rayAt5 : Vector3 α
  /-- The `target` after `ray.intersectPlane` with the ground plane `y = 0`. -/
  ground : Vector3 α
  /-- For a circle centre, its distance to the `target` of `ray.intersectPlane` with the
  horizontal plane through the centre. -/
  radius : Vector3 α → α
  /-- `this.camera.getWorldDirection(normal)` with `normal.y = 0`, normalized. -/
  carveNormal : Vector3 α
  /-- `this.transformControls.dragging`. -/
  dragging : Bool

section Shaping

variable [Zero α] [One α] [Add α] [Sub α] [Mul α] [Div α] [Neg α] [NatCast α]
  [OfScientific α] [LT α] [DecidableRel (α := α) (· < ·)] [Min α] [Max α] [DecidableEq α]

/-! ## Primitives and drawing: `addPrimitive`, `shapeify`, circle drawing -/

/-- The geometry that the `switch` of `addPrimitive` selects; for any other type the
variable stays undefined and `new THREE.Mesh` creates an empty `BufferGeometry`. -/
def addPrimitive.geometry (shapes : Shapes α) (type : String) : BufferGeometry α :=
  if type == "cube" then shapes.construct "BoxGeometry" [1, 1, 1]
  else if type == "sphere" then shapes.construct "SphereGeometry" [0.7, 32, 32]
  else if type == "cylinder" then shapes.construct "CylinderGeometry" [0.5, 0.5, 1, 32]
  else if type == "cone" then shapes.construct "ConeGeometry" [0.5, 1, 32]
  else if type == "circle" then shapes.construct "TorusGeometry" [0.5, 0.05, 32, 128]
  else if type == "ring" then shapes.construct "RingGeometry" [0.3, 0.6, 128]
  else { type := "BufferGeometry", parameters := [], position := none }

/-- `addPrimitive(type, position)`; `random` holds the two values of `Math.random()` that
the call reads when `position` is null. -/
def addPrimitive (shapes : Shapes α) (app : App α) (type : String)
    (position : Option (Vector3 α)) (random : α × α) : App α :=
  let material : Material α := defaultMaterial
  let geometry := addPrimitive.geometry shapes type
  let mesh : Mesh α :=
    { id := app.nextRef, geometry := geometry, material := material,
      position := defaultPosition, quaternion := defaultQuaternion, scale := defaultScale }
  let app := { app with nextRef := app.nextRef + 1 }
  let mesh :=
    match position with
    | some position => { mesh with position := position }
    | none => { mesh with position := ⟨random.1 * 2 - 1, 0.5, random.2 * 2 - 1⟩ }
  let app := { app with scene := sceneAdd app.scene mesh.id }
  let app := { app with meshes := app.meshes ++ [mesh] }
  if type == "circle" || type == "ring" then
    storeLastCarve app (type ++ "Primitive")
      { type := some type, position := some mesh.position }
  else app

/-- `updateDrawingPreview()`. -/
def updateDrawingPreview (app : App α) : App α :=
  let app :=
    match app.previewLine with
    | some line => { app with scene := sceneRemove app.scene line }
    | none => app
  if app.currentDrawPoints.length < 2 then app
  else
    let line := app.nextRef
    let app := { app with nextRef := app.nextRef + 1 }
    let app := { app with previewLine := some line }
    { app with scene := sceneAdd app.scene line }

/-- `check2DStatus()`; the buffer holds at least 5 points where the extent is computed, so
the minimum and maximum that start from the infinities are those that start from the first
point. -/
def check2DStatus (app : App α) : App α :=
  if app.currentDrawPoints.length < 5 then app
  else
    match app.currentDrawPoints with
    | [] => app
    | first :: rest =>
      let min := rest.foldl (fun (m p : Vector3 α) =>
        (⟨Min.min m.x p.x, Min.min m.y p.y, Min.min m.z p.z⟩ : Vector3 α)) first
      let max := rest.foldl (fun (m p : Vector3 α) =>
        (⟨Max.max m.x p.x, Max.max m.y p.y, Max.max m.z p.z⟩ : Vector3 α)) first
      let size : Vector3 α := ⟨max.x - min.x, max.y - min.y, max.z - min.z⟩
      if size.x < 0.1 || size.y < 0.1 || size.z < 0.1 then
        showNotification app "Great now it\x27s time to make the design 3D!"
      else app

/-- `shapeify()`. -/
def shapeify (shapes : Shapes α) (app : App α) : App α :=
  if app.currentDrawPoints.length < 2 then
    showNotification app "Draw something first!"
  else
    -- Create a tube from the points
    let geometry := shapes.tubeGeometry app.currentDrawPoints
    let material : Material α := standardMaterial 0xff00ff
    let mesh : Mesh α :=
      { id := app.nextRef, geometry := geometry, material := material,
        position := defaultPosition, quaternion := defaultQuaternion, scale := defaultScale }
    let app := { app with nextRef := app.nextRef + 1 }
    let app := { app with scene := sceneAdd app.scene mesh.id }
    let app := { app with meshes := app.meshes ++ [mesh] }
    let app :=
      match app.previewLine with
      | some line => { app with scene := sceneRemove app.scene line }
      | none => app
    let app := { app with previewLine := none }
    let app := storeLastCarve app "shapeify" { points3 := some app.currentDrawPoints }
    { app with currentDrawPoints := [] }

/-- `startCircleDraw(event)`. -/
def startCircleDraw (lib : Three α) (shapes : Shapes α) (app : App α)
    (event : PointerEvent α) : App α :=
  -- Use ground plane (y=0) for center if nothing hit
  let circleCenter :=
    match event.hit with
    | some (_, point) => point
    | none => event.ground
  let app := { app with circleCenter := some circleCenter }
  -- Create preview circle
  let geom := shapes.construct "TorusGeometry" [0.1, 0.02, 16, 100]
  let mat : Material α :=
    { color := 0x00f2ff, transparent := true, opacity := 0.5, metalness := 0, roughness := 1,
      clippingPlanes := [] }
  let preview : Mesh α :=
    { id := app.nextRef, geometry := geom, material := mat, position := defaultPosition,
      quaternion := defaultQuaternion, scale := defaultScale }
  let app := { app with nextRef := app.nextRef + 1 }
  let preview := { preview with position := circleCenter }
  let preview := { preview with quaternion := lib.rotateX preview.quaternion }
  let app := { app with circlePreview := some preview }
  let app := { app with scene := sceneAdd app.scene preview.id }
  { app with controlsEnabled := false }

/-- `updateCircleDraw(event)`. -/
def updateCircleDraw (shapes : Shapes α) (app : App α) (event : PointerEvent α) : App α :=
  match app.circleCenter, app.circlePreview with
  | some circleCenter, some preview =>
    let radius := event.radius circleCenter
    if radius > 0.01 then
      { app with circlePreview := some { preview with
          geometry := shapes.construct "TorusGeometry" [radius, 0.05, 16, 100] } }
    else app
  | _, _ => app

/-- `finishCircleDraw()`; `parameters.radius` is the first entry of the parameters of the
torus of the preview. -/
def finishCircleDraw (lib : Three α) (shapes : Shapes α) (app : App α) : App α :=
  match app.circlePreview with
  | none => app
  | some preview =>
    let radius := preview.geometry.parameters.head?
    let position := preview.position
    let app := { app with scene := sceneRemove app.scene preview.id }
    let app := { app with circlePreview := none }
    let app := { app with circleCenter := none }
    let app := { app with controlsEnabled := true }
    match radius with
    | none => app
    | some radius =>
      if radius > 0.1 then
        let geometry := shapes.construct "TorusGeometry" [radius, 0.05, 16, 100]
        let material : Material α := defaultMaterial
        let mesh : Mesh α :=
          { id := app.nextRef, geometry := geometry, material := material,
            position := defaultPosition, quaternion := defaultQuaternion,
            scale := defaultScale }
        let app := { app with nextRef := app.nextRef + 1 }
        let mesh := { mesh with position := position }
        let mesh := { mesh with quaternion := lib.rotateX mesh.quaternion }
        let app := { app with scene := sceneAdd app.scene mesh.id }
        let app := { app with meshes := app.meshes ++ [mesh] }
        let app := showNotification app "Perfect circle design created!"
        storeLastCarve app "circlePrimitive"
          { position := some mesh.position, radius := some radius }
      else app

/-! ## Registry operations: `clearAll`, `mergeAll`, persistence -/

/-- `clearAll(silent)`; `confirmed` is the answer of the `confirm` dialog. -/
def clearAll (app : App α) (silent confirmed : Bool) : App α :=
  if silent || confirmed then
    let app := { app with
      scene := app.meshes.foldl (fun (scene : List Nat) (m : Mesh α) =>
        sceneRemove scene m.id) app.scene }
    let app := { app with meshes := [] }
    let app := detach app
    let app := updateDeleteButtonText app
    if !silent then showNotification app "Design cleared." else app
  else app

/-- `mergeAll()`.  When `mergeGeometries` returns `null`, the constructor call
`new THREE.Mesh(mergedGeom, material)` raises a `TypeError` (it reads a property of the
geometry), after the loop has removed every shape from the scene and before the registry is
assigned. -/
def mergeAll (shapes : Shapes α) (app : App α) : App α × Except JsError Unit :=
  if app.meshes.length < 2 then
    (showNotification app "At least two designs needed to connect.", Except.ok ())
  else
    let step := fun (state : List (BufferGeometry α) × List Nat) (m : Mesh α) =>
      let clone := shapes.applyMatrix4 m.geometry m.position m.quaternion m.scale
      (state.1 ++ [clone], sceneRemove state.2 m.id)
    let state := app.meshes.foldl step ([], app.scene)
    let geometries := state.1
    let app := { app with scene := state.2 }
    match shapes.mergeGeometries geometries with
    | none => (app, Except.error (JsError.TypeError "geometry is null"))
    | some mergedGeom =>
      let material : Material α := defaultMaterial
      let mergedMesh : Mesh α :=
        { id := app.nextRef, geometry := mergedGeom, material := material,
          position := defaultPosition, quaternion := defaultQuaternion,
          scale := defaultScale }
      let app := { app with nextRef := app.nextRef + 1 }
      let app := { app with meshes := [mergedMesh] }
      let app := { app with scene := sceneAdd app.scene mergedMesh.id }
      let app := detach app
      (showNotification app "Designs connected into a single object!", Except.ok ())

/-- An element of the array that `serializeScene` writes. -/
structure SceneItem (α : Type) where
  type : String
  parameters : List α
  position : Vector3 α
  rotation : Euler α
  scale : Vector3 α
  color : Nat
deriving DecidableEq, Repr

/-- `serializeScene()`: the array `data`; its JSON text is read back by `JSON.parse` as the
same array. -/
def serializeScene (shapes : Shapes α) (app : App α) : List (SceneItem α) :=
  app.meshes.map (fun m =>
    { type := m.geometry.type
      parameters := m.geometry.parameters
      position := m.position
      rotation := shapes.toEuler m.quaternion
      scale := m.scale
      color := m.material.color })

/-- What `projects[name]` holds for `loadProject`: nothing, the text `null`, or the text
of an array of items. -/
inductive Stored (α : Type) where
  | missing
  | null
  | data (items : List (SceneItem α))

/-- The geometry that `loadProject` reconstructs for an item, based on its type. -/
def loadProject.geometry (shapes : Shapes α) (item : SceneItem α) : BufferGeometry α :=
  if item.type == "BoxGeometry" then shapes.construct "BoxGeometry" item.parameters
  else if item.type == "SphereGeometry" then
    shapes.construct "SphereGeometry" item.parameters
  else if item.type == "CylinderGeometry" then
    shapes.construct "CylinderGeometry" item.parameters
  else if item.type == "ConeGeometry" then shapes.construct "ConeGeometry" item.parameters
  else if item.type == "TorusGeometry" then shapes.construct "TorusGeometry" item.parameters
  else shapes.construct "BoxGeometry" [1, 1, 1] -- Fallback

/-- The body of `data.forEach(item => ...)` in `loadProject`. -/
def loadProject.item (shapes : Shapes α) (app : App α) (item : SceneItem α) : App α :=
  let geometry := loadProject.geometry shapes item
  let material : Material α :=
    { color := item.color, transparent := true, opacity := 0.8, metalness := 0.5,
      roughness := 0.2, clippingPlanes := [] }
  let mesh : Mesh α :=
    { id := app.nextRef, geometry := geometry, material := material,
      position := defaultPosition, quaternion := defaultQuaternion, scale := defaultScale }
  let app := { app with nextRef := app.nextRef + 1 }
  let mesh := { mesh with position := item.position }
  let mesh := { mesh with quaternion := shapes.fromEuler item.rotation }
  let mesh := { mesh with scale := item.scale }
  let app := { app with scene := sceneAdd app.scene mesh.id }
  { app with meshes := app.meshes ++ [mesh] }

/-- `loadProject(name)`; `entry` is what `projects[name]` holds. -/
def loadProject (shapes : Shapes α) (app : App α) (name : String) (entry : Stored α) :
    App α × Except JsError Unit :=
  if name == "" then (app, Except.ok ())
  else
    match entry with
    | Stored.missing => (app, Except.error (JsError.SyntaxError "JSON.parse"))
    | Stored.null => (app, Except.ok ())
    | Stored.data data =>
      let app := clearAll app true false
      let app := data.foldl (loadProject.item shapes) app
      let app := { app with currentProjectName := name }
      (showNotification app ("Loaded \"" ++ name ++ "\""), Except.ok ())

end Shaping

/-! ## Replay: `repeatLastCarve` (lines 929-1021) and `repeatMultiCarve` (lines 903-927) -/

/-- `value || 1` for the result of `parseFloat` or `parseInt`: `none` is `NaN`. -/
def orOne {β : Type} [Zero β] [One β] [DecidableEq β] (value : Option β) : β :=
  match value with
  | some v => if v = 0 then 1 else v
  | none => 1

section Replay

variable [Zero α] [One α] [Add α] [Sub α] [Mul α] [Div α] [Neg α] [NatCast α]
  [OfScientific α] [LT α] [DecidableRel (α := α) (· < ·)] [Min α] [Max α] [DecidableEq α]

/-- The assignment `this.lastCarve.params.point = offsetPoint`. -/
def setLastPoint (app : App α) (offsetPoint : Vector3 α) : App α :=
  { app with lastCarve := app.lastCarve.map (fun carve =>
      { carve with params := { carve.params with point := some offsetPoint } }) }

/-- Lines 999-1020 of `repeatLastCarve`: the probe ray from above the offset point, the
carve on the object it hits, and the update of the stored point; `carve` is the branch of
lines 1006-1013 that the type of the record selects. -/
def repeatLastCarve.probe (view : View α) (app : App α) (carve : App α → Mesh α → App α)
    (offsetPoint : Vector3 α) (distance : α) : App α :=
  -- Try to find a mesh at the offset point
  let origin := offsetPoint.add ⟨0, 10, 0⟩
  let intersects := view.intersectObjects origin ⟨0, -1, 0⟩ app.meshes
  let app :=
    match intersects with
    | some (hit, _) =>
      let app := carve app hit
      showNotification app ("Carve repeated " ++ view.format distance ++ "cm away!")
    | none => showNotification app "Could not find a design at the offset distance."
  -- Update last carve point for chaining
  setLastPoint app offsetPoint

/-- The body of `repeatLastCarve()` for a given binding of the identifier `INTERSECTION`,
which the call of `applySketchCarveAt` in the branch of lines 986-997 evaluates;
`distanceValue` is `parseFloat` of the value of the input `#repeat-distance`. -/
def repeatLastCarveWith (lib : Three α) (binding : Option CsgOp) (shapes : Shapes α)
    (view : View α) (app : App α) (distanceValue : Option α) : App α × Except JsError Unit :=
  match app.lastCarve with
  | none => (app, Except.ok ())
  | some lastCarve =>
    let distance := orOne distanceValue
    let type := lastCarve.type
    let params := lastCarve.params
    if type == "split" then
      let normal : Vector3 α := ⟨0, 1, 0⟩
      match params.point with
      | none => (app, Except.error (JsError.TypeError "params.point is undefined"))
      | some point =>
        let offsetPoint := point.add (normal.multiplyScalar distance)
        (repeatLastCarve.probe view app (fun app hit => splitMesh app hit offsetPoint)
          offsetPoint distance, Except.ok ())
    else if type == "splitCustom" then
      match params.point, params.normal with
      | some point, some normal =>
        let offsetPoint := point.add (normal.multiplyScalar distance)
        (repeatLastCarve.probe view app
          (fun app hit => splitMeshCustom app hit offsetPoint normal)
          offsetPoint distance, Except.ok ())
      | _, _ => (app, Except.error (JsError.TypeError "params.point or normal is undefined"))
    else if type == "punchHole" then
      match params.point, params.cameraPos with
      | some point, some cameraPos =>
        let offsetPoint := point.add (view.viewRight.multiplyScalar distance)
        (repeatLastCarve.probe view app
          (fun app hit =>
            let oldCamPos := app.cameraPosition
            let app := { app with cameraPosition := cameraPos }
            let app := punchHole lib app hit offsetPoint
            { app with cameraPosition := oldCamPos })
          offsetPoint distance, Except.ok ())
      | _, _ =>
        (app, Except.error (JsError.TypeError "params.point or cameraPos is undefined"))
    else if type == "shapeify" then
      match params.points3 with
      | none => (app, Except.error (JsError.TypeError "params.points is undefined"))
      | some points =>
        -- Repeat the tube at an offset
        let offsetPoints := points.map (fun p => p.add (view.viewRight.multiplyScalar distance))
        let geometry := shapes.tubeGeometry offsetPoints
        let material : Material α := standardMaterial 0xff00ff
        let mesh : Mesh α :=
          { id := app.nextRef, geometry := geometry, material := material,
            position := defaultPosition, quaternion := defaultQuaternion,
            scale := defaultScale }
        let app := { app with nextRef := app.nextRef + 1 }
        let app := { app with scene := sceneAdd app.scene mesh.id }
        let app := { app with meshes := app.meshes ++ [mesh] }
        let app := showNotification app
          ("Drawn shape repeated " ++ view.format distance ++ "cm away!")
        -- Update last carve points for chaining
        ({ app with lastCarve := app.lastCarve.map (fun carve =>
            { carve with params := { carve.params with points3 := some offsetPoints } }) },
          Except.ok ())
    else if type == "circlePrimitive" then
      match params.position with
      | none => (app, Except.error (JsError.TypeError "params.position is undefined"))
      | some position =>
        let offsetPos := position.add (view.viewRight.multiplyScalar distance)
        let app := addPrimitive shapes app "circle" (some offsetPos) (0, 0)
        (showNotification app ("Circle repeated " ++ view.format distance ++ "cm away!"),
          Except.ok ())
    else if type == "ringPrimitive" then
      match params.position with
      | none => (app, Except.error (JsError.TypeError "params.position is undefined"))
      | some position =>
        let offsetPos := position.add (view.viewRight.multiplyScalar distance)
        let app := addPrimitive shapes app "ring" (some offsetPos) (0, 0)
        (showNotification app ("Ring repeated " ++ view.format distance ++ "cm away!"),
          Except.ok ())
    else if type == "sketchCarve" then
      match params.center, params.cameraDir with
      | some center, some cameraDir =>
        let offsetCenter := center.add (view.viewRight.multiplyScalar distance)
        match applySketchCarveAtWith lib binding app (params.points.getD []) offsetCenter
            cameraDir with
        | (app, Except.error e) => (app, Except.error e)
        | (app, Except.ok carved) =>
          let app :=
            if carved then
              showNotification app
                ("Sketch carve repeated " ++ view.format distance ++ "cm away!")
            else showNotification app "Repeated sketch didn\x27t intersect any design."
          ({ app with lastCarve := app.lastCarve.map (fun carve =>
              { carve with params := { carve.params with center := some offsetCenter } }) },
            Except.ok ())
      | _, _ =>
        (app, Except.error (JsError.TypeError "params.center or cameraDir is undefined"))
    else (app, Except.error (JsError.TypeError "offsetPoint is undefined"))

/-- `repeatLastCarve()` as the module evaluates it. -/
def repeatLastCarve (lib : Three α) (shapes : Shapes α) (view : View α) (app : App α)
    (distanceValue : Option α) : App α × Except JsError Unit :=
  repeatLastCarveWith lib INTERSECTION shapes view app distanceValue

/-- The iterations of the loop of `repeatMultiCarve`, `remaining` of them: each writes
`distance` to the input `#repeat-distance`, calls `repeatLastCarve()`, which reads it back,
and restores the input; an exception ends the loop. -/
def repeatMultiCarve.loop (lib : Three α) (shapes : Shapes α) (view : View α) (distance : α) :
    (remaining : Nat) → App α → App α × Except JsError Unit
  | 0, app => (app, Except.ok ())
  | remaining + 1, app =>
    match repeatLastCarve lib shapes view app (some distance) with
    | (app, Except.ok _) => repeatMultiCarve.loop lib shapes view distance remaining app
    | (app, Except.error e) => (app, Except.error e)

/-- `repeatMultiCarve()`, with no other event between its iterations; `countValue` is
`parseInt` of the value of `#repeat-count` and `distanceValue` is `parseFloat` of the value
of `#repeat-distance-equal`.  The loop `for (let i = 0; i < count; i++)` makes
`count.toNat` iterations. -/
def repeatMultiCarve (lib : Three α) (shapes : Shapes α) (view : View α) (app : App α)
    (countValue : Option Int) (distanceValue : Option α) : App α × Except JsError Unit :=
  match app.lastCarve with
  | none => (app, Except.ok ())
  | some _ =>
    let count : Int := orOne countValue
    let distance : α := orOne distanceValue
    let app := hideRepeatPrompt app
    let app := showNotification app ("Applying " ++ toString count ++ " repeated carves...")
    -- We will perform the Normal repeat count times in a loop.
    match repeatMultiCarve.loop lib shapes view distance count.toNat app with
    | (app, Except.ok _) =>
      (showNotification app ("Finished " ++ toString count ++ " repeated carves!"),
        Except.ok ())
    | (app, Except.error e) => (app, Except.error e)

end Replay

/-! ## Pointer events: `onPointerDown`, `onPointerMove`, `onPointerUp` -/

section Pointer

variable [Zero α] [One α] [Add α] [Sub α] [Mul α] [Div α] [Neg α] [NatCast α]
  [OfScientific α] [LT α] [DecidableRel (α := α) (· < ·)] [Min α] [Max α] [DecidableEq α]

/-- `handleSelection(event)`. -/
def handleSelection (app : App α) (event : PointerEvent α) : App α :=
  match event.hit with
  | some (object, _) =>
    let app := { app with transformMode := "translate" }
    let app := attach app object
    updateDeleteButtonText app
  | none =>
    if !event.dragging then
      let app := detach app
      updateDeleteButtonText app
    else app

/-- `handleCarve(event)`. -/
def handleCarve (app : App α) (event : PointerEvent α) : App α :=
  match event.hit with
  | some (hit, point) =>
    if app.isStraight then
      let normal := event.carveNormal
      splitMeshCustom app hit point normal
    else
      -- Default horizontal split
      splitMesh app hit point
  | none => app

/-- `handleScale(event)`. -/
def handleScale (app : App α) (event : PointerEvent α) : App α :=
  match event.hit with
  | some (object, _) =>
    let app := { app with transformMode := "scale" }
    let app := attach app object
    showNotification app "Drag the X, Y, or Z handles to make it shorter or fatter!"
  | none =>
    if !event.dragging then detach app else app

/-- `handleBend(event)`. -/
def handleBend (sin cos : α → α) (app : App α) (event : PointerEvent α) : App α :=
  match event.hit with
  | some (mesh, _) => applyBend sin cos app mesh
  | none => app

/-- `handleCircleCarve(event)`. -/
def handleCircleCarve (lib : Three α) (app : App α) (event : PointerEvent α) : App α :=
  match event.hit with
  | some (hit, point) => punchHole lib app hit point
  | none => app

/-- `a.sub(b)`, as in `subVectors(a, b)`. -/
def Vector3.sub (a b : Vector3 α) : Vector3 α :=
  ⟨a.x - b.x, a.y - b.y, a.z - b.z⟩

/-- The three statements that end both branches of `finishSketchCarve`. -/
def finishSketchCarve.reset (app : App α) : App α :=
  let app :=
    match app.previewLine with
    | some line => { app with scene := sceneRemove app.scene line }
    | none => app
  let app := { app with previewLine := none }
  { app with currentDrawPoints := [] }

/-- `finishSketchCarve()`. -/
def finishSketchCarve (lib : Three α) (view : View α) (app : App α) :
    App α × Except JsError Unit :=
  if app.currentDrawPoints.length < 3 then
    let app := showNotification app "Draw a more complex shape to carve!"
    (finishSketchCarve.reset app, Except.ok ())
  else
    -- 1. Coordinate system based on camera
    let cameraDir := view.cameraDir
    let cameraUp := view.cameraUp
    let cameraRight := view.cameraRight
    -- 2. Project points to create 2D shape
    match app.currentDrawPoints with
    | [] => (app, Except.error (JsError.TypeError "origin is undefined"))
    | origin :: _ =>
      let shapePoints := app.currentDrawPoints.map (fun p =>
        let rel := p.sub origin
        (⟨rel.dot cameraRight, rel.dot cameraUp⟩ : Vector2 α))
      let center := app.currentDrawPoints.foldl Vector3.add ⟨0, 0, 0⟩
      let center := center.multiplyScalar (1 / (app.currentDrawPoints.length : α))
      match applySketchCarveAt lib app shapePoints center cameraDir with
      | (app, Except.error e) => (app, Except.error e)
      | (app, Except.ok carved) =>
        let app :=
          if carved then
            let app := showNotification app "Custom shape carved successfully!"
            storeLastCarve app "sketchCarve"
              { points := some shapePoints, center := some center,
                cameraDir := some cameraDir }
          else showNotification app "Sketch didn\x27t intersect any design."
        (finishSketchCarve.reset app, Except.ok ())

/-- `onPointerDown(event)`; `sin` and `cos` are `Math.sin` and `Math.cos`. -/
def onPointerDown (lib : Three α) (shapes : Shapes α) (sin cos : α → α) (app : App α)
    (event : PointerEvent α) : App α :=
  let app := hideRepeatPrompt app
  if app.isSelecting then handleSelection app event
  else if app.isCarving then handleCarve app event
  else if app.isScaling then handleScale app event
  else if app.isCircleCarving then handleCircleCarve lib app event
  else if app.isCircleDrawing then startCircleDraw lib shapes app event
  else if app.isBending then handleBend sin cos app event
  else if app.isSketchCarving then
    let app := { app with isDrawing := true }
    let app := { app with controlsEnabled := false }
    { app with currentDrawPoints := [] }
  else if !app.isDrawing then app
  else
    let app := { app with controlsEnabled := false }
    { app with currentDrawPoints := [] }

/-- `onPointerMove(event)`. -/
def onPointerMove (shapes : Shapes α) (app : App α) (event : PointerEvent α) : App α :=
  if app.isScaling then app
  else if app.isCircleDrawing then updateCircleDraw shapes app event
  else if !app.isDrawing || app.currentDrawPoints.length == 0 then app
  else
    -- For drawing, the point at the default depth on the ray
    let point := event.rayAt5
    let app :=
      if app.isStraight && app.currentDrawPoints.length > 0 then
        -- Only keep first and current
        match app.currentDrawPoints with
        | first :: _ => { app with currentDrawPoints := [first, point] }
        | [] => app
      else { app with currentDrawPoints := app.currentDrawPoints ++ [point] }
    updateDrawingPreview app

/-- `onPointerUp()`. -/
def onPointerUp (lib : Three α) (shapes : Shapes α) (view : View α) (app : App α) :
    App α × Except JsError Unit :=
  if app.isCircleDrawing then (finishCircleDraw lib shapes app, Except.ok ())
  else if app.isSketchCarving then
    match finishSketchCarve lib view app with
    | (app, Except.error e) => (app, Except.error e)
    | (app, Except.ok _) =>
      let app := { app with isDrawing := false }
      ({ app with controlsEnabled := true }, Except.ok ())
  else if !app.isDrawing then (app, Except.ok ())
  else
    let app := { app with controlsEnabled := true }
    -- Check if drawing is "2D" (all points in roughly same plane)
    (check2DStatus app, Except.ok ())

/-- An event of the user interface: a call of `toggleTool` with a tool name and a button,
the Escape key, or a pointer event with what its handlers read from the environment. -/
inductive UiEvent (α : Type) where
  | toggle (tool : Tool) (btn : Btn)
  | escape
  | pointerDown (event : PointerEvent α)
  | pointerMove (event : PointerEvent α)
  | pointerUp (view : View α)

/-- The state after the handler of an event has run, to its end or to the point where it
raises an exception. -/
def step (lib : Three α) (shapes : Shapes α) (sin cos : α → α) (app : App α) :
    UiEvent α → App α
  | UiEvent.toggle tool btn => toggleTool app tool.name btn
  | UiEvent.escape => onKeyDown app { key := "Escape", code := "Escape" } "BODY" false
  | UiEvent.pointerDown event => onPointerDown lib shapes sin cos app event
  | UiEvent.pointerMove event => onPointerMove shapes app event
  | UiEvent.pointerUp view => (onPointerUp lib shapes view app).1

/-- The state after a sequence of events. -/
def run (lib : Three α) (shapes : Shapes α) (sin cos : α → α) (app : App α) :
    List (UiEvent α) → App α
  | [] => app
  | event :: events => run lib shapes sin cos (step lib shapes sin cos app event) events

end Pointer

/-! ## Sample libraries and views -/

/-- A sample geometry library: a constructor records its arguments as they are, a merge
concatenates the vertex buffers, and a transformed clone is moved by the position. -/
def sampleShapes : Shapes ℚ :=
  { parameters := fun _ arguments => arguments
    vertices := fun _ _ => some []
    tubeGeometry := fun points =>
      { type := "TubeGeometry", parameters := [], position := some points }
    applyMatrix4 := fun geometry position _ _ =>
      { geometry with position := geometry.position.map (fun buffer =>
          buffer.map (fun v => v.add position)) }
    mergeGeometries := fun geometries =>
      some { type := "BufferGeometry", parameters := [],
             position := some (geometries.flatMap (fun g => g.position.getD [])) }
    toEuler := fun q => { x := q.x, y := q.y, z := q.z, order := "XYZ" }
    fromEuler := fun e => { x := e.x, y := e.y, z := e.z, w := 1 } }

/-- A sample geometry library that refuses to merge geometries with and without an index,
as `mergeGeometries` does: a geometry of type `BufferGeometry` (the result of a CSG
evaluation) carries no index, a geometry of a constructed kind carries one, and the merge of
a list that holds both is `null`. -/
def strictShapes : Shapes ℚ :=
  { sampleShapes with
    mergeGeometries := fun geometries =>
      if geometries.any (fun g => g.type == "BufferGeometry")
          && geometries.any (fun g => g.type != "BufferGeometry") then none
      else sampleShapes.mergeGeometries geometries }

/-- A sample view in which no ray hits a shape; the right axis of the camera is X. -/
def missView : View ℚ :=
  { viewRight := ⟨1, 0, 0⟩
    intersectObjects := fun _ _ _ => none
    format := fun _ => "d"
    cameraDir := ⟨0, 0, -1⟩
    cameraUp := ⟨0, 1, 0⟩
    cameraRight := ⟨1, 0, 0⟩ }

/-- A sample view in which a ray hits nothing when its origin is higher than 11 and hits
the first shape of the list otherwise; the right axis of the camera is X. -/
def belowView : View ℚ :=
  { viewRight := ⟨1, 0, 0⟩
    intersectObjects := fun origin _ meshes =>
      if 11 < origin.y then none else meshes.head?.map (fun m => (m, origin))
    format := fun _ => "d"
    cameraDir := ⟨0, 0, -1⟩
    cameraUp := ⟨0, 1, 0⟩
    cameraRight := ⟨1, 0, 0⟩ }

/-- A sample view in which every ray hits the first shape of the list, at the origin of
the ray. -/
def hitView : View ℚ :=
  { viewRight := ⟨1, 0, 0⟩
    intersectObjects := fun origin _ meshes => meshes.head?.map (fun m => (m, origin))
    format := fun _ => "d"
    cameraDir := ⟨0, 0, -1⟩
    cameraUp := ⟨0, 1, 0⟩
    cameraRight := ⟨1, 0, 0⟩ }

/-- A sample state with a split record: the first rod of the sample state has been split
at the origin. -/
def sampleSplitApp : App ℚ :=
  splitMesh sampleApp (sampleRod 4 0) ⟨0, 0, 0⟩

/-- A sample state with a punchHole record: a hole has been punched into the first rod of
the sample state at the origin, with the camera at (5, 5, 5). -/
def samplePunchApp : App ℚ :=
  punchHole disjointLib sampleApp (sampleRod 4 0) ⟨0, 0, 0⟩

/-- A sample state with a circlePrimitive record: a circle has been added to the sample
state at (1, 0, 0). -/
def sampleCircleApp : App ℚ :=
  addPrimitive sampleShapes sampleApp "circle" (some ⟨1, 0, 0⟩) (0, 0)

/-! ## Specification of the repeated replay -/

/-- The replay of the specification, `repeatOnce(distance)` performed `count` times in
sequence: the first `count - 1` calls, then one more call of `repeatLastCarve` with the
distance; an exception ends the sequence. -/
def repeatOnceTimes [Zero α] [One α] [Add α] [Sub α] [Mul α] [Neg α] [NatCast α]
    [OfScientific α] [LT α] [DecidableRel (α := α) (· < ·)] [DecidableEq α]
    (lib : Three α) (shapes : Shapes α)
    (view : View α) (distance : α) : (count : Nat) → App α → App α × Except JsError Unit
  | 0, app => (app, Except.ok ())
  | count + 1, app =>
    match repeatOnceTimes lib shapes view distance count app with
    | (app, Except.ok _) => repeatLastCarve lib shapes view app (some distance)
    | (app, Except.error e) => (app, Except.error e)

/-- The state `app` with another visibility of the repeat prompt and another log of
notifications. -/
def withUi (app : App α) (hidden : Bool) (notes : List String) : App α :=
  { app with repeatPromptHidden := hidden, notifications := notes }

/-- A sample state with one cube: `addPrimitive` of a cube in the state that the
constructor leaves. -/
def sampleCubeApp : App ℚ :=
  addPrimitive sampleShapes (App.init samplePage) "cube" none (0, 0)

/-- A sample state with a sphere and a ring: `addPrimitive` of a sphere and of a ring in
the state that the constructor leaves, with the random numbers 0 and 1. -/
def sampleSphereRingApp : App ℚ :=
  addPrimitive sampleShapes (addPrimitive sampleShapes (App.init samplePage) "sphere" none
    (0, 0)) "ring" none (1, 1)

/-- The first cube of the sample state with two cubes. -/
def sampleCube : Mesh ℚ :=
  { id := 4
    geometry := sampleShapes.construct "BoxGeometry" [1, 1, 1]
    material := defaultMaterial
    position := ⟨-1, 0.5, -1⟩
    quaternion := defaultQuaternion
    scale := defaultScale }

/-- A sample state with two cubes: `addPrimitive` of a cube twice in the state that the
constructor leaves, with the random values 0, 0 and then 1, 1. -/
def sampleTwoCubesApp : App ℚ :=
  addPrimitive sampleShapes
    (addPrimitive sampleShapes (App.init samplePage) "cube" none (0, 0)) "cube" none (1, 1)

/-- The sample state with two cubes after a hole has been punched into the first cube: the
registry holds the second cube and the result of the CSG evaluation. -/
def samplePunchedCubeApp : App ℚ :=
  punchHole overlapLib sampleTwoCubesApp sampleCube ⟨-1, 0.5, -1⟩

/-- The values of the eight mode flags (in the order of `modeFlags`) with exactly one flag
true, and the value with `isDrawing` and `isSketchCarving` true. -/
def allowedFlags : List (List Bool) :=
  [[true, false, false, false, false, false, false, false],
   [false, true, false, false, false, false, false, false],
   [false, false, true, false, false, false, false, false],
   [false, false, false, true, false, false, false, false],
   [false, false, false, false, true, false, false, false],
   [false, false, false, false, false, true, false, false],
   [false, false, false, false, false, false, true, false],
   [false, false, false, false, false, false, false, true],
   [false, true, false, false, false, false, false, true]]

/-- A sample pointer event: the ray of the pointer hits nothing. -/
def samplePointer : PointerEvent ℚ :=
  { hit := none
    rayAt5 := ⟨0, 0, 0⟩
    ground := ⟨0, 0, 0⟩
    radius := fun _ => 1
    carveNormal := ⟨1, 0, 0⟩
    dragging := false }

/-! ## Registry and scene graph correspondence -/

/-- The correspondence between a registry and a scene graph, on identities: `ids` are the
identities of the registry in order, `scene` the children of the scene graph, `helpers` the
objects of the scene graph that are not shapes (lights, grid, gizmo, previews) and `next` the
identity the next constructed object receives. Every shape occurs once in the registry and
once in the scene graph, every child of the scene graph is a shape of the registry or a
helper, no shape is a helper, and every identity in use was handed out before `next`. -/
def CorrespondsIds (helpers ids scene : List Nat) (next : Nat) : Prop :=
  ids.Nodup
  ∧ (∀ i ∈ ids, scene.count i = 1)
  ∧ (∀ r ∈ scene, r ∈ ids ∨ r ∈ helpers)
  ∧ (∀ i ∈ ids, i ∉ helpers)
  ∧ (∀ i ∈ ids, i < next)
  ∧ (∀ r ∈ scene, r < next)
  ∧ (∀ r ∈ helpers, r < next)

/-- The registry and the scene graph of a state correspond, and the preview line and the
preview of a circle being drawn, where they exist, are helpers and not shapes. -/
def Corresponds (helpers : List Nat) (app : App α) : Prop :=
  CorrespondsIds helpers (app.meshes.map (fun m => m.id)) app.scene app.nextRef
  ∧ (∀ line, app.previewLine = some line → line ∈ helpers)
  ∧ (∀ preview, app.circlePreview = some preview → preview.id ∈ helpers)

/-- The part of the state that the correspondence is about. -/
def shapeState (app : App α) :
    List (Mesh α) × List Nat × Nat × Option Nat × Option (Mesh α) :=
  (app.meshes, app.scene, app.nextRef, app.previewLine, app.circlePreview)

/-! ## Sample states of a drawing gesture -/

/-- A sample state in Draw mode whose draw buffer holds two points. -/
def sampleDrawingApp : App ℚ :=
  { (App.init samplePage : App ℚ) with
    isSelecting := false
    isDrawing := true
    activeButtons := [Btn.draw]
    currentDrawPoints := [⟨0, 0, 0⟩, ⟨1, 0, 0⟩] }

/-- A sample pointer event whose ray passes through `point` at the default depth and hits
nothing. -/
def samplePointerAt (point : Vector3 ℚ) : PointerEvent ℚ :=
  { hit := none
    rayAt5 := point
    ground := ⟨0, 0, 0⟩
    radius := fun _ => 1
    carveNormal := ⟨1, 0, 0⟩
    dragging := false }

/-! ## Sample states with a sketch-carve record -/

/-- A sample record of type `sketchCarve`: a triangle, the centre at the origin and the
direction of the Z axis. -/
def sampleSketchRecord : LastCarve ℚ :=
  { type := "sketchCarve"
    params := { points := some [⟨0, 0⟩, ⟨1, 0⟩, ⟨0, 1⟩], center := some ⟨0, 0, 0⟩,
                cameraDir := some ⟨0, 0, 1⟩ } }

/-- The sample state of two rods with the sample sketch-carve record stored. -/
def sampleSketchApp : App ℚ :=
  { sampleApp with lastCarve := some sampleSketchRecord }

/-- The initial state (an empty registry) with the sample sketch-carve record stored. -/
def sampleSketchEmptyApp : App ℚ :=
  { (App.init samplePage : App ℚ) with lastCarve := some sampleSketchRecord }

/-! ## A sample shape with a scale -/

/-- A sample shape: the rod with identity 4, scaled by 2 on every axis. -/
def sampleScaledRod : Mesh ℚ :=
  { (sampleRod 4 0 : Mesh ℚ) with scale := ⟨2, 2, 2⟩ }

/-- A sample state whose registry holds the scaled rod and the rod with identity 5. -/
def sampleScaledApp : App ℚ :=
  { sampleApp with meshes := [sampleScaledRod, sampleRod 5 2] }

/-! ## Double-precision numbers -/

/-- A number of the program: a finite IEEE 754 binary64 value, given by its exact value.
The operations round the exact result to the nearest value with a significand of 53 bits,
ties to the even significand, as the arithmetic of the language does.  Results outside the
normal range (an overflow to an infinity, a subnormal result), `NaN`, the sign of zero and
a division by zero are outside the model. -/
structure Dbl where
  val : ℚ
deriving DecidableEq, Repr

namespace Dbl

/-- The number of binary digits of `n`, counted in at most `fuel` steps. -/
def bitLength.go : (fuel : Nat) → Nat → Nat → Nat
  | 0, _, acc => acc
  | fuel + 1, n, acc => if n = 0 then acc else bitLength.go fuel (n / 2) (acc + 1)

/-- The number of binary digits of `n`: `2 ^ (bitLength n - 1) ≤ n < 2 ^ bitLength n` for
positive `n`. -/
def bitLength (n : Nat) : Nat := bitLength.go n n 0

/-- The binary64 value nearest to the positive rational `n / d`: with `fl` the exponent of
`n / d` (so `2 ^ fl ≤ n / d < 2 ^ (fl + 1)`) and `k = 52 - fl`, the significand is
`n / d * 2 ^ k` rounded to an integer, a tie to the even one, and the value is the
significand times `2 ^ (-k)`. -/
def roundPos (n d : Nat) : ℚ :=
  let e : Int := (bitLength n : Int) - (bitLength d : Int)
  let below : Bool :=
    if 0 ≤ e then decide (n < d * 2 ^ e.toNat) else decide (n * 2 ^ (-e).toNat < d)
  let fl : Int := if below then e - 1 else e
  let k : Int := 52 - fl
  let N : Nat := if 0 ≤ k then n * 2 ^ k.toNat else n
  let D : Nat := if 0 ≤ k then d else d * 2 ^ (-k).toNat
  let m : Nat := N / D
  let r : Nat := N % D
  let m : Nat := if D < 2 * r ∨ (2 * r = D ∧ m % 2 = 1) then m + 1 else m
  if 0 ≤ k then mkRat m (2 ^ k.toNat) else (m * 2 ^ (-k).toNat : Nat)

/-- The binary64 value nearest to the rational `q`, a tie to the even significand. -/
def round (q : ℚ) : Dbl :=
  if q.num = 0 then ⟨0⟩
  else if q.num < 0 then ⟨-roundPos q.num.natAbs q.den⟩
  else ⟨roundPos q.num.natAbs q.den⟩

instance : Zero Dbl := ⟨⟨0⟩⟩

instance : One Dbl := ⟨⟨1⟩⟩

/-- The operator `+` on numbers. -/
instance : Add Dbl := ⟨fun a b => round (a.val + b.val)⟩

/-- The binary operator `-` on numbers. -/
instance : Sub Dbl := ⟨fun a b => round (a.val - b.val)⟩

/-- The operator `*` on numbers. -/
instance : Mul Dbl := ⟨fun a b => round (a.val * b.val)⟩

/-- The operator `/` on numbers, for a divisor other than zero. -/
instance : Div Dbl := ⟨fun a b => round (a.val / b.val)⟩

/-- The unary operator `-` on numbers. -/
instance : Neg Dbl := ⟨fun a => ⟨-a.val⟩⟩

/-- The value of an integer literal. -/
instance : NatCast Dbl := ⟨fun n => round n⟩

/-- The value of a decimal literal, and of `parseFloat` on a decimal text. -/
instance : OfScientific Dbl := ⟨fun m s e => round (OfScientific.ofScientific m s e)⟩

/-- The operator `<` on numbers. -/
instance : LT Dbl := ⟨fun a b => a.val < b.val⟩

instance : DecidableRel (α := Dbl) (· < ·) :=
  fun a b => inferInstanceAs (Decidable (a.val < b.val))

/-- `Math.min` on two numbers. -/
instance : Min Dbl := ⟨fun a b => if a.val ≤ b.val then a else b⟩

/-- `Math.max` on two numbers. -/
instance : Max Dbl := ⟨fun a b => if a.val ≤ b.val then b else a⟩

end Dbl

/-! ## Sample states over the doubles -/

/-- The sample geometry library over the doubles. -/
def dblShapes : Shapes Dbl :=
  { parameters := fun _ arguments => arguments
    vertices := fun _ _ => some []
    tubeGeometry := fun points =>
      { type := "TubeGeometry", parameters := [], position := some points }
    applyMatrix4 := fun geometry position _ _ =>
      { geometry with position := geometry.position.map (fun buffer =>
          buffer.map (fun v => v.add position)) }
    mergeGeometries := fun geometries =>
      some { type := "BufferGeometry", parameters := [],
             position := some (geometries.flatMap (fun g => g.position.getD [])) }
    toEuler := fun q => { x := q.x, y := q.y, z := q.z, order := "XYZ" }
    fromEuler := fun e => { x := e.x, y := e.y, z := e.z, w := 1 } }

/-- The sample library of disjoint cuts over the doubles. -/
def dblLib : Three Dbl :=
  { evaluate := fun a _ operation =>
      match operation with
      | CsgOp.INTERSECTION => { type := "BufferGeometry", parameters := [], position := some [] }
      | _ => a.geometry
    lookAt := fun _ _ => defaultQuaternion
    rotateX := fun q => q
    cylinderGeometry := fun _ _ _ _ =>
      { type := "CylinderGeometry", parameters := [], position := some [] }
    extrudeGeometry := fun _ _ =>
      { type := "ExtrudeGeometry", parameters := [], position := some [] } }

/-- A view over the doubles in which no ray hits a shape; the right axis of the camera
is X. -/
def dblView : View Dbl :=
  { viewRight := ⟨1, 0, 0⟩
    intersectObjects := fun _ _ _ => none
    format := fun _ => "d"
    cameraDir := ⟨0, 0, -1⟩
    cameraUp := ⟨0, 1, 0⟩
    cameraRight := ⟨1, 0, 0⟩ }

/-- A state over the doubles: one rod in the registry and in the scene. -/
def dblApp : App Dbl :=
  { (App.init samplePage : App Dbl) with
    meshes := [sampleRod 4 0]
    scene := [0, 1, 2, 3, 4]
    nextRef := 5 }

/-- A state over the doubles with a split record: the rod has been split at the point
(0, 0.5, 0). -/
def dblSplitApp : App Dbl :=
  splitMesh dblApp (sampleRod 4 0) ⟨0, 0.5, 0⟩

/-- A state over the doubles with a circlePrimitive record: a circle has been added at
(0.5, 0, 0). -/
def dblCircleApp : App Dbl :=
  addPrimitive dblShapes dblApp "circle" (some ⟨0.5, 0, 0⟩) (0, 0)

/-! # Theorems -/

/-! ## The gizmo -/

/-- The state after `detach`: no object in the gizmo, and the text of the delete button
reset when the gizmo held an object. -/
theorem detach_eq (app : App α) :
    detach app = { app with
      attached := none
      deleteButtonText :=
        if app.attached.isSome then "Delete Shape" else app.deleteButtonText } := by
  unfold detach updateDeleteButtonText
  cases h : app.attached <;> simp

/-- The state after `attach`: the object in the gizmo, and the text of the delete button
set for the object when the gizmo held another object or none. -/
theorem attach_eq (app : App α) (object : Mesh α) :
    attach app object = { app with
      attached := some object
      deleteButtonText :=
        if app.attached.map (fun m => m.id) != some object.id then
          "Delete " ++ getMeshName object
        else app.deleteButtonText } := by
  unfold attach updateDeleteButtonText
  simp only
  split_ifs <;> rfl

/-! ## Tool modes -/

theorem activeCount_toggleTool (app : App α) (tool : String) (btn : Btn) :
    activeCount (toggleTool app tool btn) ≤ 1 := by
  unfold toggleTool
  simp only [detach_eq, hideRepeatPrompt, showNotification]
  generalize (if app.attached.isSome = true then "Delete Shape" else app.deleteButtonText)
    = text
  split_ifs <;> simp [activeCount, modeFlags]

theorem runToggles_append (app : App α) (xs ys : List (String × Btn)) :
    runToggles app (xs ++ ys) = runToggles (runToggles app xs) ys := by
  induction xs generalizing app with
  | nil => rfl
  | cons c xs ih =>
    obtain ⟨t, b⟩ := c
    simp [runToggles, ih]

theorem activeModes_deleteSelectedShape (app : App α) (confirmed : Bool) :
    activeModes (deleteSelectedShape app confirmed) = activeModes app := by
  unfold deleteSelectedShape
  cases h : app.attached with
  | none => rfl
  | some mesh =>
    cases confirmed
    · rfl
    · simp only [updateDeleteButtonText, detach_eq, showNotification, if_true]
      rfl

theorem activeModes_escape (app : App α) :
    activeModes (showNotification (toggleTool app "select" Btn.select)
      "Mode canceled. Selection active.") = [Tool.select] := by
  simp [toggleTool, detach_eq, hideRepeatPrompt, showNotification, activeModes, flagOf]

theorem buttonOf_injective {a b : Tool} (h : buttonOf a = buttonOf b) : a = b := by
  cases a <;> cases b <;> first | rfl | cases h

/-- Clicking the active button of a tool other than select returns to Select. -/
theorem toggleTool_back (app : App α) (t : Tool) (btn : Btn) (h : btn ∈ app.activeButtons)
    (ht : t ≠ Tool.select) :
    activeModes (toggleTool app t.name btn) = [Tool.select]
      ∧ (toggleTool app t.name btn).activeButtons = [Btn.select] := by
  cases t <;>
    simp [toggleTool, detach_eq, hideRepeatPrompt, showNotification, activeModes, flagOf,
      Tool.name, classListAdd, h] at ht ⊢

/-- Any other call of toggleTool activates the requested tool and its button. -/
theorem toggleTool_on (app : App α) (t : Tool) (btn : Btn)
    (h : btn ∉ app.activeButtons ∨ t = Tool.select) :
    activeModes (toggleTool app t.name btn) = [t]
      ∧ (toggleTool app t.name btn).activeButtons = [btn] := by
  rcases h with h | h
  · cases t <;>
      simp [toggleTool, detach_eq, hideRepeatPrompt, showNotification, activeModes, flagOf,
        Tool.name, classListAdd, h]
  · subst h
    simp [toggleTool, detach_eq, hideRepeatPrompt, showNotification, activeModes, flagOf,
      Tool.name, classListAdd]

/-- After a call bound in initUI, one mode is active and its button alone is highlighted. -/
theorem toggleTool_wired (app : App α) (t : Tool) :
    ∃ m : Tool, activeModes (toggleTool app t.name (buttonOf t)) = [m]
      ∧ (toggleTool app t.name (buttonOf t)).activeButtons = [buttonOf m] := by
  by_cases h : buttonOf t ∈ app.activeButtons ∧ t ≠ Tool.select
  · exact ⟨Tool.select, toggleTool_back app t _ h.1 h.2⟩
  · refine ⟨t, toggleTool_on app t _ ?_⟩
    by_cases hs : t = Tool.select
    · exact Or.inr hs
    · exact Or.inl (fun hm => h ⟨hm, hs⟩)

/-- C1: for every sequence of toggleTool calls (any tool strings, in particular the eight
tool names, and any buttons), after each call, that is after every non-empty initial
segment of the sequence, at most one of the eight mode flags is true. -/
theorem toggleTool_at_most_one_mode (app : App α) (calls : List (String × Btn)) (n : Nat)
    (hn : 0 < n) (hle : n ≤ calls.length) :
    activeCount (runToggles app (calls.take n)) ≤ 1 := by
  obtain ⟨k, rfl⟩ : ∃ k, n = k + 1 := ⟨n - 1, by omega⟩
  have hk : k < calls.length := by omega
  rw [List.take_succ, List.getElem?_eq_getElem hk, runToggles_append]
  simp only [Option.toList, runToggles]
  exact activeCount_toggleTool _ _ _

theorem toggleTool_at_most_one_mode_witness :
    0 < 2
    ∧ 2 ≤ [("draw", Btn.draw), ("draw", Btn.draw), ("carve", Btn.carve)].length
    ∧ activeCount (runToggles sampleApp
        ([("draw", Btn.draw), ("draw", Btn.draw), ("carve", Btn.carve)].take 2)) ≤ 1 :=
  ⟨by decide, by decide,
    toggleTool_at_most_one_mode sampleApp
      [("draw", Btn.draw), ("draw", Btn.draw), ("carve", Btn.carve)] 2 (by decide) (by decide)⟩

/-- C2: in a state reached by a toggle (the call bound to the button of any tool prev,
from any state s0), toggleTool(tool, button of tool) yields Select alone when tool is the
active mode and is not select, and yields exactly tool otherwise; the same transition holds
in every state in which the button of a mode m alone is highlighted, whatever the flags
are; the Escape handler onKeyDown yields Select alone from every state. -/
theorem toggleTool_transition (s0 : App α) (prev tool m : Tool) (code activeTag : String)
    (confirmed : Bool) :
    activeModes (toggleTool (toggleTool s0 prev.name (buttonOf prev)) tool.name (buttonOf tool))
      = (if activeModes (toggleTool s0 prev.name (buttonOf prev)) = [tool] ∧ tool ≠ Tool.select
          then [Tool.select] else [tool])
    ∧ activeModes (toggleTool { s0 with activeButtons := [buttonOf m] } tool.name (buttonOf tool))
      = (if tool = m ∧ tool ≠ Tool.select then [Tool.select] else [tool])
    ∧ activeModes (onKeyDown s0 ⟨"Escape", code⟩ activeTag confirmed) = [Tool.select] := by
  have key : ∀ (s : App α) (cur : Tool), s.activeButtons = [buttonOf cur] →
      activeModes (toggleTool s tool.name (buttonOf tool))
        = (if tool = cur ∧ tool ≠ Tool.select then [Tool.select] else [tool]) := by
    intro s cur hb
    by_cases h : tool = cur ∧ tool ≠ Tool.select
    · obtain ⟨h1, h2⟩ := h
      subst h1
      have hin : buttonOf tool ∈ s.activeButtons := by rw [hb]; simp
      rw [(toggleTool_back s tool _ hin h2).1]
      simp [h2]
    · have hc : buttonOf tool ∉ s.activeButtons ∨ tool = Tool.select := by
        by_cases hs : tool = Tool.select
        · exact Or.inr hs
        · left
          rw [hb]
          intro hmem
          have : buttonOf tool = buttonOf cur := by simpa using hmem
          exact h ⟨buttonOf_injective this, hs⟩
      rw [(toggleTool_on s tool _ hc).1, if_neg h]
  refine ⟨?_, key _ m rfl, ?_⟩
  · obtain ⟨cur, hm, hb⟩ := toggleTool_wired s0 prev
    rw [hm, key _ cur hb]
    by_cases h : tool = cur ∧ tool ≠ Tool.select
    · have h2 : [cur] = [tool] ∧ tool ≠ Tool.select := ⟨by rw [h.1], h.2⟩
      rw [if_pos h, if_pos h2]
    · have h2 : ¬ ([cur] = [tool] ∧ tool ≠ Tool.select) := by
        intro hc
        exact h ⟨(List.singleton_inj.mp hc.1).symm, hc.2⟩
      rw [if_neg h, if_neg h2]
  · unfold onKeyDown
    simp only [beq_self_eq_true, if_true]
    split_ifs
    · rw [activeModes_deleteSelectedShape]; exact activeModes_escape s0
    · exact activeModes_escape s0
    · exact activeModes_escape s0

/-! ## Plane splits -/

theorem indexOf_ge (ms : List (Mesh α)) (mesh : Mesh α) : -1 ≤ indexOf ms mesh := by
  induction ms with
  | nil => simp [indexOf]
  | cons m rest ih =>
    unfold indexOf
    split_ifs <;> omega

theorem removeFromRegistry_cons (m : Mesh α) (rest : List (Mesh α)) (mesh : Mesh α) :
    removeFromRegistry (m :: rest) mesh
      = if m.id = mesh.id then rest else m :: removeFromRegistry rest mesh := by
  have hge := indexOf_ge rest mesh
  by_cases h : m.id = mesh.id
  · simp [removeFromRegistry, indexOf, h]
  · by_cases hi : indexOf rest mesh > -1
    · have h1 : (indexOf rest mesh + 1).toNat = (indexOf rest mesh).toNat + 1 := by omega
      have h2 : indexOf rest mesh + 1 > -1 := by omega
      simp [removeFromRegistry, indexOf, h, hi, h1, h2]
    · simp [removeFromRegistry, indexOf, h, hi]

/-- A registry that holds the object exactly once loses exactly that entry. -/
theorem removeFromRegistry_eq_filter (ms : List (Mesh α)) (mesh : Mesh α)
    (hone : (ms.map (fun m => m.id)).count mesh.id = 1) :
    removeFromRegistry ms mesh = ms.filter (fun m => m.id != mesh.id)
      ∧ (ms.filter (fun m => m.id != mesh.id)).length + 1 = ms.length := by
  induction ms with
  | nil => simp at hone
  | cons m rest ih =>
    rw [removeFromRegistry_cons]
    by_cases h : m.id = mesh.id
    · have hzero : (rest.map (fun m => m.id)).count mesh.id = 0 := by
        simpa [List.count_cons, h] using hone
      have hall : ∀ x ∈ rest, x.id ≠ mesh.id := by
        intro x hx hxe
        have : mesh.id ∈ rest.map (fun m => m.id) := List.mem_map.mpr ⟨x, hx, hxe⟩
        exact (List.count_eq_zero.mp hzero) this
      have hf : rest.filter (fun m => m.id != mesh.id) = rest := by
        apply List.filter_eq_self.mpr
        intro x hx
        simpa using hall x hx
      simp [h, hf]
    · have hrest : (rest.map (fun m => m.id)).count mesh.id = 1 := by
        simpa [List.count_cons, h] using hone
      obtain ⟨ih1, ih2⟩ := ih hrest
      simp [h, ih1, ih2]

section SplitTheorems

variable [LinearOrderedField α]

/-- The registry after `splitMeshCustom`: the spliced registry followed by the two halves. -/
theorem splitMeshCustom_meshes (app : App α) (mesh : Mesh α) (p n : Vector3 α) :
    (splitMeshCustom app mesh p n).meshes = removeFromRegistry app.meshes mesh ++
      [{ id := app.nextRef, geometry := mesh.geometry,
         material := { mesh.material with
           clippingPlanes := [⟨n.multiplyScalar 1, -((n.multiplyScalar 1).dot p)⟩] },
         position := mesh.position.add (n.multiplyScalar (1 * 0.2)),
         quaternion := mesh.quaternion, scale := mesh.scale },
       { id := app.nextRef + 1, geometry := mesh.geometry,
         material := { mesh.material with
           clippingPlanes := [⟨n.multiplyScalar (-1), -((n.multiplyScalar (-1)).dot p)⟩] },
         position := mesh.position.add (n.multiplyScalar (-1 * 0.2)),
         quaternion := mesh.quaternion, scale := mesh.scale }] := by
  simp [splitMeshCustom, splitMeshCustom.createClipped, storeLastCarve, showRepeatOptions,
    showNotification]

/-- The registry after `splitMesh`: the spliced registry followed by the two halves. -/
theorem splitMesh_meshes (app : App α) (mesh : Mesh α) (p : Vector3 α) :
    (splitMesh app mesh p).meshes = removeFromRegistry app.meshes mesh ++
      [{ id := app.nextRef, geometry := mesh.geometry,
         material := { mesh.material with
           clippingPlanes := [⟨(⟨0, 1, 0⟩ : Vector3 α).multiplyScalar 1, -p.y⟩] },
         position := { mesh.position with y := mesh.position.y + 1 * 0.2 },
         quaternion := defaultQuaternion, scale := defaultScale },
       { id := app.nextRef + 1, geometry := mesh.geometry,
         material := { mesh.material with
           clippingPlanes := [⟨(⟨0, 1, 0⟩ : Vector3 α).multiplyScalar (-1), p.y⟩] },
         position := { mesh.position with y := mesh.position.y + -1 * 0.2 },
         quaternion := defaultQuaternion, scale := defaultScale }] := by
  simp [splitMesh, splitMesh.createClipped, storeLastCarve, showRepeatOptions,
    showNotification]

/-- C3: for a shape that occurs exactly once in the registry (whose identities all come
from earlier constructor calls), splitMeshCustom and splitMesh leave the other shapes in
their order, followed by exactly two new shapes; the original is no longer a member and the
registry is longer by exactly 1. -/
theorem split_registry (app : App α) (mesh : Mesh α) (p n : Vector3 α)
    (hone : (app.meshes.map (fun m => m.id)).count mesh.id = 1)
    (hfresh : ∀ m ∈ app.meshes, m.id < app.nextRef) :
    ((∃ h1 h2 : Mesh α,
        (splitMeshCustom app mesh p n).meshes
          = app.meshes.filter (fun m => m.id != mesh.id) ++ [h1, h2]
        ∧ h1.id ≠ h2.id ∧ ∀ m ∈ app.meshes, m.id ≠ h1.id ∧ m.id ≠ h2.id)
      ∧ (∀ m ∈ (splitMeshCustom app mesh p n).meshes, m.id ≠ mesh.id)
      ∧ (splitMeshCustom app mesh p n).meshes.length = app.meshes.length + 1)
    ∧ ((∃ g1 g2 : Mesh α,
        (splitMesh app mesh p).meshes
          = app.meshes.filter (fun m => m.id != mesh.id) ++ [g1, g2]
        ∧ g1.id ≠ g2.id ∧ ∀ m ∈ app.meshes, m.id ≠ g1.id ∧ m.id ≠ g2.id)
      ∧ (∀ m ∈ (splitMesh app mesh p).meshes, m.id ≠ mesh.id)
      ∧ (splitMesh app mesh p).meshes.length = app.meshes.length + 1) := by
  obtain ⟨hrem, hlen⟩ := removeFromRegistry_eq_filter app.meshes mesh hone
  have hmem : mesh.id < app.nextRef := by
    have h0 : 0 < (app.meshes.map (fun m => m.id)).count mesh.id := by omega
    obtain ⟨x, hx, hxe⟩ := List.mem_map.mp (List.count_pos_iff.mp h0)
    have := hfresh x hx
    omega
  have hnew : ∀ m ∈ app.meshes, m.id ≠ app.nextRef ∧ m.id ≠ app.nextRef + 1 := by
    intro m hm
    have := hfresh m hm
    constructor <;> omega
  rw [splitMeshCustom_meshes, splitMesh_meshes, hrem]
  refine ⟨⟨⟨_, _, rfl, by simp, hnew⟩, ?_, ?_⟩, ⟨⟨_, _, rfl, by simp, hnew⟩, ?_, ?_⟩⟩
  · intro m hm
    simp only [List.mem_append, List.mem_filter, List.mem_cons, List.mem_singleton,
      List.not_mem_nil, or_false] at hm
    rcases hm with ⟨_, hm⟩ | rfl | rfl
    · simpa using hm
    · simp; omega
    · simp; omega
  · simp; omega
  · intro m hm
    simp only [List.mem_append, List.mem_filter, List.mem_cons, List.mem_singleton,
      List.not_mem_nil, or_false] at hm
    rcases hm with ⟨_, hm⟩ | rfl | rfl
    · simpa using hm
    · simp; omega
    · simp; omega
  · simp; omega

theorem split_registry_witness :
    ((sampleApp.meshes.map (fun m => m.id)).count (sampleRod 4 0 : Mesh ℚ).id = 1)
    ∧ (∀ m ∈ sampleApp.meshes, m.id < sampleApp.nextRef)
    ∧ (splitMeshCustom sampleApp (sampleRod 4 0) ⟨0, 1, 0⟩ ⟨1, 0, 0⟩).meshes.length = 3
    ∧ (splitMesh sampleApp (sampleRod 4 0) ⟨0, 1, 0⟩).meshes.length = 3 :=
  have h1 : (sampleApp.meshes.map (fun m => m.id)).count (sampleRod 4 0 : Mesh ℚ).id = 1 := by
    decide
  have h2 : ∀ m ∈ sampleApp.meshes, m.id < sampleApp.nextRef := by decide
  ⟨h1, h2, (split_registry sampleApp (sampleRod 4 0) ⟨0, 1, 0⟩ ⟨1, 0, 0⟩ h1 h2).1.2.2,
    (split_registry sampleApp (sampleRod 4 0) ⟨0, 1, 0⟩ ⟨1, 0, 0⟩ h1 h2).2.2.2⟩

/-- C4: the two halves appended by splitMeshCustom(mesh, p, n) carry the clipping planes
(n, -n.p) and (-n, n.p); the two halves appended by splitMesh(mesh, p) carry the same two
planes for n = (0, 1, 0). -/
theorem split_clipping_planes (app : App α) (mesh : Mesh α) (p n : Vector3 α) :
    (∃ h1 h2 : Mesh α,
        (splitMeshCustom app mesh p n).meshes = removeFromRegistry app.meshes mesh ++ [h1, h2]
        ∧ h1.material.clippingPlanes = [⟨n, -(n.dot p)⟩]
        ∧ h2.material.clippingPlanes = [⟨⟨-n.x, -n.y, -n.z⟩, n.dot p⟩])
    ∧ (∃ g1 g2 : Mesh α,
        (splitMesh app mesh p).meshes = removeFromRegistry app.meshes mesh ++ [g1, g2]
        ∧ g1.material.clippingPlanes
            = [⟨⟨0, 1, 0⟩, -((⟨0, 1, 0⟩ : Vector3 α).dot p)⟩]
        ∧ g2.material.clippingPlanes
            = [⟨⟨0, -1, 0⟩, (⟨0, 1, 0⟩ : Vector3 α).dot p⟩]) := by
  rw [splitMeshCustom_meshes, splitMesh_meshes]
  refine ⟨⟨_, _, rfl, ?_, ?_⟩, ⟨_, _, rfl, ?_, ?_⟩⟩
  · simp [Vector3.multiplyScalar, Vector3.dot]
  · simp [Vector3.multiplyScalar, Vector3.dot]
    ring
  · simp [Vector3.multiplyScalar, Vector3.dot]
  · simp [Vector3.multiplyScalar, Vector3.dot]

/-- C5: the first half of a plane split sits at the position of the original shape plus
0.2 times the split normal, the second half at that position minus 0.2 times the normal;
for splitMesh the normal is (0, 1, 0). -/
theorem split_offsets (app : App α) (mesh : Mesh α) (p n : Vector3 α) :
    (∃ h1 h2 : Mesh α,
        (splitMeshCustom app mesh p n).meshes = removeFromRegistry app.meshes mesh ++ [h1, h2]
        ∧ h1.position = ⟨mesh.position.x + 0.2 * n.x, mesh.position.y + 0.2 * n.y,
            mesh.position.z + 0.2 * n.z⟩
        ∧ h2.position = ⟨mesh.position.x - 0.2 * n.x, mesh.position.y - 0.2 * n.y,
            mesh.position.z - 0.2 * n.z⟩)
    ∧ (∃ g1 g2 : Mesh α,
        (splitMesh app mesh p).meshes = removeFromRegistry app.meshes mesh ++ [g1, g2]
        ∧ g1.position = ⟨mesh.position.x + 0.2 * 0, mesh.position.y + 0.2 * 1,
            mesh.position.z + 0.2 * 0⟩
        ∧ g2.position = ⟨mesh.position.x - 0.2 * 0, mesh.position.y - 0.2 * 1,
            mesh.position.z - 0.2 * 0⟩) := by
  rw [splitMeshCustom_meshes, splitMesh_meshes]
  refine ⟨⟨_, _, rfl, ?_, ?_⟩, ⟨_, _, rfl, ?_, ?_⟩⟩ <;>
    simp [Vector3.multiplyScalar, Vector3.add] <;> ring_nf <;> simp

end SplitTheorems

/-! ## Boolean cuts -/

section CutTheorems

variable [LinearOrderedField α]

/-- A loop in which no target meets the cutter leaves the state as it is, whether the
identifier is unbound or bound to the intersection of the library. -/
theorem applySketchCarveAt_loop_disjoint (lib : Three α) (binding : Option CsgOp)
    (hb : binding = INTERSECTION ∨ binding = some CsgOp.INTERSECTION) (cutter : Brush α)
    (targets : List (Mesh α)) (app : App α) (carved : Bool)
    (hdisj : ∀ m ∈ targets,
      (lib.evaluate (targetBrush m) cutter CsgOp.INTERSECTION).position = some []) :
    (applySketchCarveAt.loop lib binding cutter targets app carved).1 = app := by
  induction targets with
  | nil => rfl
  | cons m rest ih =>
    rcases hb with hb | hb
    · subst hb
      rfl
    · subst hb
      have hm := hdisj m (List.mem_cons_self _ _)
      have hrest : ∀ x ∈ rest,
          (lib.evaluate (targetBrush x) cutter CsgOp.INTERSECTION).position = some [] :=
        fun x hx => hdisj x (List.mem_cons_of_mem _ hx)
      simp only [applySketchCarveAt.loop, hm, List.length_nil, gt_iff_lt, lt_self_iff_false,
        if_false]
      exact ih hrest

/-- The registry after `punchHole`: the spliced registry followed by the result. -/
theorem punchHole_meshes (lib : Three α) (app : App α) (mesh : Mesh α) (point : Vector3 α) :
    (punchHole lib app mesh point).meshes = removeFromRegistry app.meshes mesh ++
      [{ id := app.nextRef,
         geometry := lib.evaluate (targetBrush mesh) (punchHole.cutterBrush lib app point)
           CsgOp.SUBTRACTION,
         material := mesh.material, position := defaultPosition,
         quaternion := defaultQuaternion, scale := defaultScale }] := by
  simp [punchHole, storeLastCarve, showRepeatOptions, showNotification]

/-- With `INTERSECTION` unbound, a call on a registry that is not empty raises the
`ReferenceError` at the first target and changes nothing. -/
theorem applySketchCarveAt_nonempty (lib : Three α) (app : App α) (m : Mesh α)
    (rest : List (Mesh α)) (hm : app.meshes = m :: rest) (shapePoints : List (Vector2 α))
    (center direction : Vector3 α) :
    applySketchCarveAt lib app shapePoints center direction
      = (app, Except.error (JsError.ReferenceError "INTERSECTION")) := by
  simp [applySketchCarveAt, applySketchCarveAtWith, hm, applySketchCarveAt.loop, INTERSECTION]

/-- C6 (as amended): when the intersection of the cutter with every shape of the registry is
empty, applySketchCarveAt leaves the registry and the scene graph exactly as they were, for
the module as it is and for a module that binds INTERSECTION to the intersection of the
library; punchHole makes no intersection test: for a target that occurs once in the
registry it removes the target and appends one new shape that carries the geometry of the
subtraction and the material of the target, so the registry keeps its length. -/
theorem boolean_cut_disjoint (lib : Three α) (app : App α) (binding : Option CsgOp)
    (hb : binding = INTERSECTION ∨ binding = some CsgOp.INTERSECTION)
    (shapePoints : List (Vector2 α)) (center direction : Vector3 α)
    (hdisj : ∀ m ∈ app.meshes,
      (lib.evaluate (targetBrush m)
        (applySketchCarveAt.cutterBrush lib shapePoints center direction)
        CsgOp.INTERSECTION).position = some [])
    (mesh : Mesh α) (point : Vector3 α)
    (hone : (app.meshes.map (fun m => m.id)).count mesh.id = 1) :
    (applySketchCarveAtWith lib binding app shapePoints center direction).1.meshes = app.meshes
    ∧ (applySketchCarveAtWith lib binding app shapePoints center direction).1.scene = app.scene
    ∧ (applySketchCarveAt lib app shapePoints center direction).1.meshes = app.meshes
    ∧ (applySketchCarveAt lib app shapePoints center direction).1.scene = app.scene
    ∧ (∃ r : Mesh α,
        (punchHole lib app mesh point).meshes
          = app.meshes.filter (fun m => m.id != mesh.id) ++ [r]
        ∧ r.id = app.nextRef
        ∧ r.geometry = lib.evaluate (targetBrush mesh) (punchHole.cutterBrush lib app point)
            CsgOp.SUBTRACTION
        ∧ r.material = mesh.material)
    ∧ (punchHole lib app mesh point).meshes.length = app.meshes.length := by
  have h1 := applySketchCarveAt_loop_disjoint lib binding hb
    (applySketchCarveAt.cutterBrush lib shapePoints center direction) app.meshes app false hdisj
  have h2 := applySketchCarveAt_loop_disjoint lib INTERSECTION (Or.inl rfl)
    (applySketchCarveAt.cutterBrush lib shapePoints center direction) app.meshes app false hdisj
  obtain ⟨hrem, hlen⟩ := removeFromRegistry_eq_filter app.meshes mesh hone
  refine ⟨?_, ?_, ?_, ?_, ⟨Mesh.mk app.nextRef
    (lib.evaluate (targetBrush mesh) (punchHole.cutterBrush lib app point) CsgOp.SUBTRACTION)
    mesh.material defaultPosition defaultQuaternion defaultScale, ?_, rfl, rfl, rfl⟩, ?_⟩
  · exact congrArg App.meshes h1
  · exact congrArg App.scene h1
  · exact congrArg App.meshes h2
  · exact congrArg App.scene h2
  · rw [punchHole_meshes, hrem]
  · rw [punchHole_meshes, hrem]
    simp
    omega

theorem boolean_cut_disjoint_witness :
    (∀ m ∈ sampleApp.meshes,
      (disjointLib.evaluate (targetBrush m)
        (applySketchCarveAt.cutterBrush disjointLib [⟨0, 0⟩, ⟨1, 0⟩, ⟨0, 1⟩] ⟨0, 0, 0⟩ ⟨0, 0, 1⟩)
        CsgOp.INTERSECTION).position = some [])
    ∧ (sampleApp.meshes.map (fun m => m.id)).count (sampleRod 4 0 : Mesh ℚ).id = 1
    ∧ (applySketchCarveAtWith disjointLib (some CsgOp.INTERSECTION) sampleApp
        [⟨0, 0⟩, ⟨1, 0⟩, ⟨0, 1⟩] ⟨0, 0, 0⟩ ⟨0, 0, 1⟩).1.meshes = sampleApp.meshes
    ∧ (punchHole disjointLib sampleApp (sampleRod 4 0) ⟨0, 0, 0⟩).meshes.length
        = sampleApp.meshes.length :=
  have h1 : ∀ m ∈ sampleApp.meshes,
      (disjointLib.evaluate (targetBrush m)
        (applySketchCarveAt.cutterBrush disjointLib [⟨0, 0⟩, ⟨1, 0⟩, ⟨0, 1⟩] ⟨0, 0, 0⟩ ⟨0, 0, 1⟩)
        CsgOp.INTERSECTION).position = some [] := fun _ _ => rfl
  have h2 : (sampleApp.meshes.map (fun m => m.id)).count (sampleRod 4 0 : Mesh ℚ).id = 1 := by
    decide
  ⟨h1, h2,
    (boolean_cut_disjoint disjointLib sampleApp (some CsgOp.INTERSECTION) (Or.inr rfl)
      [⟨0, 0⟩, ⟨1, 0⟩, ⟨0, 1⟩] ⟨0, 0, 0⟩ ⟨0, 0, 1⟩ h1 (sampleRod 4 0) ⟨0, 0, 0⟩ h2).1,
    (boolean_cut_disjoint disjointLib sampleApp (some CsgOp.INTERSECTION) (Or.inr rfl)
      [⟨0, 0⟩, ⟨1, 0⟩, ⟨0, 1⟩] ⟨0, 0, 0⟩ ⟨0, 0, 1⟩ h1 (sampleRod 4 0) ⟨0, 0, 0⟩ h2).2.2.2.2.2⟩

/-- C6 (as stated) fails for punchHole: with a cutter whose intersection with the target is
empty, the registry and the scene graph change; the target with identity 4 leaves both and
a new shape with identity 6 is appended to both. -/
theorem punchHole_disjoint_changes_registry :
    (disjointLib.evaluate (targetBrush (sampleRod 4 0))
        (punchHole.cutterBrush disjointLib sampleApp ⟨0, 0, 0⟩) CsgOp.INTERSECTION).position
      = some []
    ∧ sampleApp.meshes.map (fun m => m.id) = [4, 5]
    ∧ (punchHole disjointLib sampleApp (sampleRod 4 0) ⟨0, 0, 0⟩).meshes.map (fun m => m.id)
      = [5, 6]
    ∧ sampleApp.scene = [0, 1, 2, 3, 4, 5]
    ∧ (punchHole disjointLib sampleApp (sampleRod 4 0) ⟨0, 0, 0⟩).scene = [0, 1, 2, 3, 5, 6]
    ∧ (punchHole disjointLib sampleApp (sampleRod 4 0) ⟨0, 0, 0⟩).meshes ≠ sampleApp.meshes := by
  refine ⟨rfl, by decide, by decide, by decide, by decide, ?_⟩
  intro h
  have := congrArg (fun l => l.map (fun m : Mesh ℚ => m.id)) h
  revert this
  decide

/-- C7 (the code at the failing input): in the sample registry both shapes meet the
cutter, and applySketchCarveAt raises the ReferenceError of the unbound identifier
INTERSECTION and leaves the registry as it was; with the identifier bound to the
intersection of the library the same call replaces both shapes and returns true. -/
theorem applySketchCarveAt_raises :
    (∀ m ∈ sampleApp.meshes, ∃ buffer,
      (overlapLib.evaluate (targetBrush m)
        (applySketchCarveAt.cutterBrush overlapLib [⟨0, 0⟩, ⟨1, 0⟩, ⟨0, 1⟩] ⟨0, 0, 0⟩ ⟨0, 0, 1⟩)
        CsgOp.INTERSECTION).position = some buffer ∧ buffer.length > 0)
    ∧ (applySketchCarveAt overlapLib sampleApp [⟨0, 0⟩, ⟨1, 0⟩, ⟨0, 1⟩] ⟨0, 0, 0⟩ ⟨0, 0, 1⟩).2
      = Except.error (JsError.ReferenceError "INTERSECTION")
    ∧ (applySketchCarveAt overlapLib sampleApp
        [⟨0, 0⟩, ⟨1, 0⟩, ⟨0, 1⟩] ⟨0, 0, 0⟩ ⟨0, 0, 1⟩).1.meshes = sampleApp.meshes
    ∧ (applySketchCarveAtWith overlapLib (some CsgOp.INTERSECTION) sampleApp
        [⟨0, 0⟩, ⟨1, 0⟩, ⟨0, 1⟩] ⟨0, 0, 0⟩ ⟨0, 0, 1⟩).2 = Except.ok true
    ∧ (applySketchCarveAtWith overlapLib (some CsgOp.INTERSECTION) sampleApp
        [⟨0, 0⟩, ⟨1, 0⟩, ⟨0, 1⟩] ⟨0, 0, 0⟩ ⟨0, 0, 1⟩).1.meshes.map (fun m => m.id) = [6, 7] := by
  refine ⟨?_, rfl, rfl, ?_, ?_⟩
  · intro m hm
    refine ⟨[⟨0, 0, 0⟩, ⟨1, 0, 0⟩], ?_, by decide⟩
    simp only [sampleApp, List.mem_cons, List.mem_singleton, List.not_mem_nil, or_false] at hm
    rcases hm with rfl | rfl <;> rfl
  · rfl
  · decide

end CutTheorems

/-! ## Bend -/

theorem getD_append_cons (pre rest : List (Vector3 α)) (v d : Vector3 α) :
    (pre ++ v :: rest).getD pre.length d = v := by
  induction pre with
  | nil => rfl
  | cons a pre ih => simpa using ih

theorem modify_append_cons (f : Vector3 α → Vector3 α) (pre rest : List (Vector3 α))
    (v : Vector3 α) :
    (pre ++ v :: rest).modify f pre.length = pre ++ f v :: rest := by
  induction pre with
  | nil => rfl
  | cons a pre ih => simp [ih]

section BendTheorems

variable [LinearOrderedField α]

/-- The loop, started at the index where `post` begins, rewrites `post` vertex by vertex
from the old coordinates and leaves the part before the index as it is. -/
theorem applyBend_loop_eq (sin cos : α → α) (k : α) (post pre : List (Vector3 α)) :
    applyBend.loop sin cos k post.length pre.length (pre ++ post)
      = pre ++ post.map (fun v =>
          ⟨sin (v.x * k) * (1 / k + v.y), cos (v.x * k) * (1 / k + v.y) - 1 / k, v.z⟩) := by
  induction post generalizing pre with
  | nil => simp [applyBend.loop]
  | cons v rest ih =>
    have hstep := ih (pre ++ [⟨sin (v.x * k) * (1 / k + v.y),
      cos (v.x * k) * (1 / k + v.y) - 1 / k, v.z⟩])
    simp only [List.length_append, List.length_singleton, List.append_assoc,
      List.singleton_append] at hstep
    simp only [List.length_cons, applyBend.loop, getX, getY, setXY, getD_append_cons,
      modify_append_cons, List.map_cons]
    exact hstep

theorem applyBend_buffer_eq (sin cos : α → α) (position : List (Vector3 α)) :
    applyBend.buffer sin cos position
      = position.map (fun v =>
          ⟨sin (v.x * 0.5) * (1 / 0.5 + v.y), cos (v.x * 0.5) * (1 / 0.5 + v.y) - 1 / 0.5,
            v.z⟩) := by
  have h := applyBend_loop_eq sin cos (0.5 : α) position []
  simpa [applyBend.buffer] using h

/-- C8: with k = 0.5, applyBend maps each vertex (x, y, z) of the buffer to
(sin(x*k) * (1/k + y), cos(x*k) * (1/k + y) - 1/k, z), both new coordinates from the old x
and y: the buffer after the call is the image of the buffer before under this map, vertex
by vertex in the same order, so the count is the same and every z is unchanged; the method
stores this buffer in the shape of the registry that was bent. -/
theorem applyBend_vertices (sin cos : α → α) (position : List (Vector3 α)) (app : App α)
    (mesh : Mesh α) :
    applyBend.buffer sin cos position
      = position.map (fun v =>
          ⟨sin (v.x * 0.5) * (1 / 0.5 + v.y), cos (v.x * 0.5) * (1 / 0.5 + v.y) - 1 / 0.5,
            v.z⟩)
    ∧ (applyBend.buffer sin cos position).length = position.length
    ∧ (applyBend.buffer sin cos position).map (fun v => v.z) = position.map (fun v => v.z)
    ∧ ((applyBend sin cos
          { app with meshes :=
              [{ mesh with geometry := { mesh.geometry with position := some position } }] }
          { mesh with geometry := { mesh.geometry with position := some position } }).meshes.map
        (fun m => m.geometry.position)
        = [some (applyBend.buffer sin cos position)]) := by
  refine ⟨applyBend_buffer_eq sin cos position, ?_, ?_, ?_⟩
  · rw [applyBend_buffer_eq]; simp
  · rw [applyBend_buffer_eq]; simp
  · simp [applyBend, writePosition, showNotification]

/-- The registry after `applyBend` on a shape with a vertex buffer: every shape with the
identity of the bent shape holds the new buffer, the other shapes are as they were. -/
theorem applyBend_registry (sin cos : α → α) (app : App α) (mesh : Mesh α)
    (position : List (Vector3 α)) (hpos : mesh.geometry.position = some position) :
    (applyBend sin cos app mesh).meshes
      = app.meshes.map (fun m =>
          if m.id == mesh.id then
            { m with geometry := { m.geometry with
                position := some (applyBend.buffer sin cos position) } }
          else m) := by
  simp only [applyBend, hpos, showNotification, writePosition]

/-- After `applyBend`, a shape of the registry with the identity of the bent shape holds
the new buffer. -/
theorem applyBend_stores (sin cos : α → α) (app : App α) (mesh : Mesh α)
    (position : List (Vector3 α)) (hpos : mesh.geometry.position = some position)
    (m : Mesh α) (hm : m ∈ (applyBend sin cos app mesh).meshes) (hid : m.id = mesh.id) :
    m.geometry.position = some (applyBend.buffer sin cos position) := by
  rw [applyBend_registry sin cos app mesh position hpos, List.mem_map] at hm
  obtain ⟨m0, _, rfl⟩ := hm
  by_cases h0 : m0.id = mesh.id
  · simp [h0]
  · simp [h0] at hid

/-- After `applyBend` on a shape of the registry, the registry holds a shape with the
identity of the bent shape. -/
theorem applyBend_keeps (sin cos : α → α) (app : App α) (mesh : Mesh α)
    (position : List (Vector3 α)) (hpos : mesh.geometry.position = some position)
    (hmem : mesh ∈ app.meshes) :
    ∃ m ∈ (applyBend sin cos app mesh).meshes, m.id = mesh.id := by
  rw [applyBend_registry sin cos app mesh position hpos]
  refine ⟨_, List.mem_map.mpr ⟨mesh, hmem, rfl⟩, ?_⟩
  simp

/-- C9: over the real numbers, with k = 0.5: after applyBend on a shape of the registry
with a vertex buffer, the registry holds a shape with the identity of the bent shape, and
every such shape holds a buffer of the same length in which the image (x1, y1, z1) of each
vertex (x, y, z) of the buffer before the call satisfies
x1^2 + (y1 + 1/k)^2 = (1/k + y)^2 and z1 = z; a vertex of a rod on the local X axis (y = 0)
lands on the circle of radius 1/k, x1^2 + (y1 + 1/k)^2 = (1/k)^2. -/
theorem applyBend_arc (app : App ℝ) (mesh : Mesh ℝ) (position : List (Vector3 ℝ))
    (hmem : mesh ∈ app.meshes) (hpos : mesh.geometry.position = some position) :
    (∃ m ∈ (applyBend Real.sin Real.cos app mesh).meshes, m.id = mesh.id)
    ∧ ∀ m ∈ (applyBend Real.sin Real.cos app mesh).meshes, m.id = mesh.id →
      ∃ bent : List (Vector3 ℝ), m.geometry.position = some bent
        ∧ bent.length = position.length
        ∧ ∀ (i : Nat) (v : Vector3 ℝ), position[i]? = some v →
          ∃ w : Vector3 ℝ, bent[i]? = some w
            ∧ w.x ^ 2 + (w.y + 1 / 0.5) ^ 2 = (1 / 0.5 + v.y) ^ 2
            ∧ w.z = v.z
            ∧ (v.y = 0 → w.x ^ 2 + (w.y + 1 / 0.5) ^ 2 = (1 / 0.5) ^ 2) := by
  have hcircle : ∀ a r : ℝ, (Real.sin a * r) ^ 2 + (Real.cos a * r - 1 / 0.5 + 1 / 0.5) ^ 2
      = r ^ 2 := by
    intro a r
    have h := Real.sin_sq_add_cos_sq a
    have : (Real.sin a * r) ^ 2 + (Real.cos a * r - 1 / 0.5 + 1 / 0.5) ^ 2
        = (Real.sin a ^ 2 + Real.cos a ^ 2) * r ^ 2 := by ring
    rw [this, h, one_mul]
  refine ⟨applyBend_keeps Real.sin Real.cos app mesh position hpos hmem, ?_⟩
  intro m hm hid
  refine ⟨applyBend.buffer Real.sin Real.cos position,
    applyBend_stores Real.sin Real.cos app mesh position hpos m hm hid, ?_, ?_⟩
  · rw [applyBend_buffer_eq]
    simp
  · intro i v hv
    refine ⟨⟨Real.sin (v.x * 0.5) * (1 / 0.5 + v.y),
      Real.cos (v.x * 0.5) * (1 / 0.5 + v.y) - 1 / 0.5, v.z⟩, ?_, ?_, rfl, ?_⟩
    · rw [applyBend_buffer_eq]
      simp [hv]
    · exact hcircle _ _
    · intro hy
      have h := hcircle (v.x * 0.5) (1 / 0.5 + v.y)
      rw [hy, add_zero] at h
      simpa [hy] using h

theorem applyBend_arc_witness :
    (sampleRod 4 0 : Mesh ℝ)
      ∈ ({ (App.init samplePage : App ℝ) with meshes := [sampleRod 4 0] }).meshes
    ∧ (sampleRod 4 0 : Mesh ℝ).geometry.position = some [⟨0, 0, 0⟩, ⟨1, 0, 0⟩]
    ∧ ∃ m ∈ (applyBend Real.sin Real.cos
          { (App.init samplePage : App ℝ) with meshes := [sampleRod 4 0] }
          (sampleRod 4 0)).meshes,
        m.id = 4
        ∧ ∃ bent : List (Vector3 ℝ), m.geometry.position = some bent
          ∧ ∃ w : Vector3 ℝ, bent[1]? = some w
            ∧ w.x ^ 2 + (w.y + 1 / 0.5) ^ 2 = (1 / 0.5) ^ 2 :=
  have hmem : (sampleRod 4 0 : Mesh ℝ)
      ∈ ({ (App.init samplePage : App ℝ) with meshes := [sampleRod 4 0] }).meshes :=
    List.mem_singleton.mpr rfl
  have h := applyBend_arc { (App.init samplePage : App ℝ) with meshes := [sampleRod 4 0] }
    (sampleRod 4 0) [⟨0, 0, 0⟩, ⟨1, 0, 0⟩] hmem rfl
  ⟨hmem, rfl, by
    obtain ⟨m, hm, hid⟩ := h.1
    obtain ⟨bent, hb, _, hv⟩ := h.2 m hm hid
    obtain ⟨w, hw, _, _, hy⟩ := hv 1 ⟨1, 0, 0⟩ rfl
    exact ⟨m, hm, hid, bent, hb, w, hw, hy rfl⟩⟩

/-- C10: the buffer that applyBend stores in the bent shape is a function of the buffer
before the call alone (k is the constant 0.5): whatever the rest of the state and the
transform of the shape, after applyBend on a shape with a vertex buffer every shape of the
registry with the identity of the bent shape holds the image of that buffer under
(x, y, z) to (sin(x*k) * (1/k + y), cos(x*k) * (1/k + y) - 1/k, z). And applyBend is not
idempotent: when the registry holds one shape, with the single vertex (pi, 0, 0), one call
leaves a shape with the buffer [(2, -2, 0)], and a second call, on that shape, leaves a
shape with the buffer [(0, -2, 0)], so a registry different from the one after one call. -/
theorem applyBend_not_idempotent (app : App ℝ) (mesh : Mesh ℝ) :
    (∀ position : List (Vector3 ℝ), mesh.geometry.position = some position →
      ∀ m ∈ (applyBend Real.sin Real.cos app mesh).meshes, m.id = mesh.id →
        m.geometry.position = some (position.map (fun v =>
          ⟨Real.sin (v.x * 0.5) * (1 / 0.5 + v.y),
            Real.cos (v.x * 0.5) * (1 / 0.5 + v.y) - 1 / 0.5, v.z⟩)))
    ∧ (mesh.geometry.position = some [⟨Real.pi, 0, 0⟩] → app.meshes = [mesh] →
      ∃ once twice : Mesh ℝ,
        (applyBend Real.sin Real.cos app mesh).meshes = [once]
        ∧ once.geometry.position = some [⟨2, -2, 0⟩]
        ∧ (applyBend Real.sin Real.cos (applyBend Real.sin Real.cos app mesh) once).meshes
          = [twice]
        ∧ twice.geometry.position = some [⟨0, -2, 0⟩]
        ∧ (applyBend Real.sin Real.cos (applyBend Real.sin Real.cos app mesh) once).meshes
          ≠ (applyBend Real.sin Real.cos app mesh).meshes) := by
  have hhalf : Real.pi * 0.5 = Real.pi / 2 := by norm_num; ring
  have hone : applyBend.buffer Real.sin Real.cos [⟨Real.pi, 0, 0⟩] = [⟨2, -2, 0⟩] := by
    rw [applyBend_buffer_eq]
    simp only [List.map_cons, List.map_nil, hhalf, Real.sin_pi_div_two, Real.cos_pi_div_two]
    norm_num
  have htwo : applyBend.buffer Real.sin Real.cos [⟨2, -2, 0⟩] = [⟨0, -2, 0⟩] := by
    rw [applyBend_buffer_eq]
    simp only [List.map_cons, List.map_nil]
    norm_num
  constructor
  · intro position hpos m hm hid
    rw [applyBend_stores Real.sin Real.cos app mesh position hpos m hm hid,
      applyBend_buffer_eq]
  · intro hpos hreg
    have h1 : (applyBend Real.sin Real.cos app mesh).meshes
        = [{ mesh with geometry := { mesh.geometry with position := some [⟨2, -2, 0⟩] } }] := by
      rw [applyBend_registry Real.sin Real.cos app mesh _ hpos, hreg, hone]
      simp
    have h2 : (applyBend Real.sin Real.cos (applyBend Real.sin Real.cos app mesh)
        { mesh with geometry := { mesh.geometry with position := some [⟨2, -2, 0⟩] } }).meshes
        = [{ mesh with geometry := { mesh.geometry with position := some [⟨0, -2, 0⟩] } }] := by
      rw [applyBend_registry Real.sin Real.cos _ _ [⟨2, -2, 0⟩] rfl, h1, htwo]
      simp
    refine ⟨_, _, h1, rfl, h2, rfl, ?_⟩
    rw [h2, h1]
    intro h
    have hx := congrArg (fun l : List (Mesh ℝ) =>
      l.map (fun m => (m.geometry.position.getD []).map (fun v => v.x))) h
    norm_num at hx

theorem applyBend_not_idempotent_witness :
    ({ (sampleRod 4 0 : Mesh ℝ) with
        geometry := { type := "BufferGeometry", parameters := [],
                      position := some [⟨Real.pi, 0, 0⟩] } }).geometry.position
      = some [⟨Real.pi, 0, 0⟩]
    ∧ ∃ once twice : Mesh ℝ,
      (applyBend Real.sin Real.cos
        { (App.init samplePage : App ℝ) with
          meshes := [{ (sampleRod 4 0 : Mesh ℝ) with
            geometry := { type := "BufferGeometry", parameters := [],
                          position := some [⟨Real.pi, 0, 0⟩] } }] }
        { (sampleRod 4 0 : Mesh ℝ) with
          geometry := { type := "BufferGeometry", parameters := [],
                        position := some [⟨Real.pi, 0, 0⟩] } }).meshes = [once]
      ∧ once.geometry.position = some [⟨2, -2, 0⟩]
      ∧ (applyBend Real.sin Real.cos
          (applyBend Real.sin Real.cos
            { (App.init samplePage : App ℝ) with
              meshes := [{ (sampleRod 4 0 : Mesh ℝ) with
                geometry := { type := "BufferGeometry", parameters := [],
                              position := some [⟨Real.pi, 0, 0⟩] } }] }
            { (sampleRod 4 0 : Mesh ℝ) with
              geometry := { type := "BufferGeometry", parameters := [],
                            position := some [⟨Real.pi, 0, 0⟩] } }) once).meshes = [twice]
      ∧ twice.geometry.position = some [⟨0, -2, 0⟩] :=
  ⟨rfl, by
    obtain ⟨once, twice, h1, h2, h3, h4, _⟩ :=
      (applyBend_not_idempotent
        { (App.init samplePage : App ℝ) with
          meshes := [{ (sampleRod 4 0 : Mesh ℝ) with
            geometry := { type := "BufferGeometry", parameters := [],
                          position := some [⟨Real.pi, 0, 0⟩] } }] }
        { (sampleRod 4 0 : Mesh ℝ) with
          geometry := { type := "BufferGeometry", parameters := [],
                        position := some [⟨Real.pi, 0, 0⟩] } }).2 rfl rfl
    exact ⟨once, twice, h1, h2, h3, h4⟩⟩

end BendTheorems

/-! ## Merge -/

theorem foldl_sceneRemove_not_mem (ids scene : List Nat) (hnodup : scene.Nodup) (x : Nat)
    (hx : x ∈ ids) : x ∉ ids.foldl (fun sc r => sceneRemove sc r) scene := by
  induction ids generalizing scene with
  | nil => simp at hx
  | cons a rest ih =>
    simp only [List.foldl_cons]
    have hn : (sceneRemove scene a).Nodup := hnodup.erase a
    by_cases hxa : x = a
    · subst hxa
      have hnot : x ∉ sceneRemove scene x := by
        unfold sceneRemove
        exact fun h => (List.Nodup.mem_erase_iff hnodup).mp h |>.1 rfl
      have hsub : ∀ (l : List Nat) (sc : List Nat), x ∉ sc →
          x ∉ l.foldl (fun sc r => sceneRemove sc r) sc := by
        intro l
        induction l with
        | nil => intro sc h; simpa using h
        | cons b l ihl =>
          intro sc h
          simp only [List.foldl_cons]
          apply ihl
          unfold sceneRemove
          exact fun hm => h (List.mem_of_mem_erase hm)
      exact hsub rest _ hnot
    · have hx2 : x ∈ rest := by
        rcases List.mem_cons.mp hx with h | h
        · exact absurd h hxa
        · exact h
      exact ih _ hn hx2

theorem foldl_sceneRemove_subset (ids scene : List Nat) (x : Nat)
    (hx : x ∈ ids.foldl (fun sc r => sceneRemove sc r) scene) : x ∈ scene := by
  induction ids generalizing scene with
  | nil => simpa using hx
  | cons a rest ih =>
    simp only [List.foldl_cons] at hx
    have := ih _ hx
    unfold sceneRemove at this
    exact List.mem_of_mem_erase this

theorem mergeAll_foldl (shapes : Shapes α) (ms : List (Mesh α))
    (gs : List (BufferGeometry α)) (sc : List Nat) :
    ms.foldl (fun (state : List (BufferGeometry α) × List Nat) (m : Mesh α) =>
        (state.1 ++ [shapes.applyMatrix4 m.geometry m.position m.quaternion m.scale],
          sceneRemove state.2 m.id)) (gs, sc)
      = (gs ++ ms.map (fun m => shapes.applyMatrix4 m.geometry m.position m.quaternion m.scale),
          (ms.map (fun m => m.id)).foldl (fun sc r => sceneRemove sc r) sc) := by
  induction ms generalizing gs sc with
  | nil => simp
  | cons m rest ih => simp [ih]

section MergeTheorems

variable [LinearOrderedField α]

/-- C11, as the code has it: mergeAll on a registry of fewer than two shapes leaves the
registry and the scene graph as they are. On a registry of two or more shapes, when
mergeGeometries returns a geometry for the list, in registry order, of the geometries with
the world transform applied, the call returns and leaves exactly one shape in the registry,
with a fresh identity, the default material (colour 0x00f2ff) and that geometry; no input
remains in the registry or in the scene graph, and the merged shape is in the scene graph.
When mergeGeometries returns null, the call raises a TypeError: every input is still in the
registry and none of them is in the scene graph. -/
theorem mergeAll_spec (shapes : Shapes α) (app : App α) (hscene : app.scene.Nodup)
    (hfresh : ∀ m ∈ app.meshes, m.id < app.nextRef) :
    (app.meshes.length < 2 →
      (mergeAll shapes app).2 = Except.ok ()
      ∧ (mergeAll shapes app).1.meshes = app.meshes
      ∧ (mergeAll shapes app).1.scene = app.scene)
    ∧ (∀ g : BufferGeometry α, 2 ≤ app.meshes.length →
      shapes.mergeGeometries (app.meshes.map (fun m =>
        shapes.applyMatrix4 m.geometry m.position m.quaternion m.scale)) = some g →
      (mergeAll shapes app).2 = Except.ok ()
      ∧ ∃ merged : Mesh α, (mergeAll shapes app).1.meshes = [merged]
        ∧ merged.id = app.nextRef
        ∧ (∀ m ∈ app.meshes, m.id ≠ merged.id)
        ∧ merged.material = defaultMaterial
        ∧ merged.material.color = 0x00f2ff
        ∧ merged.geometry = g
        ∧ (∀ m ∈ app.meshes, m.id ∉ (mergeAll shapes app).1.scene)
        ∧ merged.id ∈ (mergeAll shapes app).1.scene)
    ∧ (2 ≤ app.meshes.length →
      shapes.mergeGeometries (app.meshes.map (fun m =>
        shapes.applyMatrix4 m.geometry m.position m.quaternion m.scale)) = none →
      (mergeAll shapes app).2 = Except.error (JsError.TypeError "geometry is null")
      ∧ (mergeAll shapes app).1.meshes = app.meshes
      ∧ (∀ m ∈ app.meshes, m.id ∉ (mergeAll shapes app).1.scene)) := by
  refine ⟨?_, ?_, ?_⟩
  · intro h
    simp [mergeAll, h, showNotification]
  · intro g h hg
    have hlt : ¬ app.meshes.length < 2 := by omega
    have hres : mergeAll shapes app
        = (showNotification (detach
            { app with
              scene := sceneAdd ((app.meshes.map (fun m => m.id)).foldl
                (fun sc r => sceneRemove sc r) app.scene) app.nextRef
              nextRef := app.nextRef + 1
              meshes := [Mesh.mk app.nextRef g defaultMaterial defaultPosition
                defaultQuaternion defaultScale] })
            "Designs connected into a single object!", Except.ok ()) := by
      simp only [mergeAll, if_neg hlt, mergeAll_foldl, List.nil_append, hg]
    rw [hres, detach_eq]
    refine ⟨rfl, Mesh.mk app.nextRef g defaultMaterial defaultPosition defaultQuaternion
      defaultScale, rfl, rfl, ?_, rfl, rfl, rfl, ?_, ?_⟩
    · intro m hm
      have := hfresh m hm
      simp only [ne_eq]
      omega
    · intro m hm hmem
      have hsc : m.id ∈ sceneAdd ((app.meshes.map (fun m => m.id)).foldl
          (fun sc r => sceneRemove sc r) app.scene) app.nextRef := hmem
      unfold sceneAdd at hsc
      rw [List.mem_append, List.mem_singleton] at hsc
      rcases hsc with hsc | hsc
      · have hsc2 := List.mem_of_mem_erase hsc
        exact foldl_sceneRemove_not_mem _ _ hscene m.id
          (List.mem_map.mpr ⟨m, hm, rfl⟩) hsc2
      · have := hfresh m hm
        omega
    · show app.nextRef ∈ sceneAdd ((app.meshes.map (fun m => m.id)).foldl
          (fun sc r => sceneRemove sc r) app.scene) app.nextRef
      simp [sceneAdd]
  · intro h hg
    have hlt : ¬ app.meshes.length < 2 := by omega
    have hres : mergeAll shapes app
        = ({ app with
              scene := (app.meshes.map (fun m => m.id)).foldl
                (fun sc r => sceneRemove sc r) app.scene },
            Except.error (JsError.TypeError "geometry is null")) := by
      simp only [mergeAll, if_neg hlt, mergeAll_foldl, List.nil_append, hg]
    rw [hres]
    refine ⟨rfl, rfl, ?_⟩
    intro m hm
    exact foldl_sceneRemove_not_mem _ _ hscene m.id (List.mem_map.mpr ⟨m, hm, rfl⟩)

theorem mergeAll_spec_witness :
    samplePunchedCubeApp.scene.Nodup
    ∧ (∀ m ∈ samplePunchedCubeApp.meshes, m.id < samplePunchedCubeApp.nextRef)
    ∧ 2 ≤ samplePunchedCubeApp.meshes.length
    ∧ samplePunchedCubeApp.meshes.map (fun m => (m.id, m.geometry.type))
      = [(5, "BoxGeometry"), (6, "BufferGeometry")]
    ∧ samplePunchedCubeApp.scene = [0, 1, 2, 3, 5, 6]
    ∧ strictShapes.mergeGeometries (samplePunchedCubeApp.meshes.map (fun m =>
        strictShapes.applyMatrix4 m.geometry m.position m.quaternion m.scale)) = none
    ∧ (mergeAll strictShapes samplePunchedCubeApp).2
      = Except.error (JsError.TypeError "geometry is null")
    ∧ (mergeAll strictShapes samplePunchedCubeApp).1.meshes = samplePunchedCubeApp.meshes
    ∧ (∀ m ∈ samplePunchedCubeApp.meshes,
        m.id ∉ (mergeAll strictShapes samplePunchedCubeApp).1.scene) :=
  have h1 : samplePunchedCubeApp.scene.Nodup := by decide
  have h2 : ∀ m ∈ samplePunchedCubeApp.meshes, m.id < samplePunchedCubeApp.nextRef := by
    decide
  have h3 : 2 ≤ samplePunchedCubeApp.meshes.length := by decide
  have h4 : strictShapes.mergeGeometries (samplePunchedCubeApp.meshes.map (fun m =>
      strictShapes.applyMatrix4 m.geometry m.position m.quaternion m.scale)) = none := by
    rfl
  ⟨h1, h2, h3, by rfl, by rfl, h4,
    ((mergeAll_spec strictShapes samplePunchedCubeApp h1 h2).2.2 h3 h4).1,
    ((mergeAll_spec strictShapes samplePunchedCubeApp h1 h2).2.2 h3 h4).2.1,
    ((mergeAll_spec strictShapes samplePunchedCubeApp h1 h2).2.2 h3 h4).2.2⟩

end MergeTheorems

/-! ## Arithmetic of the doubles -/

/-- Known results of the arithmetic of the language, as the model of the doubles computes
them: 0.1 + 0.2 and 0.1 * 3 are 0.30000000000000004, 1 / 3 is 0.3333333333333333,
1 - 0.9 is 0.09999999999999998, the integers 2^53 + 1 and 2^53 + 3 round to the even
neighbours 2^53 and 2^53 + 4, and -0.1 - 0.2 is -0.30000000000000004. -/
theorem Dbl.known_values :
    ((0.1 : Dbl) + 0.2).val = 1351079888211149 / 4503599627370496
    ∧ ((0.1 : Dbl) * 3).val = 1351079888211149 / 4503599627370496
    ∧ ((1 : Dbl) / 3).val = 6004799503160661 / 18014398509481984
    ∧ ((1 : Dbl) - 0.9).val = 900719925474099 / 9007199254740992
    ∧ ((9007199254740993 : Nat) : Dbl).val = 9007199254740992
    ∧ ((9007199254740995 : Nat) : Dbl).val = 9007199254740996
    ∧ (-(0.1 : Dbl) - 0.2).val = -(1351079888211149 / 4503599627370496) := by
  refine ⟨?_, ?_, ?_, ?_, ?_, ?_, ?_⟩ <;> decide!

/-! ## Replay -/

section ReplayTheorems

set_option linter.unusedSectionVars false

variable [Zero α] [One α] [Add α] [Sub α] [Mul α] [Neg α] [NatCast α]
  [OfScientific α] [LT α] [DecidableRel (α := α) (· < ·)] [DecidableEq α]

theorem splitMesh_lastCarve (app : App α) (mesh : Mesh α) (p : Vector3 α) :
    (splitMesh app mesh p).lastCarve
      = some { type := "split", params := { mesh := some mesh, point := some p } } := by
  rfl

theorem splitMeshCustom_lastCarve (app : App α) (mesh : Mesh α) (p n : Vector3 α) :
    (splitMeshCustom app mesh p n).lastCarve
      = some { type := "splitCustom",
               params := { mesh := some mesh, point := some p, normal := some n } } := by
  rfl

theorem punchHole_lastCarve (lib : Three α) (app : App α) (mesh : Mesh α) (p : Vector3 α) :
    (punchHole lib app mesh p).lastCarve
      = some { type := "punchHole",
               params := { mesh := some mesh, point := some p,
                           cameraPos := some app.cameraPosition } } := by
  rfl

/-- One repeat of a split record: no exception, the same type, and the stored point moved
by the distance along (0, 1, 0), whether or not the probe hits a shape. -/
theorem repeatLastCarve_split (lib : Three α) (shapes : Shapes α) (view : View α)
    (app : App α) (params : CarveParams α) (p0 : Vector3 α) (distanceValue : Option α)
    (hc : app.lastCarve = some { type := "split", params := params })
    (hp : params.point = some p0) :
    (repeatLastCarve lib shapes view app distanceValue).2 = Except.ok ()
    ∧ ∃ params1 : CarveParams α,
        (repeatLastCarve lib shapes view app distanceValue).1.lastCarve
          = some { type := "split", params := params1 }
        ∧ params1.point
          = some (p0.add ((⟨0, 1, 0⟩ : Vector3 α).multiplyScalar (orOne distanceValue))) := by
  simp only [repeatLastCarve, repeatLastCarveWith, hc, hp, beq_self_eq_true, if_true, repeatLastCarve.probe,
    true_and]
  cases view.intersectObjects
      ((p0.add ((⟨0, 1, 0⟩ : Vector3 α).multiplyScalar (orOne distanceValue))).add ⟨0, 10, 0⟩)
      ⟨0, -1, 0⟩ app.meshes with
  | none =>
    refine ⟨{ params with
      point := some (p0.add ((⟨0, 1, 0⟩ : Vector3 α).multiplyScalar (orOne distanceValue))) },
      ?_, rfl⟩
    simp [setLastPoint, showNotification, hc]
  | some hit =>
    refine ⟨{ mesh := some hit.1,
              point := some (p0.add ((⟨0, 1, 0⟩ : Vector3 α).multiplyScalar
                (orOne distanceValue))) }, ?_, rfl⟩
    simp [setLastPoint, showNotification, splitMesh_lastCarve]

/-- One repeat of a splitCustom record: no exception, the same type and normal, and the
stored point moved by the distance along the stored normal. -/
theorem repeatLastCarve_splitCustom (lib : Three α) (shapes : Shapes α) (view : View α)
    (app : App α) (params : CarveParams α) (p0 n : Vector3 α) (distanceValue : Option α)
    (hc : app.lastCarve = some { type := "splitCustom", params := params })
    (hp : params.point = some p0) (hn : params.normal = some n) :
    (repeatLastCarve lib shapes view app distanceValue).2 = Except.ok ()
    ∧ ∃ params1 : CarveParams α,
        (repeatLastCarve lib shapes view app distanceValue).1.lastCarve
          = some { type := "splitCustom", params := params1 }
        ∧ params1.point = some (p0.add (n.multiplyScalar (orOne distanceValue)))
        ∧ params1.normal = some n := by
  have hne : ("splitCustom" == "split") = false := by decide
  simp only [repeatLastCarve, repeatLastCarveWith, hc, hp, hn, hne, beq_self_eq_true, if_true, if_false,
    repeatLastCarve.probe, true_and, Bool.false_eq_true]
  cases view.intersectObjects
      ((p0.add (n.multiplyScalar (orOne distanceValue))).add ⟨0, 10, 0⟩)
      ⟨0, -1, 0⟩ app.meshes with
  | none =>
    refine ⟨{ params with
      point := some (p0.add (n.multiplyScalar (orOne distanceValue))) }, ?_, rfl, hn⟩
    simp [setLastPoint, showNotification, hc]
  | some hit =>
    refine ⟨{ mesh := some hit.1,
              point := some (p0.add (n.multiplyScalar (orOne distanceValue))),
              normal := some n }, ?_, rfl, rfl⟩
    simp [setLastPoint, showNotification, splitMeshCustom_lastCarve]

theorem orOne_of_ne_zero (d : α) (hd : d ≠ 0) : orOne (some d) = d := by
  simp [orOne, hd]

/-- C12, as the code has it: for a record of type split (n = (0, 1, 0)) or splitCustom
(n the stored normal) with stored point p0 and a non-zero distance d, one repeatLastCarve
raises no exception and leaves a record of the same type whose point is p0 + n*d, and a
second repeatLastCarve with the same d raises no exception and leaves a record of the same
type whose point is (p0 + n*d) + n*d, every sum and product being the one the program
computes on its numbers. -/
theorem repeat_split_chaining (lib : Three α) (shapes : Shapes α) (view1 view2 : View α)
    (app : App α) (params : CarveParams α) (p0 : Vector3 α) (d : α) (hd : d ≠ 0)
    (hp : params.point = some p0) :
    (app.lastCarve = some { type := "split", params := params } →
      (repeatLastCarve lib shapes view1 app (some d)).2 = Except.ok ()
      ∧ (∃ params1 : CarveParams α,
          (repeatLastCarve lib shapes view1 app (some d)).1.lastCarve
            = some { type := "split", params := params1 }
          ∧ params1.point = some (p0.add ((⟨0, 1, 0⟩ : Vector3 α).multiplyScalar d)))
      ∧ (repeatLastCarve lib shapes view2
          (repeatLastCarve lib shapes view1 app (some d)).1 (some d)).2 = Except.ok ()
      ∧ (∃ params2 : CarveParams α,
          (repeatLastCarve lib shapes view2
            (repeatLastCarve lib shapes view1 app (some d)).1 (some d)).1.lastCarve
            = some { type := "split", params := params2 }
          ∧ params2.point
            = some ((p0.add ((⟨0, 1, 0⟩ : Vector3 α).multiplyScalar d)).add
                ((⟨0, 1, 0⟩ : Vector3 α).multiplyScalar d))))
    ∧ (∀ n : Vector3 α, params.normal = some n →
      app.lastCarve = some { type := "splitCustom", params := params } →
      (repeatLastCarve lib shapes view1 app (some d)).2 = Except.ok ()
      ∧ (∃ params1 : CarveParams α,
          (repeatLastCarve lib shapes view1 app (some d)).1.lastCarve
            = some { type := "splitCustom", params := params1 }
          ∧ params1.point = some (p0.add (n.multiplyScalar d)))
      ∧ (repeatLastCarve lib shapes view2
          (repeatLastCarve lib shapes view1 app (some d)).1 (some d)).2 = Except.ok ()
      ∧ (∃ params2 : CarveParams α,
          (repeatLastCarve lib shapes view2
            (repeatLastCarve lib shapes view1 app (some d)).1 (some d)).1.lastCarve
            = some { type := "splitCustom", params := params2 }
          ∧ params2.point
            = some ((p0.add (n.multiplyScalar d)).add (n.multiplyScalar d)))) := by
  constructor
  · intro hc
    obtain ⟨hok1, params1, hl1, hp1⟩ :=
      repeatLastCarve_split lib shapes view1 app params p0 (some d) hc hp
    rw [orOne_of_ne_zero d hd] at hp1
    obtain ⟨hok2, params2, hl2, hp2⟩ :=
      repeatLastCarve_split lib shapes view2 _ params1 _ (some d) hl1 hp1
    rw [orOne_of_ne_zero d hd] at hp2
    exact ⟨hok1, ⟨params1, hl1, hp1⟩, hok2, ⟨params2, hl2, hp2⟩⟩
  · intro n hn hc
    obtain ⟨hok1, params1, hl1, hp1, hn1⟩ :=
      repeatLastCarve_splitCustom lib shapes view1 app params p0 n (some d) hc hp hn
    rw [orOne_of_ne_zero d hd] at hp1
    obtain ⟨hok2, params2, hl2, hp2, _⟩ :=
      repeatLastCarve_splitCustom lib shapes view2 _ params1 _ n (some d) hl1 hp1 hn1
    rw [orOne_of_ne_zero d hd] at hp2
    exact ⟨hok1, ⟨params1, hl1, hp1⟩, hok2, ⟨params2, hl2, hp2⟩⟩

theorem repeat_split_chaining_witness :
    (2 : ℚ) ≠ 0
    ∧ ({ mesh := some (sampleRod 4 0), point := some ⟨0, 0, 0⟩ } : CarveParams ℚ).point
        = some ⟨0, 0, 0⟩
    ∧ sampleSplitApp.lastCarve
        = some { type := "split",
                 params := { mesh := some (sampleRod 4 0), point := some ⟨0, 0, 0⟩ } }
    ∧ (repeatLastCarve disjointLib sampleShapes missView sampleSplitApp (some 2)).2
        = Except.ok () :=
  have h1 : (2 : ℚ) ≠ 0 := by norm_num
  have h2 : ({ mesh := some (sampleRod 4 0), point := some ⟨0, 0, 0⟩ } : CarveParams ℚ).point
      = some ⟨0, 0, 0⟩ := rfl
  have h3 : sampleSplitApp.lastCarve
      = some { type := "split",
               params := { mesh := some (sampleRod 4 0), point := some ⟨0, 0, 0⟩ } } :=
    splitMesh_lastCarve _ _ _
  ⟨h1, h2, h3,
    ((repeat_split_chaining disjointLib sampleShapes missView missView sampleSplitApp
      { mesh := some (sampleRod 4 0), point := some ⟨0, 0, 0⟩ } ⟨0, 0, 0⟩ 2 h1 h2).1 h3).1⟩

/-- C12 (as stated) fails over the doubles: for the split record with the point
(0, 0.5, 0) and the distance 0.2 both repeats return; the first leaves the height
0.5 + 1 * 0.2 and the second the height (0.5 + 1 * 0.2) + 1 * 0.2, the double
0.8999999999999999 (8106479329266892 / 2^53), while p0 + n*2d has the height
0.5 + 1 * (2 * 0.2), the double 0.9 (8106479329266893 / 2^53), which is also the double
nearest to the exact sum of 0.5 and twice the distance. -/
theorem repeat_split_chaining_rounds :
    dblSplitApp.lastCarve.map (fun carve => (carve.type, carve.params.point))
      = some ("split", some ⟨0, 0.5, 0⟩)
    ∧ (0.2 : Dbl) ≠ 0
    ∧ (repeatLastCarve dblLib dblShapes dblView dblSplitApp (some 0.2)).2 = Except.ok ()
    ∧ (repeatLastCarve dblLib dblShapes dblView dblSplitApp (some 0.2)).1.lastCarve.map
        (fun carve => (carve.type, carve.params.point))
      = some ("split", some ((⟨0, 0.5, 0⟩ : Vector3 Dbl).add
          ((⟨0, 1, 0⟩ : Vector3 Dbl).multiplyScalar 0.2)))
    ∧ (repeatLastCarve dblLib dblShapes dblView
        (repeatLastCarve dblLib dblShapes dblView dblSplitApp (some 0.2)).1 (some 0.2)).2
      = Except.ok ()
    ∧ (repeatLastCarve dblLib dblShapes dblView
        (repeatLastCarve dblLib dblShapes dblView dblSplitApp (some 0.2)).1
        (some 0.2)).1.lastCarve.map (fun carve => (carve.type, carve.params.point))
      = some ("split", some ⟨0, ⟨8106479329266892 / 9007199254740992⟩, 0⟩)
    ∧ (⟨0, 0.5, 0⟩ : Vector3 Dbl).add ((⟨0, 1, 0⟩ : Vector3 Dbl).multiplyScalar (2 * 0.2))
      = ⟨0, ⟨8106479329266893 / 9007199254740992⟩, 0⟩
    ∧ Dbl.round ((0.5 : Dbl).val + (1 : Dbl).val * (2 * (0.2 : Dbl).val))
      = ⟨8106479329266893 / 9007199254740992⟩
    ∧ (repeatLastCarve dblLib dblShapes dblView
        (repeatLastCarve dblLib dblShapes dblView dblSplitApp (some 0.2)).1
        (some 0.2)).1.lastCarve.map (fun carve => (carve.type, carve.params.point))
      ≠ some ("split", some ((⟨0, 0.5, 0⟩ : Vector3 Dbl).add
          ((⟨0, 1, 0⟩ : Vector3 Dbl).multiplyScalar (2 * 0.2)))) := by
  refine ⟨?_, ?_, ?_, ?_, ?_, ?_, ?_, ?_, ?_⟩
  · decide!
  · decide!
  · rfl
  · decide!
  · rfl
  · decide!
  · decide!
  · decide!
  · decide!

/-- The state after a probe that hits nothing: the report is added and the stored point is
set to the offset point. -/
theorem repeatLastCarve_probe_miss (view : View α) (app : App α)
    (carve : App α → Mesh α → App α) (offsetPoint : Vector3 α) (distance : α)
    (hmiss : view.intersectObjects (offsetPoint.add ⟨0, 10, 0⟩) ⟨0, -1, 0⟩ app.meshes = none) :
    repeatLastCarve.probe view app carve offsetPoint distance
      = setLastPoint (showNotification app "Could not find a design at the offset distance.")
          offsetPoint := by
  simp [repeatLastCarve.probe, hmiss]

/-- The state after a probe that hits a shape: the carve on the shape, the report, and
the stored point set to the offset point. -/
theorem repeatLastCarve_probe_hit (view : View α) (app : App α)
    (carve : App α → Mesh α → App α) (offsetPoint : Vector3 α) (distance : α)
    (hit : Mesh α) (point : Vector3 α)
    (hhit : view.intersectObjects (offsetPoint.add ⟨0, 10, 0⟩) ⟨0, -1, 0⟩ app.meshes
      = some (hit, point)) :
    repeatLastCarve.probe view app carve offsetPoint distance
      = setLastPoint
          (showNotification (carve app hit)
            ("Carve repeated " ++ view.format distance ++ "cm away!"))
          offsetPoint := by
  simp [repeatLastCarve.probe, hhit]

/-- The state after the report of a miss and the update of the stored point: the state
before with one more notification and the new point in the record. -/
theorem setLastPoint_showNotification (app : App α) (carve : LastCarve α) (text : String)
    (offsetPoint : Vector3 α) (hc : app.lastCarve = some carve) :
    setLastPoint (showNotification app text) offsetPoint
      = { app with
          notifications := app.notifications ++ [text]
          lastCarve := some { carve with
            params := { carve.params with point := some offsetPoint } } } := by
  simp only [setLastPoint, showNotification, hc, Option.map_some']

/-- C13 (as amended): for a record of type split, splitCustom or punchHole with stored
point p0, when the vertical probe ray cast from ten units above the offset point hits no
shape (whatever rays from other origins would hit), repeatLastCarve raises no exception and
leaves the state as it was except for two fields: the report of the condition is added to
the notifications, and the point of the stored record becomes the offset point, p0 + n*d
with n = (0, 1, 0) for split and the stored normal for splitCustom, and p0 + r*d with the
right axis r of the camera for punchHole; d is the distance, 1 when it reads as zero or as
no number. The registry and the scene graph are among the fields that stay. -/
theorem repeat_no_target (lib : Three α) (shapes : Shapes α) (view : View α) (app : App α)
    (carve : LastCarve α) (p0 : Vector3 α) (distanceValue : Option α)
    (hc : app.lastCarve = some carve) (hp : carve.params.point = some p0) :
    (carve.type = "split" →
      view.intersectObjects
        ((p0.add ((⟨0, 1, 0⟩ : Vector3 α).multiplyScalar (orOne distanceValue))).add
          ⟨0, 10, 0⟩) ⟨0, -1, 0⟩ app.meshes = none →
      repeatLastCarve lib shapes view app distanceValue
        = ({ app with
            notifications :=
              app.notifications ++ ["Could not find a design at the offset distance."]
            lastCarve := some { carve with params := { carve.params with
              point := some (p0.add ((⟨0, 1, 0⟩ : Vector3 α).multiplyScalar
                (orOne distanceValue))) } } },
          Except.ok ()))
    ∧ (∀ n : Vector3 α, carve.type = "splitCustom" → carve.params.normal = some n →
      view.intersectObjects
        ((p0.add (n.multiplyScalar (orOne distanceValue))).add ⟨0, 10, 0⟩) ⟨0, -1, 0⟩
        app.meshes = none →
      repeatLastCarve lib shapes view app distanceValue
        = ({ app with
            notifications :=
              app.notifications ++ ["Could not find a design at the offset distance."]
            lastCarve := some { carve with params := { carve.params with
              point := some (p0.add (n.multiplyScalar (orOne distanceValue))) } } },
          Except.ok ()))
    ∧ (∀ c0 : Vector3 α, carve.type = "punchHole" → carve.params.cameraPos = some c0 →
      view.intersectObjects
        ((p0.add (view.viewRight.multiplyScalar (orOne distanceValue))).add ⟨0, 10, 0⟩)
        ⟨0, -1, 0⟩ app.meshes = none →
      repeatLastCarve lib shapes view app distanceValue
        = ({ app with
            notifications :=
              app.notifications ++ ["Could not find a design at the offset distance."]
            lastCarve := some { carve with params := { carve.params with
              point := some (p0.add (view.viewRight.multiplyScalar
                (orOne distanceValue))) } } },
          Except.ok ())) := by
  refine ⟨?_, ?_, ?_⟩
  · intro ht hmiss
    simp only [repeatLastCarve, repeatLastCarveWith, hc, hp, ht, beq_self_eq_true, if_true]
    rw [repeatLastCarve_probe_miss _ _ _ _ _ hmiss,
      setLastPoint_showNotification app carve _ _ hc, ht]
  · intro n ht hn hmiss
    have h1 : ("splitCustom" == "split") = false := by decide
    simp only [repeatLastCarve, repeatLastCarveWith, hc, hp, hn, ht, h1, beq_self_eq_true,
      if_true, if_false, Bool.false_eq_true]
    rw [repeatLastCarve_probe_miss _ _ _ _ _ hmiss,
      setLastPoint_showNotification app carve _ _ hc]
    simp only [ht, hn]
  · intro c0 ht hcam hmiss
    have h1 : ("punchHole" == "split") = false := by decide
    have h2 : ("punchHole" == "splitCustom") = false := by decide
    simp only [repeatLastCarve, repeatLastCarveWith, hc, hp, hcam, ht, h1, h2,
      beq_self_eq_true, if_true, if_false, Bool.false_eq_true]
    rw [repeatLastCarve_probe_miss _ _ _ _ _ hmiss,
      setLastPoint_showNotification app carve _ _ hc]
    simp only [ht, hcam]

theorem repeat_no_target_witness :
    sampleSplitApp.lastCarve
        = some { type := "split",
                 params := { mesh := some (sampleRod 4 0), point := some ⟨0, 0, 0⟩ } }
    ∧ belowView.intersectObjects ⟨0, 12, 0⟩ ⟨0, -1, 0⟩ sampleSplitApp.meshes = none
    ∧ belowView.intersectObjects ⟨0, 10, 0⟩ ⟨0, -1, 0⟩ sampleSplitApp.meshes ≠ none
    ∧ repeatLastCarve disjointLib sampleShapes belowView sampleSplitApp (some 2)
        = ({ sampleSplitApp with
            notifications :=
              sampleSplitApp.notifications
                ++ ["Could not find a design at the offset distance."]
            lastCarve := some
              { type := "split",
                params := { mesh := some (sampleRod 4 0), point := some ⟨0, 2, 0⟩ } } },
          Except.ok ()) :=
  have h1 : sampleSplitApp.lastCarve
      = some { type := "split",
               params := { mesh := some (sampleRod 4 0), point := some ⟨0, 0, 0⟩ } } :=
    splitMesh_lastCarve _ _ _
  have hpt : (⟨0, 0, 0⟩ : Vector3 ℚ).add ((⟨0, 1, 0⟩ : Vector3 ℚ).multiplyScalar
      (orOne (some 2))) = ⟨0, 2, 0⟩ := by
    simp [Vector3.add, Vector3.multiplyScalar, orOne]
  have h2 : belowView.intersectObjects ⟨0, 12, 0⟩ ⟨0, -1, 0⟩ sampleSplitApp.meshes = none := by
    norm_num [belowView]
  have h3 : belowView.intersectObjects ⟨0, 10, 0⟩ ⟨0, -1, 0⟩ sampleSplitApp.meshes ≠ none := by
    norm_num [belowView, sampleSplitApp, splitMesh_meshes]
    simp
  have h4 : belowView.intersectObjects
      (((⟨0, 0, 0⟩ : Vector3 ℚ).add ((⟨0, 1, 0⟩ : Vector3 ℚ).multiplyScalar
        (orOne (some 2)))).add ⟨0, 10, 0⟩) ⟨0, -1, 0⟩ sampleSplitApp.meshes = none := by
    rw [hpt]
    norm_num [belowView, Vector3.add]
  ⟨h1, h2, h3, by
    have h := (repeat_no_target disjointLib sampleShapes belowView sampleSplitApp _ ⟨0, 0, 0⟩
      (some 2) h1 rfl).1 rfl h4
    rw [hpt] at h
    exact h⟩

/-- The sample split record after one repeat with distance 2 whose probe hits nothing. -/
theorem sampleSplitApp_repeat_miss :
    sampleSplitApp.lastCarve
      = some { type := "split",
               params := { mesh := some (sampleRod 4 0), point := some ⟨0, 0, 0⟩ } }
    ∧ (repeatLastCarve disjointLib sampleShapes missView sampleSplitApp (some 2)).1.meshes
        = sampleSplitApp.meshes
    ∧ (repeatLastCarve disjointLib sampleShapes missView sampleSplitApp (some 2)).1.lastCarve
        = some { type := "split",
                 params := { mesh := some (sampleRod 4 0), point := some ⟨0, 2, 0⟩ } } := by
  have hl : sampleSplitApp.lastCarve
      = some { type := "split",
               params := { mesh := some (sampleRod 4 0), point := some ⟨0, 0, 0⟩ } } :=
    splitMesh_lastCarve _ _ _
  have hr : repeatLastCarve disjointLib sampleShapes missView sampleSplitApp (some 2)
      = (setLastPoint
          (showNotification sampleSplitApp "Could not find a design at the offset distance.")
          ((⟨0, 0, 0⟩ : Vector3 ℚ).add ((⟨0, 1, 0⟩ : Vector3 ℚ).multiplyScalar
            (orOne (some 2)))),
        Except.ok ()) := by
    simp only [repeatLastCarve, repeatLastCarveWith, hl, beq_self_eq_true, if_true]
    rw [repeatLastCarve_probe_miss _ _ _ _ _ rfl]
  have hpt : (⟨0, 0, 0⟩ : Vector3 ℚ).add ((⟨0, 1, 0⟩ : Vector3 ℚ).multiplyScalar
      (orOne (some 2))) = ⟨0, 2, 0⟩ := by
    simp [Vector3.add, Vector3.multiplyScalar, orOne]
  refine ⟨hl, ?_, ?_⟩
  · rw [hr]
    rfl
  · rw [hr, hpt]
    simp [setLastPoint, showNotification, hl]

/-- C13 (as stated) fails: with a split record whose point is (0, 0, 0), distance 2 and a
probe that hits nothing, the registry and the scene graph are unchanged but the stored
point becomes (0, 2, 0). -/
theorem repeat_no_target_moves_point :
    (∀ origin : Vector3 ℚ,
        missView.intersectObjects origin ⟨0, -1, 0⟩ sampleSplitApp.meshes = none)
    ∧ sampleSplitApp.lastCarve
        = some { type := "split",
                 params := { mesh := some (sampleRod 4 0), point := some ⟨0, 0, 0⟩ } }
    ∧ (repeatLastCarve disjointLib sampleShapes missView sampleSplitApp (some 2)).1.meshes
        = sampleSplitApp.meshes
    ∧ (repeatLastCarve disjointLib sampleShapes missView sampleSplitApp (some 2)).1.lastCarve
        = some { type := "split",
                 params := { mesh := some (sampleRod 4 0), point := some ⟨0, 2, 0⟩ } }
    ∧ (repeatLastCarve disjointLib sampleShapes missView sampleSplitApp (some 2)).1.lastCarve
        ≠ sampleSplitApp.lastCarve := by
  obtain ⟨hl, hm, hres⟩ := sampleSplitApp_repeat_miss
  refine ⟨fun _ => rfl, hl, hm, hres, ?_⟩
  rw [hres, hl]
  intro h
  have h2 := congrArg (fun c : Option (LastCarve ℚ) =>
    c.bind (fun c => c.params.point.map (fun p => p.y))) h
  norm_num at h2

/-- C15: for a punchHole record with recorded view origin c0 and any camera position at
repeat time, when the probe hits a shape, repeatLastCarve runs punchHole on that shape at
the offset point in the state whose camera position is c0 (so the cutter looks at c0), and
afterwards the camera position is the one before the call and the stored record is a
punchHole record with cameraPos c0 and the offset point. -/
theorem repeat_punchHole_camera (lib : Three α) (shapes : Shapes α) (view : View α)
    (app : App α) (params : CarveParams α) (p0 c0 : Vector3 α) (distanceValue : Option α)
    (hit : Mesh α) (at_ : Vector3 α)
    (hc : app.lastCarve = some { type := "punchHole", params := params })
    (hp : params.point = some p0) (hcam : params.cameraPos = some c0)
    (hhit : view.intersectObjects
      ((p0.add (view.viewRight.multiplyScalar (orOne distanceValue))).add ⟨0, 10, 0⟩)
      ⟨0, -1, 0⟩ app.meshes = some (hit, at_)) :
    repeatLastCarve lib shapes view app distanceValue
      = (setLastPoint
          (showNotification
            { punchHole lib { app with cameraPosition := c0 } hit
                (p0.add (view.viewRight.multiplyScalar (orOne distanceValue))) with
              cameraPosition := app.cameraPosition }
            ("Carve repeated " ++ view.format (orOne distanceValue) ++ "cm away!"))
          (p0.add (view.viewRight.multiplyScalar (orOne distanceValue))),
        Except.ok ())
    ∧ (repeatLastCarve lib shapes view app distanceValue).1.cameraPosition
        = app.cameraPosition
    ∧ (repeatLastCarve lib shapes view app distanceValue).1.lastCarve
        = some { type := "punchHole",
                 params := { mesh := some hit,
                             point := some (p0.add (view.viewRight.multiplyScalar
                               (orOne distanceValue))),
                             cameraPos := some c0 } }
    ∧ (∃ result : Mesh α,
        (repeatLastCarve lib shapes view app distanceValue).1.meshes
          = removeFromRegistry app.meshes hit ++ [result]
        ∧ result.geometry = lib.evaluate (targetBrush hit)
            (punchHole.cutterBrush lib { app with cameraPosition := c0 }
              (p0.add (view.viewRight.multiplyScalar (orOne distanceValue))))
            CsgOp.SUBTRACTION
        ∧ (punchHole.cutterBrush lib { app with cameraPosition := c0 }
              (p0.add (view.viewRight.multiplyScalar (orOne distanceValue)))).quaternion
          = lib.rotateX (lib.lookAt
              (p0.add (view.viewRight.multiplyScalar (orOne distanceValue))) c0)) := by
  have h1 : ("punchHole" == "split") = false := by decide
  have h2 : ("punchHole" == "splitCustom") = false := by decide
  have heq : repeatLastCarve lib shapes view app distanceValue
      = (setLastPoint
          (showNotification
            { punchHole lib { app with cameraPosition := c0 } hit
                (p0.add (view.viewRight.multiplyScalar (orOne distanceValue))) with
              cameraPosition := app.cameraPosition }
            ("Carve repeated " ++ view.format (orOne distanceValue) ++ "cm away!"))
          (p0.add (view.viewRight.multiplyScalar (orOne distanceValue))),
        Except.ok ()) := by
    simp only [repeatLastCarve, repeatLastCarveWith, hc, hp, hcam, h1, h2, beq_self_eq_true, if_true, if_false,
      Bool.false_eq_true, repeatLastCarve.probe, hhit]
  refine ⟨heq, ?_, ?_, ?_⟩
  · rw [heq]
    rfl
  · rw [heq]
    simp [setLastPoint, showNotification, punchHole_lastCarve]
  · rw [heq]
    refine ⟨Mesh.mk app.nextRef (lib.evaluate (targetBrush hit)
      (punchHole.cutterBrush lib { app with cameraPosition := c0 }
        (p0.add (view.viewRight.multiplyScalar (orOne distanceValue))))
      CsgOp.SUBTRACTION) hit.material defaultPosition defaultQuaternion defaultScale,
      rfl, rfl, rfl⟩

theorem repeat_punchHole_camera_witness :
    samplePunchApp.lastCarve
        = some { type := "punchHole",
                 params := { mesh := some (sampleRod 4 0), point := some ⟨0, 0, 0⟩,
                             cameraPos := some ⟨5, 5, 5⟩ } }
    ∧ (hitView.intersectObjects
        (((⟨0, 0, 0⟩ : Vector3 ℚ).add (hitView.viewRight.multiplyScalar
          (orOne (some 2)))).add ⟨0, 10, 0⟩) ⟨0, -1, 0⟩
        { samplePunchApp with cameraPosition := ⟨1, 2, 3⟩ }.meshes
        = some (sampleRod 5 2, ((⟨0, 0, 0⟩ : Vector3 ℚ).add
            (hitView.viewRight.multiplyScalar (orOne (some 2)))).add ⟨0, 10, 0⟩))
    ∧ (repeatLastCarve disjointLib sampleShapes hitView
        { samplePunchApp with cameraPosition := ⟨1, 2, 3⟩ } (some 2)).1.cameraPosition
        = ⟨1, 2, 3⟩ :=
  have h1 : samplePunchApp.lastCarve
      = some { type := "punchHole",
               params := { mesh := some (sampleRod 4 0), point := some ⟨0, 0, 0⟩,
                           cameraPos := some ⟨5, 5, 5⟩ } } :=
    punchHole_lastCarve _ _ _ _
  have h2 : hitView.intersectObjects
      (((⟨0, 0, 0⟩ : Vector3 ℚ).add (hitView.viewRight.multiplyScalar
        (orOne (some 2)))).add ⟨0, 10, 0⟩) ⟨0, -1, 0⟩
      { samplePunchApp with cameraPosition := ⟨1, 2, 3⟩ }.meshes
      = some (sampleRod 5 2, ((⟨0, 0, 0⟩ : Vector3 ℚ).add
          (hitView.viewRight.multiplyScalar (orOne (some 2)))).add ⟨0, 10, 0⟩) := rfl
  ⟨h1, h2,
    (repeat_punchHole_camera disjointLib sampleShapes hitView
      { samplePunchApp with cameraPosition := ⟨1, 2, 3⟩ }
      { mesh := some (sampleRod 4 0), point := some ⟨0, 0, 0⟩, cameraPos := some ⟨5, 5, 5⟩ }
      ⟨0, 0, 0⟩ ⟨5, 5, 5⟩ (some 2) (sampleRod 5 2) _ h1 rfl rfl h2).2.1⟩

/-- The registry and the record after `addPrimitive` of a circle at a given position. -/
theorem addPrimitive_circle (shapes : Shapes α) (app : App α) (position : Vector3 α)
    (random : α × α) :
    (addPrimitive shapes app "circle" (some position) random).meshes
      = app.meshes ++ [Mesh.mk app.nextRef
          (shapes.construct "TorusGeometry" [0.5, 0.05, 32, 128]) defaultMaterial position
          defaultQuaternion defaultScale]
    ∧ (addPrimitive shapes app "circle" (some position) random).lastCarve
      = some { type := "circlePrimitive",
               params := { type := some "circle", position := some position } } := by
  simp [addPrimitive, addPrimitive.geometry, storeLastCarve, showRepeatOptions]

/-- The registry and the record after `addPrimitive` of a ring at a given position. -/
theorem addPrimitive_ring (shapes : Shapes α) (app : App α) (position : Vector3 α)
    (random : α × α) :
    (addPrimitive shapes app "ring" (some position) random).meshes
      = app.meshes ++ [Mesh.mk app.nextRef
          (shapes.construct "RingGeometry" [0.3, 0.6, 128]) defaultMaterial position
          defaultQuaternion defaultScale]
    ∧ (addPrimitive shapes app "ring" (some position) random).lastCarve
      = some { type := "ringPrimitive",
               params := { type := some "ring", position := some position } } := by
  simp [addPrimitive, addPrimitive.geometry, storeLastCarve, showRepeatOptions]

/-- One repeat of a circlePrimitive record. -/
theorem repeatLastCarve_circle (lib : Three α) (shapes : Shapes α) (view : View α)
    (app : App α) (params : CarveParams α) (q : Vector3 α) (distanceValue : Option α)
    (hc : app.lastCarve = some { type := "circlePrimitive", params := params })
    (hq : params.position = some q) :
    (repeatLastCarve lib shapes view app distanceValue).1
      = showNotification
          (addPrimitive shapes app "circle"
            (some (q.add (view.viewRight.multiplyScalar (orOne distanceValue)))) (0, 0))
          ("Circle repeated " ++ view.format (orOne distanceValue) ++ "cm away!") := by
  have h1 : ("circlePrimitive" == "split") = false := by decide
  have h2 : ("circlePrimitive" == "splitCustom") = false := by decide
  have h3 : ("circlePrimitive" == "punchHole") = false := by decide
  have h4 : ("circlePrimitive" == "shapeify") = false := by decide
  simp only [repeatLastCarve, repeatLastCarveWith, hc, hq, h1, h2, h3, h4, beq_self_eq_true, if_true, if_false,
    Bool.false_eq_true]

/-- One repeat of a ringPrimitive record. -/
theorem repeatLastCarve_ring (lib : Three α) (shapes : Shapes α) (view : View α)
    (app : App α) (params : CarveParams α) (q : Vector3 α) (distanceValue : Option α)
    (hc : app.lastCarve = some { type := "ringPrimitive", params := params })
    (hq : params.position = some q) :
    (repeatLastCarve lib shapes view app distanceValue).1
      = showNotification
          (addPrimitive shapes app "ring"
            (some (q.add (view.viewRight.multiplyScalar (orOne distanceValue)))) (0, 0))
          ("Ring repeated " ++ view.format (orOne distanceValue) ++ "cm away!") := by
  have h1 : ("ringPrimitive" == "split") = false := by decide
  have h2 : ("ringPrimitive" == "splitCustom") = false := by decide
  have h3 : ("ringPrimitive" == "punchHole") = false := by decide
  have h4 : ("ringPrimitive" == "shapeify") = false := by decide
  have h5 : ("ringPrimitive" == "circlePrimitive") = false := by decide
  simp only [repeatLastCarve, repeatLastCarveWith, hc, hq, h1, h2, h3, h4, h5, beq_self_eq_true, if_true,
    if_false, Bool.false_eq_true]

/-- C16, as the code has it: for a record of type circlePrimitive or ringPrimitive with
stored position q, a non-zero distance d and the right axis r of the camera, repeatLastCarve
appends exactly one new shape (a torus for circlePrimitive, a ring for ringPrimitive) at
q + r*d and leaves a record of the same type with position q + r*d; a second repeat with
the same right axis appends one shape of the same kind at (q + r*d) + r*d, every sum and
product being the one the program computes on its numbers. -/
theorem repeat_primitive (lib : Three α) (shapes : Shapes α) (view1 view2 : View α)
    (app : App α) (params : CarveParams α) (q : Vector3 α) (d : α) (hd : d ≠ 0)
    (hq : params.position = some q) (hview : view2.viewRight = view1.viewRight) :
    (app.lastCarve = some { type := "circlePrimitive", params := params } →
      (repeatLastCarve lib shapes view1 app (some d)).1.meshes
        = app.meshes ++ [Mesh.mk app.nextRef
            (shapes.construct "TorusGeometry" [0.5, 0.05, 32, 128]) defaultMaterial
            (q.add (view1.viewRight.multiplyScalar d)) defaultQuaternion defaultScale]
      ∧ (repeatLastCarve lib shapes view1 app (some d)).1.lastCarve
        = some { type := "circlePrimitive",
                 params := { type := some "circle",
                             position := some (q.add (view1.viewRight.multiplyScalar d)) } }
      ∧ (repeatLastCarve lib shapes view2
          (repeatLastCarve lib shapes view1 app (some d)).1 (some d)).1.meshes
        = (repeatLastCarve lib shapes view1 app (some d)).1.meshes
          ++ [Mesh.mk (repeatLastCarve lib shapes view1 app (some d)).1.nextRef
            (shapes.construct "TorusGeometry" [0.5, 0.05, 32, 128]) defaultMaterial
            ((q.add (view1.viewRight.multiplyScalar d)).add
              (view1.viewRight.multiplyScalar d)) defaultQuaternion defaultScale])
    ∧ (app.lastCarve = some { type := "ringPrimitive", params := params } →
      (repeatLastCarve lib shapes view1 app (some d)).1.meshes
        = app.meshes ++ [Mesh.mk app.nextRef
            (shapes.construct "RingGeometry" [0.3, 0.6, 128]) defaultMaterial
            (q.add (view1.viewRight.multiplyScalar d)) defaultQuaternion defaultScale]
      ∧ (repeatLastCarve lib shapes view1 app (some d)).1.lastCarve
        = some { type := "ringPrimitive",
                 params := { type := some "ring",
                             position := some (q.add (view1.viewRight.multiplyScalar d)) } }
      ∧ (repeatLastCarve lib shapes view2
          (repeatLastCarve lib shapes view1 app (some d)).1 (some d)).1.meshes
        = (repeatLastCarve lib shapes view1 app (some d)).1.meshes
          ++ [Mesh.mk (repeatLastCarve lib shapes view1 app (some d)).1.nextRef
            (shapes.construct "RingGeometry" [0.3, 0.6, 128]) defaultMaterial
            ((q.add (view1.viewRight.multiplyScalar d)).add
              (view1.viewRight.multiplyScalar d)) defaultQuaternion defaultScale]) := by
  have hdd := orOne_of_ne_zero d hd
  constructor
  · intro hc
    have e1 := repeatLastCarve_circle lib shapes view1 app params q (some d) hc hq
    rw [hdd] at e1
    have hm1 : (repeatLastCarve lib shapes view1 app (some d)).1.meshes
        = app.meshes ++ [Mesh.mk app.nextRef
            (shapes.construct "TorusGeometry" [0.5, 0.05, 32, 128]) defaultMaterial
            (q.add (view1.viewRight.multiplyScalar d)) defaultQuaternion defaultScale] := by
      rw [e1]
      simp only [showNotification]
      exact (addPrimitive_circle shapes app (q.add (view1.viewRight.multiplyScalar d)) (0, 0)).1
    have hl1 : (repeatLastCarve lib shapes view1 app (some d)).1.lastCarve
        = some { type := "circlePrimitive",
                 params := { type := some "circle",
                             position := some (q.add (view1.viewRight.multiplyScalar d)) } } := by
      rw [e1]
      simp only [showNotification]
      exact (addPrimitive_circle shapes app (q.add (view1.viewRight.multiplyScalar d)) (0, 0)).2
    have e2 := repeatLastCarve_circle lib shapes view2
      (repeatLastCarve lib shapes view1 app (some d)).1
      { type := some "circle", position := some (q.add (view1.viewRight.multiplyScalar d)) }
      (q.add (view1.viewRight.multiplyScalar d)) (some d) hl1 rfl
    rw [hdd, hview] at e2
    refine ⟨hm1, hl1, ?_⟩
    rw [e2]
    simp only [showNotification]
    exact (addPrimitive_circle shapes (repeatLastCarve lib shapes view1 app (some d)).1
      ((q.add (view1.viewRight.multiplyScalar d)).add (view1.viewRight.multiplyScalar d))
      (0, 0)).1
  · intro hc
    have e1 := repeatLastCarve_ring lib shapes view1 app params q (some d) hc hq
    rw [hdd] at e1
    have hm1 : (repeatLastCarve lib shapes view1 app (some d)).1.meshes
        = app.meshes ++ [Mesh.mk app.nextRef
            (shapes.construct "RingGeometry" [0.3, 0.6, 128]) defaultMaterial
            (q.add (view1.viewRight.multiplyScalar d)) defaultQuaternion defaultScale] := by
      rw [e1]
      simp only [showNotification]
      exact (addPrimitive_ring shapes app (q.add (view1.viewRight.multiplyScalar d)) (0, 0)).1
    have hl1 : (repeatLastCarve lib shapes view1 app (some d)).1.lastCarve
        = some { type := "ringPrimitive",
                 params := { type := some "ring",
                             position := some (q.add (view1.viewRight.multiplyScalar d)) } } := by
      rw [e1]
      simp only [showNotification]
      exact (addPrimitive_ring shapes app (q.add (view1.viewRight.multiplyScalar d)) (0, 0)).2
    have e2 := repeatLastCarve_ring lib shapes view2
      (repeatLastCarve lib shapes view1 app (some d)).1
      { type := some "ring", position := some (q.add (view1.viewRight.multiplyScalar d)) }
      (q.add (view1.viewRight.multiplyScalar d)) (some d) hl1 rfl
    rw [hdd, hview] at e2
    refine ⟨hm1, hl1, ?_⟩
    rw [e2]
    simp only [showNotification]
    exact (addPrimitive_ring shapes (repeatLastCarve lib shapes view1 app (some d)).1
      ((q.add (view1.viewRight.multiplyScalar d)).add (view1.viewRight.multiplyScalar d))
      (0, 0)).1

theorem repeat_primitive_witness :
    (2 : ℚ) ≠ 0
    ∧ sampleCircleApp.lastCarve
        = some { type := "circlePrimitive",
                 params := { type := some "circle", position := some ⟨1, 0, 0⟩ } }
    ∧ (repeatLastCarve disjointLib sampleShapes missView sampleCircleApp (some 2)).1.lastCarve
        = some { type := "circlePrimitive",
                 params := { type := some "circle",
                             position := some ((⟨1, 0, 0⟩ : Vector3 ℚ).add
                               (missView.viewRight.multiplyScalar 2)) } } :=
  have h1 : (2 : ℚ) ≠ 0 := by norm_num
  have h2 : sampleCircleApp.lastCarve
      = some { type := "circlePrimitive",
               params := { type := some "circle", position := some ⟨1, 0, 0⟩ } } :=
    (addPrimitive_circle _ _ _ _).2
  ⟨h1, h2,
    ((repeat_primitive disjointLib sampleShapes missView missView sampleCircleApp
      { type := some "circle", position := some ⟨1, 0, 0⟩ } ⟨1, 0, 0⟩ 2 h1 rfl rfl).1 h2).2.1⟩

/-- C16 (as stated) fails over the doubles: for the circlePrimitive record with the
position (0.5, 0, 0), the right axis (1, 0, 0) and the distance 0.2, the first repeat places
a torus at 0.5 + 1 * 0.2 and the second at (0.5 + 1 * 0.2) + 1 * 0.2, the double
0.8999999999999999 (8106479329266892 / 2^53), while q + r*2d is 0.5 + 1 * (2 * 0.2), the
double 0.9 (8106479329266893 / 2^53), which is also the double nearest to the exact sum of
0.5 and twice the distance. -/
theorem repeat_primitive_rounds :
    dblCircleApp.lastCarve.map (fun carve => (carve.type, carve.params.position))
      = some ("circlePrimitive", some ⟨0.5, 0, 0⟩)
    ∧ (0.2 : Dbl) ≠ 0
    ∧ dblView.viewRight = ⟨1, 0, 0⟩
    ∧ (repeatLastCarve dblLib dblShapes dblView dblCircleApp (some 0.2)).1.meshes.map
        (fun m => (m.geometry.type, m.position))
      = dblCircleApp.meshes.map (fun m => (m.geometry.type, m.position))
        ++ [("TorusGeometry", (⟨0.5, 0, 0⟩ : Vector3 Dbl).add
              ((⟨1, 0, 0⟩ : Vector3 Dbl).multiplyScalar 0.2))]
    ∧ (repeatLastCarve dblLib dblShapes dblView
        (repeatLastCarve dblLib dblShapes dblView dblCircleApp (some 0.2)).1
        (some 0.2)).1.meshes.map (fun m => (m.geometry.type, m.position))
      = (repeatLastCarve dblLib dblShapes dblView dblCircleApp (some 0.2)).1.meshes.map
          (fun m => (m.geometry.type, m.position))
        ++ [("TorusGeometry", ⟨⟨8106479329266892 / 9007199254740992⟩, 0, 0⟩)]
    ∧ (⟨0.5, 0, 0⟩ : Vector3 Dbl).add ((⟨1, 0, 0⟩ : Vector3 Dbl).multiplyScalar (2 * 0.2))
      = ⟨⟨8106479329266893 / 9007199254740992⟩, 0, 0⟩
    ∧ Dbl.round ((0.5 : Dbl).val + (1 : Dbl).val * (2 * (0.2 : Dbl).val))
      = ⟨8106479329266893 / 9007199254740992⟩
    ∧ (repeatLastCarve dblLib dblShapes dblView
        (repeatLastCarve dblLib dblShapes dblView dblCircleApp (some 0.2)).1
        (some 0.2)).1.meshes.map (fun m => (m.geometry.type, m.position))
      ≠ (repeatLastCarve dblLib dblShapes dblView dblCircleApp (some 0.2)).1.meshes.map
          (fun m => (m.geometry.type, m.position))
        ++ [("TorusGeometry", (⟨0.5, 0, 0⟩ : Vector3 Dbl).add
              ((⟨1, 0, 0⟩ : Vector3 Dbl).multiplyScalar (2 * 0.2)))] := by
  refine ⟨?_, ?_, ?_, ?_, ?_, ?_, ?_, ?_⟩
  · decide!
  · decide!
  · rfl
  · decide!
  · decide!
  · decide!
  · decide!
  · decide!

end ReplayTheorems

/-- In exact arithmetic (an ordered field) the point after two moves by n*d is the point
moved once by n*(2d); over the doubles the two can differ. -/
theorem Vector3.add_multiplyScalar_twice [LinearOrderedField α] (p n : Vector3 α) (d : α) :
    (p.add (n.multiplyScalar d)).add (n.multiplyScalar d)
      = p.add (n.multiplyScalar (2 * d)) := by
  simp only [Vector3.add, Vector3.multiplyScalar, Vector3.mk.injEq]
  refine ⟨?_, ?_, ?_⟩ <;> ring

/-! ## Repeated replay -/

section MultiTheorems

set_option linter.unusedSectionVars false

variable [Zero α] [One α] [Add α] [Sub α] [Mul α] [Neg α] [NatCast α]
  [OfScientific α] [LT α] [DecidableRel (α := α) (· < ·)] [DecidableEq α]

/-! ### The branches of `repeatLastCarve` -/

theorem repeatLastCarve_eq_none (lib : Three α) (shapes : Shapes α) (view : View α)
    (app : App α) (distanceValue : Option α) (hc : app.lastCarve = none) :
    repeatLastCarve lib shapes view app distanceValue = (app, Except.ok ()) := by
  simp only [repeatLastCarve, repeatLastCarveWith, hc]

theorem repeatLastCarve_eq_split_none (lib : Three α) (shapes : Shapes α) (view : View α)
    (app : App α) (carve : LastCarve α) (distanceValue : Option α)
    (hc : app.lastCarve = some carve)
    (ht : carve.type = "split") (hp : carve.params.point = none) :
    repeatLastCarve lib shapes view app distanceValue
      = (app, Except.error (JsError.TypeError "params.point is undefined")) := by
  simp only [repeatLastCarve, repeatLastCarveWith, hc, ht, hp, beq_self_eq_true, if_true, if_false, Bool.false_eq_true]

theorem repeatLastCarve_eq_split (lib : Three α) (shapes : Shapes α) (view : View α)
    (app : App α) (carve : LastCarve α) (distanceValue : Option α)
    (hc : app.lastCarve = some carve)
    (ht : carve.type = "split") (point : Vector3 α) (hp : carve.params.point = some point) :
    repeatLastCarve lib shapes view app distanceValue
      = (repeatLastCarve.probe view app
          (fun app hit => splitMesh app hit
            (point.add ((⟨0, 1, 0⟩ : Vector3 α).multiplyScalar (orOne distanceValue))))
          (point.add ((⟨0, 1, 0⟩ : Vector3 α).multiplyScalar (orOne distanceValue)))
          (orOne distanceValue), Except.ok ()) := by
  simp only [repeatLastCarve, repeatLastCarveWith, hc, ht, hp, beq_self_eq_true, if_true, if_false, Bool.false_eq_true]

theorem repeatLastCarve_eq_splitCustom_none (lib : Three α) (shapes : Shapes α) (view : View α)
    (app : App α) (carve : LastCarve α) (distanceValue : Option α)
    (hc : app.lastCarve = some carve)
    (ht : carve.type = "splitCustom")
    (hp : carve.params.point = none ∨ carve.params.normal = none) :
    repeatLastCarve lib shapes view app distanceValue
      = (app, Except.error (JsError.TypeError "params.point or normal is undefined")) := by
  have h0 : ("splitCustom" == "split") = false := by decide
  simp only [repeatLastCarve, repeatLastCarveWith, hc, ht, h0, beq_self_eq_true, if_true, if_false, Bool.false_eq_true]
  rcases hp with hp | hp
  · simp only [hp]
  · cases hq : carve.params.point <;> simp only [hp]

theorem repeatLastCarve_eq_splitCustom (lib : Three α) (shapes : Shapes α) (view : View α)
    (app : App α) (carve : LastCarve α) (distanceValue : Option α)
    (hc : app.lastCarve = some carve)
    (ht : carve.type = "splitCustom") (point normal : Vector3 α)
    (hp : carve.params.point = some point) (hn : carve.params.normal = some normal) :
    repeatLastCarve lib shapes view app distanceValue
      = (repeatLastCarve.probe view app
          (fun app hit => splitMeshCustom app hit
            (point.add (normal.multiplyScalar (orOne distanceValue))) normal)
          (point.add (normal.multiplyScalar (orOne distanceValue)))
          (orOne distanceValue), Except.ok ()) := by
  have h0 : ("splitCustom" == "split") = false := by decide
  simp only [repeatLastCarve, repeatLastCarveWith, hc, ht, hp, hn, h0, beq_self_eq_true, if_true, if_false, Bool.false_eq_true]

theorem repeatLastCarve_eq_punchHole_none (lib : Three α) (shapes : Shapes α) (view : View α)
    (app : App α) (carve : LastCarve α) (distanceValue : Option α)
    (hc : app.lastCarve = some carve)
    (ht : carve.type = "punchHole")
    (hp : carve.params.point = none ∨ carve.params.cameraPos = none) :
    repeatLastCarve lib shapes view app distanceValue
      = (app, Except.error (JsError.TypeError "params.point or cameraPos is undefined")) := by
  have h0 : ("punchHole" == "split") = false := by decide
  have h1 : ("punchHole" == "splitCustom") = false := by decide
  simp only [repeatLastCarve, repeatLastCarveWith, hc, ht, h0, h1, beq_self_eq_true, if_true, if_false, Bool.false_eq_true]
  rcases hp with hp | hp
  · simp only [hp]
  · cases hq : carve.params.point <;> simp only [hp]

theorem repeatLastCarve_eq_punchHole (lib : Three α) (shapes : Shapes α) (view : View α)
    (app : App α) (carve : LastCarve α) (distanceValue : Option α)
    (hc : app.lastCarve = some carve)
    (ht : carve.type = "punchHole") (point cameraPos : Vector3 α)
    (hp : carve.params.point = some point) (hn : carve.params.cameraPos = some cameraPos) :
    repeatLastCarve lib shapes view app distanceValue
      = (repeatLastCarve.probe view app
          (fun app hit =>
            { punchHole lib { app with cameraPosition := cameraPos } hit
                (point.add (view.viewRight.multiplyScalar (orOne distanceValue))) with
              cameraPosition := app.cameraPosition })
          (point.add (view.viewRight.multiplyScalar (orOne distanceValue)))
          (orOne distanceValue), Except.ok ()) := by
  have h0 : ("punchHole" == "split") = false := by decide
  have h1 : ("punchHole" == "splitCustom") = false := by decide
  simp only [repeatLastCarve, repeatLastCarveWith, hc, ht, hp, hn, h0, h1, beq_self_eq_true, if_true, if_false, Bool.false_eq_true]

theorem repeatLastCarve_eq_shapeify_none (lib : Three α) (shapes : Shapes α) (view : View α)
    (app : App α) (carve : LastCarve α) (distanceValue : Option α)
    (hc : app.lastCarve = some carve)
    (ht : carve.type = "shapeify") (hp : carve.params.points3 = none) :
    repeatLastCarve lib shapes view app distanceValue
      = (app, Except.error (JsError.TypeError "params.points is undefined")) := by
  have h0 : ("shapeify" == "split") = false := by decide
  have h1 : ("shapeify" == "splitCustom") = false := by decide
  have h2 : ("shapeify" == "punchHole") = false := by decide
  simp only [repeatLastCarve, repeatLastCarveWith, hc, ht, hp, h0, h1, h2, beq_self_eq_true, if_true, if_false, Bool.false_eq_true]

theorem repeatLastCarve_eq_shapeify (lib : Three α) (shapes : Shapes α) (view : View α)
    (app : App α) (carve : LastCarve α) (distanceValue : Option α)
    (hc : app.lastCarve = some carve)
    (ht : carve.type = "shapeify") (points : List (Vector3 α))
    (hp : carve.params.points3 = some points) :
    repeatLastCarve lib shapes view app distanceValue
      = ({ showNotification
            { app with
              nextRef := app.nextRef + 1
              scene := sceneAdd app.scene app.nextRef
              meshes := app.meshes ++ [Mesh.mk app.nextRef
                (shapes.tubeGeometry (points.map (fun p =>
                  p.add (view.viewRight.multiplyScalar (orOne distanceValue)))))
                (standardMaterial 0xff00ff) defaultPosition defaultQuaternion defaultScale] }
            ("Drawn shape repeated " ++ view.format (orOne distanceValue) ++ "cm away!") with
          lastCarve := some { carve with params := { carve.params with
            points3 := some (points.map (fun p =>
              p.add (view.viewRight.multiplyScalar (orOne distanceValue)))) } } },
        Except.ok ()) := by
  have h0 : ("shapeify" == "split") = false := by decide
  have h1 : ("shapeify" == "splitCustom") = false := by decide
  have h2 : ("shapeify" == "punchHole") = false := by decide
  simp only [repeatLastCarve, repeatLastCarveWith, hc, ht, hp, h0, h1, h2, beq_self_eq_true, if_true, if_false, Bool.false_eq_true]
  simp only [showNotification, hc, Option.map_some', ht]

theorem repeatLastCarve_eq_primitive_none (lib : Three α) (shapes : Shapes α) (view : View α)
    (app : App α) (carve : LastCarve α) (distanceValue : Option α)
    (hc : app.lastCarve = some carve)
    (ht : carve.type = "circlePrimitive" ∨ carve.type = "ringPrimitive")
    (hp : carve.params.position = none) :
    repeatLastCarve lib shapes view app distanceValue
      = (app, Except.error (JsError.TypeError "params.position is undefined")) := by
  rcases ht with ht | ht
  ·
    have h0 : ("circlePrimitive" == "split") = false := by decide
    have h1 : ("circlePrimitive" == "splitCustom") = false := by decide
    have h2 : ("circlePrimitive" == "punchHole") = false := by decide
    have h3 : ("circlePrimitive" == "shapeify") = false := by decide
    simp only [repeatLastCarve, repeatLastCarveWith, hc, ht, hp, h0, h1, h2, h3, beq_self_eq_true, if_true, if_false, Bool.false_eq_true]
  ·
    have h0 : ("ringPrimitive" == "split") = false := by decide
    have h1 : ("ringPrimitive" == "splitCustom") = false := by decide
    have h2 : ("ringPrimitive" == "punchHole") = false := by decide
    have h3 : ("ringPrimitive" == "shapeify") = false := by decide
    have h4 : ("ringPrimitive" == "circlePrimitive") = false := by decide
    simp only [repeatLastCarve, repeatLastCarveWith, hc, ht, hp, h0, h1, h2, h3, h4, beq_self_eq_true, if_true, if_false, Bool.false_eq_true]

theorem repeatLastCarve_eq_circle (lib : Three α) (shapes : Shapes α) (view : View α)
    (app : App α) (carve : LastCarve α) (distanceValue : Option α)
    (hc : app.lastCarve = some carve)
    (ht : carve.type = "circlePrimitive") (position : Vector3 α)
    (hp : carve.params.position = some position) :
    repeatLastCarve lib shapes view app distanceValue
      = (showNotification
          (addPrimitive shapes app "circle"
            (some (position.add (view.viewRight.multiplyScalar (orOne distanceValue)))) (0, 0))
          ("Circle repeated " ++ view.format (orOne distanceValue) ++ "cm away!"),
        Except.ok ()) := by
  have h0 : ("circlePrimitive" == "split") = false := by decide
  have h1 : ("circlePrimitive" == "splitCustom") = false := by decide
  have h2 : ("circlePrimitive" == "punchHole") = false := by decide
  have h3 : ("circlePrimitive" == "shapeify") = false := by decide
  simp only [repeatLastCarve, repeatLastCarveWith, hc, ht, hp, h0, h1, h2, h3, beq_self_eq_true, if_true, if_false, Bool.false_eq_true]

theorem repeatLastCarve_eq_ring (lib : Three α) (shapes : Shapes α) (view : View α)
    (app : App α) (carve : LastCarve α) (distanceValue : Option α)
    (hc : app.lastCarve = some carve)
    (ht : carve.type = "ringPrimitive") (position : Vector3 α)
    (hp : carve.params.position = some position) :
    repeatLastCarve lib shapes view app distanceValue
      = (showNotification
          (addPrimitive shapes app "ring"
            (some (position.add (view.viewRight.multiplyScalar (orOne distanceValue)))) (0, 0))
          ("Ring repeated " ++ view.format (orOne distanceValue) ++ "cm away!"),
        Except.ok ()) := by
  have h0 : ("ringPrimitive" == "split") = false := by decide
  have h1 : ("ringPrimitive" == "splitCustom") = false := by decide
  have h2 : ("ringPrimitive" == "punchHole") = false := by decide
  have h3 : ("ringPrimitive" == "shapeify") = false := by decide
  have h4 : ("ringPrimitive" == "circlePrimitive") = false := by decide
  simp only [repeatLastCarve, repeatLastCarveWith, hc, ht, hp, h0, h1, h2, h3, h4, beq_self_eq_true, if_true, if_false, Bool.false_eq_true]

theorem repeatLastCarve_eq_sketch_none (lib : Three α) (shapes : Shapes α) (view : View α)
    (app : App α) (carve : LastCarve α) (distanceValue : Option α)
    (hc : app.lastCarve = some carve)
    (ht : carve.type = "sketchCarve")
    (hp : carve.params.center = none ∨ carve.params.cameraDir = none) :
    repeatLastCarve lib shapes view app distanceValue
      = (app, Except.error (JsError.TypeError "params.center or cameraDir is undefined")) := by
  have h0 : ("sketchCarve" == "split") = false := by decide
  have h1 : ("sketchCarve" == "splitCustom") = false := by decide
  have h2 : ("sketchCarve" == "punchHole") = false := by decide
  have h3 : ("sketchCarve" == "shapeify") = false := by decide
  have h4 : ("sketchCarve" == "circlePrimitive") = false := by decide
  have h5 : ("sketchCarve" == "ringPrimitive") = false := by decide
  simp only [repeatLastCarve, repeatLastCarveWith, hc, ht, h0, h1, h2, h3, h4, h5, beq_self_eq_true, if_true, if_false, Bool.false_eq_true]
  rcases hp with hp | hp
  · simp only [hp]
  · cases hq : carve.params.center <;> simp only [hp]

theorem repeatLastCarve_eq_sketch_empty (lib : Three α) (shapes : Shapes α) (view : View α)
    (app : App α) (carve : LastCarve α) (distanceValue : Option α)
    (hc : app.lastCarve = some carve)
    (ht : carve.type = "sketchCarve") (center cameraDir : Vector3 α)
    (hp : carve.params.center = some center) (hn : carve.params.cameraDir = some cameraDir)
    (hm : app.meshes = []) :
    repeatLastCarve lib shapes view app distanceValue
      = ({ showNotification app "Repeated sketch didn\x27t intersect any design." with
          lastCarve := some { carve with params := { carve.params with
            center := some (center.add (view.viewRight.multiplyScalar
              (orOne distanceValue))) } } },
        Except.ok ()) := by
  have h0 : ("sketchCarve" == "split") = false := by decide
  have h1 : ("sketchCarve" == "splitCustom") = false := by decide
  have h2 : ("sketchCarve" == "punchHole") = false := by decide
  have h3 : ("sketchCarve" == "shapeify") = false := by decide
  have h4 : ("sketchCarve" == "circlePrimitive") = false := by decide
  have h5 : ("sketchCarve" == "ringPrimitive") = false := by decide
  simp only [repeatLastCarve, repeatLastCarveWith, hc, ht, hp, hn, h0, h1, h2, h3, h4, h5, beq_self_eq_true, if_true, if_false,
    Bool.false_eq_true, applySketchCarveAt, applySketchCarveAtWith, hm,
    applySketchCarveAt.loop, showNotification, Option.map_some']

theorem repeatLastCarve_eq_sketch_raises (lib : Three α) (shapes : Shapes α) (view : View α)
    (app : App α) (carve : LastCarve α) (distanceValue : Option α)
    (hc : app.lastCarve = some carve)
    (ht : carve.type = "sketchCarve") (center cameraDir : Vector3 α)
    (hp : carve.params.center = some center) (hn : carve.params.cameraDir = some cameraDir)
    (m : Mesh α) (rest : List (Mesh α)) (hm : app.meshes = m :: rest) :
    repeatLastCarve lib shapes view app distanceValue
      = (app, Except.error (JsError.ReferenceError "INTERSECTION")) := by
  have h0 : ("sketchCarve" == "split") = false := by decide
  have h1 : ("sketchCarve" == "splitCustom") = false := by decide
  have h2 : ("sketchCarve" == "punchHole") = false := by decide
  have h3 : ("sketchCarve" == "shapeify") = false := by decide
  have h4 : ("sketchCarve" == "circlePrimitive") = false := by decide
  have h5 : ("sketchCarve" == "ringPrimitive") = false := by decide
  simp only [repeatLastCarve, repeatLastCarveWith, hc, ht, hp, hn, h0, h1, h2, h3, h4, h5, beq_self_eq_true, if_true, if_false,
    Bool.false_eq_true, applySketchCarveAt, applySketchCarveAtWith, hm,
    applySketchCarveAt.loop, INTERSECTION]

theorem repeatLastCarve_eq_other (lib : Three α) (shapes : Shapes α) (view : View α)
    (app : App α) (carve : LastCarve α) (distanceValue : Option α)
    (hc : app.lastCarve = some carve)
    (h0 : carve.type ≠ "split") (h1 : carve.type ≠ "splitCustom")
    (h2 : carve.type ≠ "punchHole") (h3 : carve.type ≠ "shapeify")
    (h4 : carve.type ≠ "circlePrimitive") (h5 : carve.type ≠ "ringPrimitive")
    (h6 : carve.type ≠ "sketchCarve") :
    repeatLastCarve lib shapes view app distanceValue
      = (app, Except.error (JsError.TypeError "offsetPoint is undefined")) := by
  simp [repeatLastCarve, repeatLastCarveWith, hc, h0, h1, h2, h3, h4, h5, h6]

theorem splitMesh_withUi (a : App α) (h : Bool) (n : List String) (m : Mesh α)
    (p : Vector3 α) :
    ∃ h1 n1, splitMesh (withUi a h n) m p = withUi (splitMesh a m p) h1 n1 :=
  ⟨_, _, rfl⟩

theorem splitMeshCustom_withUi (a : App α) (h : Bool) (n : List String) (m : Mesh α)
    (p v : Vector3 α) :
    ∃ h1 n1, splitMeshCustom (withUi a h n) m p v = withUi (splitMeshCustom a m p v) h1 n1 :=
  ⟨_, _, rfl⟩

theorem probe_withUi (view : View α) (a : App α) (h : Bool) (n : List String)
    (carve : App α → Mesh α → App α) (offsetPoint : Vector3 α) (distance : α)
    (hcarve : ∀ (b : App α) (h0 : Bool) (n0 : List String) (m : Mesh α),
      ∃ h1 n1, carve (withUi b h0 n0) m = withUi (carve b m) h1 n1) :
    ∃ h1 n1, repeatLastCarve.probe view (withUi a h n) carve offsetPoint distance
      = withUi (repeatLastCarve.probe view a carve offsetPoint distance) h1 n1 := by
  cases hI : view.intersectObjects (offsetPoint.add ⟨0, 10, 0⟩) ⟨0, -1, 0⟩ a.meshes with
  | none =>
    have hI1 : view.intersectObjects (offsetPoint.add ⟨0, 10, 0⟩) ⟨0, -1, 0⟩
        (withUi a h n).meshes = none := hI
    rw [repeatLastCarve_probe_miss view _ carve offsetPoint distance hI1,
      repeatLastCarve_probe_miss view a carve offsetPoint distance hI]
    exact ⟨_, _, rfl⟩
  | some hit =>
    obtain ⟨object, point⟩ := hit
    have hI1 : view.intersectObjects (offsetPoint.add ⟨0, 10, 0⟩) ⟨0, -1, 0⟩
        (withUi a h n).meshes = some (object, point) := hI
    rw [repeatLastCarve_probe_hit view _ carve offsetPoint distance object point hI1,
      repeatLastCarve_probe_hit view a carve offsetPoint distance object point hI]
    obtain ⟨h1, n1, e⟩ := hcarve a h n object
    rw [e]
    exact ⟨_, _, rfl⟩

/-- The replay does not read the visibility of the repeat prompt or the log of
notifications, and writes them only. -/
theorem repeatLastCarve_withUi (lib : Three α) (shapes : Shapes α) (view : View α)
    (a : App α) (h : Bool) (n : List String) (distanceValue : Option α) :
    ∃ h1 n1, repeatLastCarve lib shapes view (withUi a h n) distanceValue
      = (withUi (repeatLastCarve lib shapes view a distanceValue).1 h1 n1,
          (repeatLastCarve lib shapes view a distanceValue).2) := by
  have hl : (withUi a h n).lastCarve = a.lastCarve := rfl
  cases hc : a.lastCarve with
  | none =>
    rw [repeatLastCarve_eq_none _ _ _ _ _ (hl.trans hc), repeatLastCarve_eq_none _ _ _ _ _ hc]
    exact ⟨h, n, rfl⟩
  | some carve =>
    have hc1 := hl.trans hc
    by_cases h0 : carve.type = "split"
    · cases hp : carve.params.point with
      | none =>
        rw [repeatLastCarve_eq_split_none _ _ _ _ _ _ hc1 h0 hp,
          repeatLastCarve_eq_split_none _ _ _ _ _ _ hc h0 hp]
        exact ⟨h, n, rfl⟩
      | some point =>
        rw [repeatLastCarve_eq_split _ _ _ _ _ _ hc1 h0 point hp,
          repeatLastCarve_eq_split _ _ _ _ _ _ hc h0 point hp]
        obtain ⟨h1, n1, e⟩ := probe_withUi view a h n
          (fun app hit => splitMesh app hit
            (point.add ((⟨0, 1, 0⟩ : Vector3 α).multiplyScalar (orOne distanceValue))))
          (point.add ((⟨0, 1, 0⟩ : Vector3 α).multiplyScalar (orOne distanceValue)))
          (orOne distanceValue) (fun b h0 n0 m => ⟨_, _, rfl⟩)
        exact ⟨h1, n1, by rw [e]⟩
    by_cases h1 : carve.type = "splitCustom"
    · cases hp : carve.params.point with
      | none =>
        rw [repeatLastCarve_eq_splitCustom_none _ _ _ _ _ _ hc1 h1 (Or.inl hp),
          repeatLastCarve_eq_splitCustom_none _ _ _ _ _ _ hc h1 (Or.inl hp)]
        exact ⟨h, n, rfl⟩
      | some point =>
        cases hn : carve.params.normal with
        | none =>
          rw [repeatLastCarve_eq_splitCustom_none _ _ _ _ _ _ hc1 h1 (Or.inr hn),
            repeatLastCarve_eq_splitCustom_none _ _ _ _ _ _ hc h1 (Or.inr hn)]
          exact ⟨h, n, rfl⟩
        | some normal =>
          rw [repeatLastCarve_eq_splitCustom _ _ _ _ _ _ hc1 h1 point normal hp hn,
            repeatLastCarve_eq_splitCustom _ _ _ _ _ _ hc h1 point normal hp hn]
          obtain ⟨h1, n1, e⟩ := probe_withUi view a h n
            (fun app hit => splitMeshCustom app hit
              (point.add (normal.multiplyScalar (orOne distanceValue))) normal)
            (point.add (normal.multiplyScalar (orOne distanceValue)))
            (orOne distanceValue) (fun b h0 n0 m => ⟨_, _, rfl⟩)
          exact ⟨h1, n1, by rw [e]⟩
    by_cases h2 : carve.type = "punchHole"
    · cases hp : carve.params.point with
      | none =>
        rw [repeatLastCarve_eq_punchHole_none _ _ _ _ _ _ hc1 h2 (Or.inl hp),
          repeatLastCarve_eq_punchHole_none _ _ _ _ _ _ hc h2 (Or.inl hp)]
        exact ⟨h, n, rfl⟩
      | some point =>
        cases hn : carve.params.cameraPos with
        | none =>
          rw [repeatLastCarve_eq_punchHole_none _ _ _ _ _ _ hc1 h2 (Or.inr hn),
            repeatLastCarve_eq_punchHole_none _ _ _ _ _ _ hc h2 (Or.inr hn)]
          exact ⟨h, n, rfl⟩
        | some cameraPos =>
          rw [repeatLastCarve_eq_punchHole _ _ _ _ _ _ hc1 h2 point cameraPos hp hn,
            repeatLastCarve_eq_punchHole _ _ _ _ _ _ hc h2 point cameraPos hp hn]
          obtain ⟨h1, n1, e⟩ := probe_withUi view a h n
            (fun app hit =>
              { punchHole lib { app with cameraPosition := cameraPos } hit
                  (point.add (view.viewRight.multiplyScalar (orOne distanceValue))) with
                cameraPosition := app.cameraPosition })
            (point.add (view.viewRight.multiplyScalar (orOne distanceValue)))
            (orOne distanceValue) (fun b h0 n0 m => ⟨_, _, rfl⟩)
          exact ⟨h1, n1, by rw [e]⟩
    by_cases h3 : carve.type = "shapeify"
    · cases hp : carve.params.points3 with
      | none =>
        rw [repeatLastCarve_eq_shapeify_none _ _ _ _ _ _ hc1 h3 hp,
          repeatLastCarve_eq_shapeify_none _ _ _ _ _ _ hc h3 hp]
        exact ⟨h, n, rfl⟩
      | some points =>
        rw [repeatLastCarve_eq_shapeify _ _ _ _ _ _ hc1 h3 points hp,
          repeatLastCarve_eq_shapeify _ _ _ _ _ _ hc h3 points hp]
        exact ⟨_, _, rfl⟩
    by_cases h4 : carve.type = "circlePrimitive"
    · cases hp : carve.params.position with
      | none =>
        rw [repeatLastCarve_eq_primitive_none _ _ _ _ _ _ hc1 (Or.inl h4) hp,
          repeatLastCarve_eq_primitive_none _ _ _ _ _ _ hc (Or.inl h4) hp]
        exact ⟨h, n, rfl⟩
      | some position =>
        rw [repeatLastCarve_eq_circle _ _ _ _ _ _ hc1 h4 position hp,
          repeatLastCarve_eq_circle _ _ _ _ _ _ hc h4 position hp]
        exact ⟨_, _, rfl⟩
    by_cases h5 : carve.type = "ringPrimitive"
    · cases hp : carve.params.position with
      | none =>
        rw [repeatLastCarve_eq_primitive_none _ _ _ _ _ _ hc1 (Or.inr h5) hp,
          repeatLastCarve_eq_primitive_none _ _ _ _ _ _ hc (Or.inr h5) hp]
        exact ⟨h, n, rfl⟩
      | some position =>
        rw [repeatLastCarve_eq_ring _ _ _ _ _ _ hc1 h5 position hp,
          repeatLastCarve_eq_ring _ _ _ _ _ _ hc h5 position hp]
        exact ⟨_, _, rfl⟩
    by_cases h6 : carve.type = "sketchCarve"
    · cases hp : carve.params.center with
      | none =>
        rw [repeatLastCarve_eq_sketch_none _ _ _ _ _ _ hc1 h6 (Or.inl hp),
          repeatLastCarve_eq_sketch_none _ _ _ _ _ _ hc h6 (Or.inl hp)]
        exact ⟨h, n, rfl⟩
      | some center =>
        cases hn : carve.params.cameraDir with
        | none =>
          rw [repeatLastCarve_eq_sketch_none _ _ _ _ _ _ hc1 h6 (Or.inr hn),
            repeatLastCarve_eq_sketch_none _ _ _ _ _ _ hc h6 (Or.inr hn)]
          exact ⟨h, n, rfl⟩
        | some cameraDir =>
          have hmm : (withUi a h n).meshes = a.meshes := rfl
          cases hm : a.meshes with
          | nil =>
            rw [repeatLastCarve_eq_sketch_empty _ _ _ _ _ _ hc1 h6 center cameraDir hp hn
                (hmm.trans hm),
              repeatLastCarve_eq_sketch_empty _ _ _ _ _ _ hc h6 center cameraDir hp hn hm]
            exact ⟨_, _, rfl⟩
          | cons m rest =>
            rw [repeatLastCarve_eq_sketch_raises _ _ _ _ _ _ hc1 h6 center cameraDir hp hn
                m rest (hmm.trans hm),
              repeatLastCarve_eq_sketch_raises _ _ _ _ _ _ hc h6 center cameraDir hp hn
                m rest hm]
            exact ⟨h, n, rfl⟩
    rw [repeatLastCarve_eq_other _ _ _ _ _ _ hc1 h0 h1 h2 h3 h4 h5 h6,
      repeatLastCarve_eq_other _ _ _ _ _ _ hc h0 h1 h2 h3 h4 h5 h6]
    exact ⟨h, n, rfl⟩

theorem repeatMultiCarve_loop_succ (lib : Three α) (shapes : Shapes α) (view : View α)
    (d : α) (k : Nat) (app : App α) :
    repeatMultiCarve.loop lib shapes view d (k + 1) app
      = (match repeatMultiCarve.loop lib shapes view d k app with
        | (a, Except.ok _) => repeatLastCarve lib shapes view a (some d)
        | (a, Except.error e) => (a, Except.error e)) := by
  induction k generalizing app with
  | zero =>
    simp only [repeatMultiCarve.loop]
    rcases repeatLastCarve lib shapes view app (some d) with ⟨a, e | u⟩ <;> rfl
  | succ k ih =>
    rw [repeatMultiCarve.loop]
    rcases hr : repeatLastCarve lib shapes view app (some d) with ⟨a, e | u⟩
    · simp only [repeatMultiCarve.loop, hr]
    · simp only [ih a]
      conv_rhs => rw [repeatMultiCarve.loop]
      simp only [hr]

/-- The loop of `repeatMultiCarve` is the sequence of the specification. -/
theorem repeatMultiCarve_loop_eq (lib : Three α) (shapes : Shapes α) (view : View α)
    (d : α) (k : Nat) (app : App α) :
    repeatMultiCarve.loop lib shapes view d k app
      = repeatOnceTimes lib shapes view d k app := by
  induction k with
  | zero => rfl
  | succ k ih =>
    rw [repeatMultiCarve_loop_succ, ih]
    rfl

theorem repeatOnceTimes_withUi (lib : Three α) (shapes : Shapes α) (view : View α)
    (d : α) (k : Nat) (a : App α) (h : Bool) (n : List String) :
    ∃ h1 n1, repeatOnceTimes lib shapes view d k (withUi a h n)
      = (withUi (repeatOnceTimes lib shapes view d k a).1 h1 n1,
          (repeatOnceTimes lib shapes view d k a).2) := by
  induction k with
  | zero => exact ⟨h, n, rfl⟩
  | succ k ih =>
    obtain ⟨h1, n1, e⟩ := ih
    simp only [repeatOnceTimes, e]
    rcases repeatOnceTimes lib shapes view d k a with ⟨x, err | u⟩
    · exact ⟨h1, n1, rfl⟩
    · exact repeatLastCarve_withUi lib shapes view x h1 n1 (some d)

/-- The default of `|| 1` applied twice is the default applied once. -/
theorem orOne_orOne {β : Type} [Zero β] [One β] [DecidableEq β] (value : Option β) :
    orOne (some (orOne value)) = orOne value := by
  cases value with
  | none =>
    simp only [orOne]
    split_ifs <;> rfl
  | some v =>
    simp only [orOne]
    split_ifs <;> rfl

/-- A split record after `k` repeats with a distance that `|| 1` leaves as it is: no
exception, and the stored point moved `k` times by the distance along (0, 1, 0). -/
theorem repeatOnceTimes_split (lib : Three α) (shapes : Shapes α) (view : View α)
    (d : α) (hd : orOne (some d) = d) (k : Nat) (app : App α) (params : CarveParams α)
    (p0 : Vector3 α)
    (hc : app.lastCarve = some { type := "split", params := params })
    (hp : params.point = some p0) :
    (repeatOnceTimes lib shapes view d k app).2 = Except.ok ()
    ∧ ∃ params1 : CarveParams α,
        (repeatOnceTimes lib shapes view d k app).1.lastCarve
          = some { type := "split", params := params1 }
        ∧ params1.point
          = some ((fun p : Vector3 α =>
              p.add ((⟨0, 1, 0⟩ : Vector3 α).multiplyScalar d))^[k] p0) := by
  induction k with
  | zero => exact ⟨rfl, params, hc, hp⟩
  | succ k ih =>
    obtain ⟨hok, params1, hl, hp1⟩ := ih
    rcases hr : repeatOnceTimes lib shapes view d k app with ⟨x, err | u⟩
    · rw [hr] at hok
      cases hok
    · rw [hr] at hl
      simp only at hl
      obtain ⟨hok2, params2, hl2, hp2⟩ :=
        repeatLastCarve_split lib shapes view x params1 _ (some d) hl hp1
      rw [hd] at hp2
      simp only [repeatOnceTimes, hr]
      refine ⟨hok2, params2, hl2, ?_⟩
      rw [hp2, Function.iterate_succ_apply']

/-- C14 (as amended): with a recorded operation, repeatMultiCarve performs repeatLastCarve
c times in sequence with the distance d, where c is the count read, or 1 when the count
reads as 0 or as no number, and d is the distance read, or 1 when it reads as 0 or as no
number (a negative count gives no iteration): its result (an exception or none), its
registry, its scene graph and its stored record are those of c successive repeatLastCarve
calls with distance d; for a split record with point p0 no iteration raises an exception,
whether or not its probe hits a shape, and the stored point ends at p0 moved c times by
n*d, that is (((p0 + n*d) + n*d) + ...) with n = (0, 1, 0), every sum and product being the
one the program computes on its numbers. -/
theorem repeatMultiCarve_spec (lib : Three α) (shapes : Shapes α) (view : View α)
    (app : App α) (countValue : Option Int) (distanceValue : Option α)
    (hrec : app.lastCarve ≠ none) :
    (orOne (none : Option Int) = 1 ∧ orOne (some (0 : Int)) = 1
      ∧ ∀ c : Int, c ≠ 0 → orOne (some c) = c)
    ∧ (orOne (none : Option α) = 1 ∧ orOne (some (0 : α)) = 1
      ∧ ∀ d : α, d ≠ 0 → orOne (some d) = d)
    ∧ (repeatMultiCarve lib shapes view app countValue distanceValue).2
        = (repeatOnceTimes lib shapes view (orOne distanceValue)
            (orOne countValue).toNat app).2
    ∧ (repeatMultiCarve lib shapes view app countValue distanceValue).1.meshes
        = (repeatOnceTimes lib shapes view (orOne distanceValue)
            (orOne countValue).toNat app).1.meshes
    ∧ (repeatMultiCarve lib shapes view app countValue distanceValue).1.scene
        = (repeatOnceTimes lib shapes view (orOne distanceValue)
            (orOne countValue).toNat app).1.scene
    ∧ (repeatMultiCarve lib shapes view app countValue distanceValue).1.lastCarve
        = (repeatOnceTimes lib shapes view (orOne distanceValue)
            (orOne countValue).toNat app).1.lastCarve
    ∧ (∀ (params : CarveParams α) (p0 : Vector3 α),
        app.lastCarve = some { type := "split", params := params } →
        params.point = some p0 →
        (repeatMultiCarve lib shapes view app countValue distanceValue).2 = Except.ok ()
        ∧ ∃ params1 : CarveParams α,
          (repeatMultiCarve lib shapes view app countValue distanceValue).1.lastCarve
            = some { type := "split", params := params1 }
          ∧ params1.point
            = some ((fun p : Vector3 α =>
                p.add ((⟨0, 1, 0⟩ : Vector3 α).multiplyScalar (orOne distanceValue)))^[
                  (orOne countValue).toNat] p0)) := by
  obtain ⟨carve, hcarve⟩ : ∃ carve, app.lastCarve = some carve := by
    cases h : app.lastCarve with
    | none => exact absurd h hrec
    | some carve => exact ⟨carve, rfl⟩
  obtain ⟨h1, n1, e⟩ := repeatOnceTimes_withUi lib shapes view (orOne distanceValue)
    (orOne countValue).toNat app true
    (app.notifications ++ ["Applying " ++ toString (orOne countValue) ++ " repeated carves..."])
  have hrun : repeatMultiCarve.loop lib shapes view (orOne distanceValue)
      (orOne countValue).toNat
      (showNotification (hideRepeatPrompt app)
        ("Applying " ++ toString (orOne countValue) ++ " repeated carves..."))
      = (withUi (repeatOnceTimes lib shapes view (orOne distanceValue)
            (orOne countValue).toNat app).1 h1 n1,
          (repeatOnceTimes lib shapes view (orOne distanceValue)
            (orOne countValue).toNat app).2) := by
    rw [repeatMultiCarve_loop_eq]
    exact e
  have hall : (repeatMultiCarve lib shapes view app countValue distanceValue).2
        = (repeatOnceTimes lib shapes view (orOne distanceValue)
            (orOne countValue).toNat app).2
      ∧ (repeatMultiCarve lib shapes view app countValue distanceValue).1.meshes
        = (repeatOnceTimes lib shapes view (orOne distanceValue)
            (orOne countValue).toNat app).1.meshes
      ∧ (repeatMultiCarve lib shapes view app countValue distanceValue).1.scene
        = (repeatOnceTimes lib shapes view (orOne distanceValue)
            (orOne countValue).toNat app).1.scene
      ∧ (repeatMultiCarve lib shapes view app countValue distanceValue).1.lastCarve
        = (repeatOnceTimes lib shapes view (orOne distanceValue)
            (orOne countValue).toNat app).1.lastCarve := by
    simp only [repeatMultiCarve, hcarve, hrun]
    rcases repeatOnceTimes lib shapes view (orOne distanceValue) (orOne countValue).toNat app
      with ⟨x, err | u⟩
    · exact ⟨rfl, rfl, rfl, rfl⟩
    · exact ⟨rfl, rfl, rfl, rfl⟩
  obtain ⟨a1, a2, a3, a4⟩ := hall
  refine ⟨⟨rfl, rfl, ?_⟩, ⟨rfl, ?_, ?_⟩, a1, a2, a3, a4, ?_⟩
  · intro c hc
    simp only [orOne, hc, if_false]
  · simp only [orOne, if_true]
  · intro d hd
    simp only [orOne, hd, if_false]
  · intro params p0 hsplit hp
    obtain ⟨hok, params1, hl, hp1⟩ :=
      repeatOnceTimes_split lib shapes view (orOne distanceValue) (orOne_orOne distanceValue)
        (orOne countValue).toNat app params p0 hsplit hp
    exact ⟨a1.trans hok, params1, a4.trans hl, hp1⟩

theorem repeatMultiCarve_spec_witness :
    sampleSplitApp.lastCarve ≠ none
    ∧ (repeatMultiCarve disjointLib sampleShapes missView sampleSplitApp (some 3) (some 2)).2
        = Except.ok ()
    ∧ (∃ params1 : CarveParams ℚ,
        (repeatMultiCarve disjointLib sampleShapes missView sampleSplitApp (some 3)
          (some 2)).1.lastCarve = some { type := "split", params := params1 }
        ∧ params1.point = some ⟨0, 6, 0⟩)
    ∧ (∃ params1 : CarveParams ℚ,
        (repeatMultiCarve disjointLib sampleShapes missView sampleSplitApp none
          none).1.lastCarve = some { type := "split", params := params1 }
        ∧ params1.point = some ⟨0, 1, 0⟩) :=
  have h3 : sampleSplitApp.lastCarve
      = some { type := "split",
               params := { mesh := some (sampleRod 4 0), point := some ⟨0, 0, 0⟩ } } :=
    splitMesh_lastCarve _ _ _
  have h4 : sampleSplitApp.lastCarve ≠ none := by rw [h3]; exact Option.some_ne_none _
  have hthree := (repeatMultiCarve_spec disjointLib sampleShapes missView sampleSplitApp
    (some 3) (some 2) h4).2.2.2.2.2.2 _ ⟨0, 0, 0⟩ h3 rfl
  have hnone := (repeatMultiCarve_spec disjointLib sampleShapes missView sampleSplitApp
    none none h4).2.2.2.2.2.2 _ ⟨0, 0, 0⟩ h3 rfl
  ⟨h4, hthree.1,
    by
      obtain ⟨params1, hl, hp⟩ := hthree.2
      refine ⟨params1, hl, ?_⟩
      have e : (orOne (some (3 : Int))).toNat = 3 := rfl
      rw [hp, e]
      norm_num [orOne, Function.iterate_succ_apply, Vector3.add, Vector3.multiplyScalar],
    by
      obtain ⟨params1, hl, hp⟩ := hnone.2
      refine ⟨params1, hl, ?_⟩
      rw [hp]
      norm_num [orOne, Function.iterate_succ_apply, Vector3.add, Vector3.multiplyScalar]⟩

/-- C14 (as stated) fails for the count 0: with a split record whose point is (0, 0, 0)
and distance 2, repeatMultiCarve with count 0 performs one repeat (the count becomes 1) and
the stored point becomes (0, 2, 0), while zero successive repeatLastCarve calls leave it at
(0, 0, 0). -/
theorem repeatMultiCarve_count_zero :
    (repeatMultiCarve disjointLib sampleShapes missView sampleSplitApp (some 0)
        (some 2)).1.lastCarve
      = some { type := "split",
               params := { mesh := some (sampleRod 4 0), point := some ⟨0, 2, 0⟩ } }
    ∧ (repeatOnceTimes disjointLib sampleShapes missView 2 0 sampleSplitApp).1.lastCarve
      = some { type := "split",
               params := { mesh := some (sampleRod 4 0), point := some ⟨0, 0, 0⟩ } }
    ∧ (repeatMultiCarve disjointLib sampleShapes missView sampleSplitApp (some 0)
        (some 2)).1.lastCarve
      ≠ (repeatOnceTimes disjointLib sampleShapes missView 2 0 sampleSplitApp).1.lastCarve := by
  have hl : sampleSplitApp.lastCarve
      = some { type := "split",
               params := { mesh := some (sampleRod 4 0), point := some ⟨0, 0, 0⟩ } } :=
    splitMesh_lastCarve _ _ _
  have h0 : (repeatOnceTimes disjointLib sampleShapes missView 2 0 sampleSplitApp).1.lastCarve
      = some { type := "split",
               params := { mesh := some (sampleRod 4 0), point := some ⟨0, 0, 0⟩ } } := hl
  have hone : (orOne (some (0 : Int)) : Int) = 1 := by decide
  have hrun : (repeatMultiCarve disjointLib sampleShapes missView sampleSplitApp (some 0)
      (some 2)).1.lastCarve
      = (repeatLastCarve disjointLib sampleShapes missView sampleSplitApp
          (some 2)).1.lastCarve := by
    have hd : (orOne (some (2 : ℚ)) : ℚ) = 2 := by simp [orOne]
    obtain ⟨h1, n1, e⟩ := repeatLastCarve_withUi disjointLib sampleShapes missView
      sampleSplitApp true (sampleSplitApp.notifications ++
        ["Applying " ++ toString (1 : Int) ++ " repeated carves..."]) (some 2)
    have e1 : repeatLastCarve disjointLib sampleShapes missView
        (showNotification (hideRepeatPrompt sampleSplitApp)
          ("Applying " ++ toString (1 : Int) ++ " repeated carves...")) (some 2)
        = (withUi (repeatLastCarve disjointLib sampleShapes missView sampleSplitApp
            (some 2)).1 h1 n1,
          (repeatLastCarve disjointLib sampleShapes missView sampleSplitApp (some 2)).2) := e
    simp only [repeatMultiCarve, hl, hone, hd, Int.toNat_one, repeatMultiCarve.loop, e1]
    rcases repeatLastCarve disjointLib sampleShapes missView sampleSplitApp (some 2)
      with ⟨x, err | u⟩ <;> rfl
  have hres := sampleSplitApp_repeat_miss.2.2
  refine ⟨hrun.trans hres, h0, ?_⟩
  rw [hrun, hres, h0]
  intro h
  have h2 := congrArg (fun c : Option (LastCarve ℚ) =>
    c.bind (fun c => c.params.point.map (fun p => p.y))) h
  norm_num at h2

end MultiTheorems

/-! ## Persistence -/

theorem clearAll_silent_meshes (app : App α) (confirmed : Bool) :
    (clearAll app true confirmed).meshes = [] := by
  simp [clearAll, detach_eq, updateDeleteButtonText]

section PersistenceTheorems

variable [LinearOrderedField α]

/-- The registry after the items of a project have been loaded one by one: the shapes that
were there, followed by one shape per item, in order. -/
theorem loadProject_items_meshes (shapes : Shapes α) (items : List (SceneItem α))
    (app : App α) :
    (items.foldl (loadProject.item shapes) app).meshes.map
        (fun m => (m.geometry, m.position, m.quaternion, m.scale, m.material.color))
      = app.meshes.map
          (fun m => (m.geometry, m.position, m.quaternion, m.scale, m.material.color))
        ++ items.map (fun item => (loadProject.geometry shapes item, item.position,
            shapes.fromEuler item.rotation, item.scale, item.color)) := by
  induction items generalizing app with
  | nil => simp
  | cons item rest ih =>
    rw [List.foldl_cons, ih]
    simp [loadProject.item]

/-- The shapes that `loadProject` leaves in the registry for the items of a project. -/
theorem loadProject_meshes (shapes : Shapes α) (session : App α) (name : String)
    (hname : name ≠ "") (items : List (SceneItem α)) :
    (loadProject shapes session name (Stored.data items)).2 = Except.ok ()
    ∧ (loadProject shapes session name (Stored.data items)).1.meshes.map
        (fun m => (m.geometry, m.position, m.quaternion, m.scale, m.material.color))
      = items.map (fun item => (loadProject.geometry shapes item, item.position,
          shapes.fromEuler item.rotation, item.scale, item.color)) := by
  have hn : (name == "") = false := by simpa using hname
  simp only [loadProject, hn, Bool.false_eq_true, if_false, showNotification, true_and]
  have h := loadProject_items_meshes shapes items (clearAll session true false)
  rw [clearAll_silent_meshes] at h
  simpa using h

/-- C17: for a registry whose shapes all have a kind among BoxGeometry, SphereGeometry,
CylinderGeometry, ConeGeometry and TorusGeometry (with the parameters that the constructor
of the kind records, and a rotation that reads back as it was written), loading the output
of serializeScene raises no exception and leaves a registry with the same number of shapes
whose serialization is the serialization of the original: shape by shape, in order, the
same kind, parameters, position, rotation, scale and colour. -/
theorem persistence_round_trip (shapes : Shapes α) (session app : App α) (name : String)
    (hname : name ≠ "")
    (hkind : ∀ m ∈ app.meshes, m.geometry.type ∈
      ["BoxGeometry", "SphereGeometry", "CylinderGeometry", "ConeGeometry", "TorusGeometry"])
    (hparams : ∀ m ∈ app.meshes,
      shapes.parameters m.geometry.type m.geometry.parameters = m.geometry.parameters)
    (hrot : ∀ q : Quaternion α,
      shapes.toEuler (shapes.fromEuler (shapes.toEuler q)) = shapes.toEuler q) :
    (loadProject shapes session name (Stored.data (serializeScene shapes app))).2
      = Except.ok ()
    ∧ serializeScene shapes
        (loadProject shapes session name (Stored.data (serializeScene shapes app))).1
      = serializeScene shapes app
    ∧ (loadProject shapes session name
        (Stored.data (serializeScene shapes app))).1.meshes.length = app.meshes.length := by
  obtain ⟨hok, hm⟩ := loadProject_meshes shapes session name hname (serializeScene shapes app)
  have hser : ∀ ms : List (Mesh α),
      ms.map (fun m => SceneItem.mk m.geometry.type m.geometry.parameters m.position
          (shapes.toEuler m.quaternion) m.scale m.material.color)
        = (ms.map (fun m =>
            (m.geometry, m.position, m.quaternion, m.scale, m.material.color))).map
          (fun t => SceneItem.mk t.1.type t.1.parameters t.2.1 (shapes.toEuler t.2.2.1)
            t.2.2.2.1 t.2.2.2.2) := by
    intro ms
    simp [List.map_map, Function.comp_def]
  refine ⟨hok, ?_, ?_⟩
  · have e1 : serializeScene shapes
        (loadProject shapes session name (Stored.data (serializeScene shapes app))).1
        = ((loadProject shapes session name
            (Stored.data (serializeScene shapes app))).1.meshes.map (fun m =>
            (m.geometry, m.position, m.quaternion, m.scale, m.material.color))).map
          (fun t => SceneItem.mk t.1.type t.1.parameters t.2.1 (shapes.toEuler t.2.2.1)
            t.2.2.2.1 t.2.2.2.2) := hser _
    rw [e1, hm]
    simp only [serializeScene, List.map_map]
    apply List.map_congr_left
    intro m hmem
    have hk := hkind m hmem
    have hp := hparams m hmem
    simp only [List.mem_cons, List.mem_singleton, List.not_mem_nil, or_false] at hk
    simp only [Function.comp_apply, hrot]
    rcases hk with hk | hk | hk | hk | hk <;>
      simp [loadProject.geometry, hk, Shapes.construct] <;> rw [← hk] <;> exact hp
  · have := congrArg List.length hm
    simpa [serializeScene] using this

/-- C18: for a project with a name and any items, loadProject raises no exception and
leaves exactly one shape per item, in order; for every item of the project whose kind is
none of BoxGeometry, SphereGeometry, CylinderGeometry, ConeGeometry and TorusGeometry,
whatever the kinds of the other items are, the shape at the place of the item is a unit box
(the geometry of new BoxGeometry(1, 1, 1)) with the position, rotation, scale and colour of
the item. -/
theorem load_unknown_kind (shapes : Shapes α) (session : App α) (name : String)
    (hname : name ≠ "") (items : List (SceneItem α)) :
    (loadProject shapes session name (Stored.data items)).2 = Except.ok ()
    ∧ (loadProject shapes session name (Stored.data items)).1.meshes.length
      = items.length
    ∧ ∀ (i : Nat) (item : SceneItem α), items[i]? = some item →
      item.type ∉
        ["BoxGeometry", "SphereGeometry", "CylinderGeometry", "ConeGeometry",
          "TorusGeometry"] →
      ((loadProject shapes session name (Stored.data items)).1.meshes.map
        (fun m => (m.geometry, m.position, m.quaternion, m.scale, m.material.color)))[i]?
        = some (shapes.construct "BoxGeometry" [1, 1, 1], item.position,
            shapes.fromEuler item.rotation, item.scale, item.color) := by
  obtain ⟨hok, hm⟩ := loadProject_meshes shapes session name hname items
  refine ⟨hok, ?_, ?_⟩
  · have := congrArg List.length hm
    simpa using this
  · intro i item hi hu
    rw [hm, List.getElem?_map, hi]
    simp only [List.mem_cons, List.mem_singleton, List.not_mem_nil, or_false, not_or] at hu
    simp [loadProject.geometry, hu]

theorem persistence_round_trip_witness :
    "demo" ≠ ""
    ∧ (∀ m ∈ sampleCubeApp.meshes, m.geometry.type ∈
        ["BoxGeometry", "SphereGeometry", "CylinderGeometry", "ConeGeometry", "TorusGeometry"])
    ∧ (∀ m ∈ sampleCubeApp.meshes,
        sampleShapes.parameters m.geometry.type m.geometry.parameters = m.geometry.parameters)
    ∧ (∀ q : Quaternion ℚ,
        sampleShapes.toEuler (sampleShapes.fromEuler (sampleShapes.toEuler q))
          = sampleShapes.toEuler q)
    ∧ serializeScene sampleShapes
        (loadProject sampleShapes sampleApp "demo"
          (Stored.data (serializeScene sampleShapes sampleCubeApp))).1
      = serializeScene sampleShapes sampleCubeApp :=
  have h1 : "demo" ≠ "" := by decide
  have h2 : ∀ m ∈ sampleCubeApp.meshes, m.geometry.type ∈
      ["BoxGeometry", "SphereGeometry", "CylinderGeometry", "ConeGeometry",
        "TorusGeometry"] := by
    intro m hm
    have hm1 : m ∈ [Mesh.mk 4 (sampleShapes.construct "BoxGeometry" [1, 1, 1])
        defaultMaterial ⟨0 * 2 - 1, 0.5, 0 * 2 - 1⟩ defaultQuaternion defaultScale] := hm
    rw [List.mem_singleton] at hm1
    rw [hm1]
    exact List.mem_cons_self _ _
  have h3 : ∀ m ∈ sampleCubeApp.meshes,
      sampleShapes.parameters m.geometry.type m.geometry.parameters
        = m.geometry.parameters := fun _ _ => rfl
  have h4 : ∀ q : Quaternion ℚ,
      sampleShapes.toEuler (sampleShapes.fromEuler (sampleShapes.toEuler q))
        = sampleShapes.toEuler q := fun _ => rfl
  ⟨h1, h2, h3, h4,
    (persistence_round_trip sampleShapes sampleApp sampleCubeApp "demo" h1 h2 h3 h4).2.1⟩

theorem load_unknown_kind_witness :
    "demo" ≠ ""
    ∧ (serializeScene sampleShapes sampleSphereRingApp).map (fun item => item.type)
      = ["SphereGeometry", "RingGeometry"]
    ∧ (loadProject sampleShapes sampleApp "demo"
        (Stored.data (serializeScene sampleShapes sampleSphereRingApp))).1.meshes.length = 2
    ∧ ((loadProject sampleShapes sampleApp "demo"
        (Stored.data (serializeScene sampleShapes sampleSphereRingApp))).1.meshes.map
        (fun m => (m.geometry, m.position, m.quaternion, m.scale, m.material.color)))[1]?
      = some (sampleShapes.construct "BoxGeometry" [1, 1, 1], ⟨1 * 2 - 1, 0.5, 1 * 2 - 1⟩,
          ⟨0, 0, 0, 1⟩, ⟨1, 1, 1⟩, 0x00f2ff) :=
  have h1 : "demo" ≠ "" := by decide
  have h := load_unknown_kind sampleShapes sampleApp "demo" h1
    (serializeScene sampleShapes sampleSphereRingApp)
  ⟨h1, rfl, h.2.1,
    h.2.2 1
      { type := "RingGeometry", parameters := [0.3, 0.6, 128],
        position := ⟨1 * 2 - 1, 0.5, 1 * 2 - 1⟩,
        rotation := { x := 0, y := 0, z := 0, order := "XYZ" }, scale := ⟨1, 1, 1⟩,
        color := 0x00f2ff }
      rfl (by decide)⟩

end PersistenceTheorems

/-! ## Mode flags under all events -/

theorem modeFlags_showNotification (app : App α) (text : String) :
    modeFlags (showNotification app text) = modeFlags app := rfl

theorem modeFlags_storeLastCarve (app : App α) (type : String) (params : CarveParams α) :
    modeFlags (storeLastCarve app type params) = modeFlags app := by
  unfold storeLastCarve showRepeatOptions
  simp only [beq_self_eq_true, if_true]
  rfl

theorem modeFlags_toggleTool (app : App α) (tool : Tool) (btn : Btn) :
    modeFlags (toggleTool app tool.name btn) ∈ allowedFlags := by
  by_cases h : btn ∈ app.activeButtons
  · cases tool <;>
      simp [toggleTool, detach_eq, hideRepeatPrompt, showNotification, modeFlags, allowedFlags,
        Tool.name, h]
  · cases tool <;>
      simp [toggleTool, detach_eq, hideRepeatPrompt, showNotification, modeFlags, allowedFlags,
        Tool.name, h]

theorem modeFlags_escape (app : App α) :
    modeFlags (onKeyDown app { key := "Escape", code := "Escape" } "BODY" false)
      ∈ allowedFlags := by
  have h1 : ("Escape" == "Delete") = false := by decide
  have h2 : ("Escape" == "Backspace") = false := by decide
  simp [onKeyDown, h1, h2, toggleTool, detach_eq, hideRepeatPrompt, showNotification, modeFlags,
    allowedFlags]

section FlagTheorems

variable [LinearOrderedField α]

theorem modeFlags_splitMesh (app : App α) (mesh : Mesh α) (p : Vector3 α) :
    modeFlags (splitMesh app mesh p) = modeFlags app := by
  unfold splitMesh
  rw [modeFlags_storeLastCarve]
  rfl

theorem modeFlags_splitMeshCustom (app : App α) (mesh : Mesh α) (p n : Vector3 α) :
    modeFlags (splitMeshCustom app mesh p n) = modeFlags app := by
  unfold splitMeshCustom
  rw [modeFlags_storeLastCarve]
  rfl

theorem modeFlags_punchHole (lib : Three α) (app : App α) (mesh : Mesh α) (p : Vector3 α) :
    modeFlags (punchHole lib app mesh p) = modeFlags app := by
  unfold punchHole
  simp only [modeFlags_storeLastCarve]
  rfl

theorem modeFlags_applyBend (sin cos : α → α) (app : App α) (mesh : Mesh α) :
    modeFlags (applyBend sin cos app mesh) = modeFlags app := by
  unfold applyBend
  cases mesh.geometry.position <;> rfl

theorem modeFlags_applySketchCarveAt_loop (lib : Three α) (binding : Option CsgOp)
    (cutter : Brush α) (targets : List (Mesh α)) (app : App α) (carved : Bool) :
    modeFlags (applySketchCarveAt.loop lib binding cutter targets app carved).1
      = modeFlags app := by
  induction targets generalizing app carved with
  | nil => rfl
  | cons m rest ih =>
    unfold applySketchCarveAt.loop
    cases binding with
    | none => rfl
    | some operation =>
      simp only
      cases (lib.evaluate (targetBrush m) cutter operation).position with
      | none => rfl
      | some position =>
        simp only
        split_ifs
        · rw [ih]
          rfl
        · rw [ih]

theorem modeFlags_finishSketchCarve (lib : Three α) (view : View α) (app : App α) :
    modeFlags (finishSketchCarve lib view app).1 = modeFlags app := by
  have hreset : ∀ a : App α, modeFlags (finishSketchCarve.reset a) = modeFlags a := by
    intro a
    unfold finishSketchCarve.reset
    cases a.previewLine <;> rfl
  unfold finishSketchCarve
  split_ifs
  · simp only [hreset]
    rfl
  · cases hpts : app.currentDrawPoints with
    | nil => rfl
    | cons origin rest =>
      simp only
      have hloop := modeFlags_applySketchCarveAt_loop lib INTERSECTION
      unfold applySketchCarveAt applySketchCarveAtWith
      generalize hcut : applySketchCarveAt.cutterBrush lib _ _ _ = cutter
      have hl := hloop cutter app.meshes app false
      rcases hr : applySketchCarveAt.loop lib INTERSECTION cutter app.meshes app false
        with ⟨x, err | carved⟩
      · rw [hr] at hl
        exact hl
      · rw [hr] at hl
        simp only [hreset]
        cases carved
        · exact hl
        · simp only [if_true, modeFlags_storeLastCarve]
          exact hl

theorem modeFlags_finishCircleDraw (lib : Three α) (shapes : Shapes α) (app : App α) :
    modeFlags (finishCircleDraw lib shapes app) = modeFlags app := by
  unfold finishCircleDraw
  cases app.circlePreview with
  | none => rfl
  | some preview =>
    simp only
    cases preview.geometry.parameters.head? with
    | none => rfl
    | some radius =>
      simp only
      split_ifs
      · rw [modeFlags_storeLastCarve]
        rfl
      · rfl

theorem modeFlags_onPointerDown (lib : Three α) (shapes : Shapes α) (sin cos : α → α)
    (app : App α) (event : PointerEvent α) (h : modeFlags app ∈ allowedFlags) :
    modeFlags (onPointerDown lib shapes sin cos app event) ∈ allowedFlags := by
  have hsel : ∀ a : App α, modeFlags (handleSelection a event) = modeFlags a := by
    intro a
    unfold handleSelection updateDeleteButtonText
    simp only [detach_eq, attach_eq]
    rcases event.hit with _ | ⟨object, point⟩
    · cases event.dragging <;> rfl
    · rfl
  have hcarve : ∀ a : App α, modeFlags (handleCarve a event) = modeFlags a := by
    intro a
    unfold handleCarve
    rcases event.hit with _ | ⟨object, point⟩
    · rfl
    · simp only
      split_ifs
      · rw [modeFlags_splitMeshCustom]
      · rw [modeFlags_splitMesh]
  have hscale : ∀ a : App α, modeFlags (handleScale a event) = modeFlags a := by
    intro a
    unfold handleScale
    simp only [detach_eq, attach_eq]
    rcases event.hit with _ | ⟨object, point⟩
    · cases event.dragging <;> rfl
    · rfl
  have hpunch : ∀ a : App α, modeFlags (handleCircleCarve lib a event) = modeFlags a := by
    intro a
    unfold handleCircleCarve
    rcases event.hit with _ | ⟨object, point⟩
    · rfl
    · simp only [modeFlags_punchHole]
  have hstart : ∀ a : App α, modeFlags (startCircleDraw lib shapes a event)
      = modeFlags a := fun _ => rfl
  have hbend : ∀ a : App α, modeFlags (handleBend sin cos a event) = modeFlags a := by
    intro a
    unfold handleBend
    rcases event.hit with _ | ⟨object, point⟩
    · rfl
    · simp only [modeFlags_applyBend]
  have hflags : ∀ a : App α, modeFlags a = [a.isSelecting, a.isDrawing, a.isCircleDrawing,
      a.isCarving, a.isScaling, a.isCircleCarving, a.isBending, a.isSketchCarving] :=
    fun _ => rfl
  have ha : modeFlags (hideRepeatPrompt app) ∈ allowedFlags := h
  unfold onPointerDown
  generalize hideRepeatPrompt app = a at ha ⊢
  have hfa := hflags a
  rw [hfa] at ha
  simp only [allowedFlags, List.mem_cons, List.cons.injEq, List.mem_singleton,
    List.not_mem_nil, or_false, and_true] at ha
  rcases ha with h | h | h | h | h | h | h | h | h <;>
    obtain ⟨e1, e2, e3, e4, e5, e6, e7, e8⟩ := h <;>
    simp only [e1, e2, e3, e4, e5, e6, e7, e8, if_true, if_false, Bool.false_eq_true,
      Bool.not_false, Bool.not_true, hsel, hcarve, hscale, hpunch, hstart, hbend] <;>
    simp [hfa, modeFlags, e1, e2, e3, e4, e5, e6, e7, e8, allowedFlags]

theorem modeFlags_onPointerMove (shapes : Shapes α) (app : App α) (event : PointerEvent α) :
    modeFlags (onPointerMove shapes app event) = modeFlags app := by
  have hprev : ∀ a : App α, modeFlags (updateDrawingPreview a) = modeFlags a := by
    intro a
    unfold updateDrawingPreview
    cases a.previewLine <;> simp only <;> split_ifs <;> rfl
  have hcircle : modeFlags (updateCircleDraw shapes app event) = modeFlags app := by
    unfold updateCircleDraw
    cases app.circleCenter <;> cases app.circlePreview <;>
      first | rfl | (simp only; split_ifs <;> rfl)
  unfold onPointerMove
  split_ifs
  · rfl
  · exact hcircle
  · rfl
  · simp only [hprev]
    cases app.currentDrawPoints <;> rfl
  · simp only [hprev]
    rfl

theorem modeFlags_check2DStatus (app : App α) :
    modeFlags (check2DStatus app) = modeFlags app := by
  unfold check2DStatus
  split_ifs
  · rfl
  · cases app.currentDrawPoints with
    | nil => rfl
    | cons first rest =>
      simp only
      split_ifs <;> rfl

theorem modeFlags_onPointerUp (lib : Three α) (shapes : Shapes α) (view : View α)
    (app : App α) (h : modeFlags app ∈ allowedFlags) :
    modeFlags (onPointerUp lib shapes view app).1 ∈ allowedFlags := by
  unfold onPointerUp
  split_ifs with h1 h2 h3
  · simp only [modeFlags_finishCircleDraw]
    exact h
  · have hf := modeFlags_finishSketchCarve lib view app
    rcases hr : finishSketchCarve lib view app with ⟨x, err | u⟩
    · rw [hr] at hf
      simp only
      rw [hf]
      exact h
    · rw [hr] at hf
      simp only
      have hx : modeFlags x = [app.isSelecting, app.isDrawing, app.isCircleDrawing,
          app.isCarving, app.isScaling, app.isCircleCarving, app.isBending,
          app.isSketchCarving] := hf
      simp only [modeFlags, List.cons.injEq, and_true] at hx
      obtain ⟨e1, e2, e3, e4, e5, e6, e7, e8⟩ := hx
      have hflags : modeFlags app = [app.isSelecting, app.isDrawing, app.isCircleDrawing,
          app.isCarving, app.isScaling, app.isCircleCarving, app.isBending,
          app.isSketchCarving] := rfl
      rw [hflags] at h
      simp only [modeFlags, e1, e3, e4, e5, e6, e7, e8]
      simp only [allowedFlags, List.mem_cons, List.cons.injEq, List.mem_singleton,
        List.not_mem_nil, or_false, and_true] at h ⊢
      rcases h with h | h | h | h | h | h | h | h | h <;>
        obtain ⟨f1, f2, f3, f4, f5, f6, f7, f8⟩ := h <;>
        simp_all
  · exact h
  · simp only [modeFlags_check2DStatus]
    exact h

theorem modeFlags_step (lib : Three α) (shapes : Shapes α) (sin cos : α → α) (app : App α)
    (event : UiEvent α) (h : modeFlags app ∈ allowedFlags) :
    modeFlags (step lib shapes sin cos app event) ∈ allowedFlags := by
  cases event with
  | toggle tool btn => exact modeFlags_toggleTool app tool btn
  | escape => exact modeFlags_escape app
  | pointerDown event => exact modeFlags_onPointerDown lib shapes sin cos app event h
  | pointerMove event =>
    show modeFlags (onPointerMove shapes app event) ∈ allowedFlags
    rw [modeFlags_onPointerMove]
    exact h
  | pointerUp view => exact modeFlags_onPointerUp lib shapes view app h

theorem modeFlags_run (lib : Three α) (shapes : Shapes α) (sin cos : α → α)
    (events : List (UiEvent α)) (app : App α) (h : modeFlags app ∈ allowedFlags) :
    modeFlags (run lib shapes sin cos app events) ∈ allowedFlags := by
  induction events generalizing app with
  | nil => exact h
  | cons event events ih => exact ih _ (modeFlags_step lib shapes sin cos app event h)

/-- Claim C20, as the code has it: in every state reachable from the initial state by
`toggleTool` calls, Escape, pointer-down, pointer-move and pointer-up events, either exactly
one of the eight mode flags is true, or exactly two are, `isDrawing` and `isSketchCarving`
(a sketch-carve gesture is in progress). -/
theorem reachable_mode_flags (lib : Three α) (shapes : Shapes α) (sin cos : α → α)
    (page : Page) (events : List (UiEvent α)) :
    activeCount (run lib shapes sin cos (App.init page) events) = 1 ∨
      (activeCount (run lib shapes sin cos (App.init page) events) = 2 ∧
        (run lib shapes sin cos (App.init page) events).isDrawing = true ∧
        (run lib shapes sin cos (App.init page) events).isSketchCarving = true) := by
  have h0 : modeFlags (App.init page : App α) ∈ allowedFlags := by
    simp [App.init, modeFlags, allowedFlags]
  have h := modeFlags_run lib shapes sin cos events (App.init page) h0
  generalize run lib shapes sin cos (App.init page) events = a at h ⊢
  have hflags : modeFlags a = [a.isSelecting, a.isDrawing, a.isCircleDrawing,
      a.isCarving, a.isScaling, a.isCircleCarving, a.isBending, a.isSketchCarving] := rfl
  unfold activeCount
  rw [hflags] at h ⊢
  simp only [allowedFlags, List.mem_cons, List.cons.injEq, List.mem_singleton,
    List.not_mem_nil, or_false, and_true] at h
  rcases h with h | h | h | h | h | h | h | h | h <;>
    obtain ⟨e1, e2, e3, e4, e5, e6, e7, e8⟩ := h <;>
    simp [e1, e2, e3, e4, e5, e6, e7, e8]

end FlagTheorems

/-- Claim C20, counterexample: from the initial state, switching to sketch-carve and pressing
the pointer gives a state with two mode flags true, `isDrawing` and `isSketchCarving`. -/
theorem reachable_two_mode_flags :
    activeCount (run disjointLib sampleShapes (fun _ => 0) (fun _ => 1) (App.init samplePage)
      [UiEvent.toggle Tool.sketchCarve Btn.sketchCarve,
       UiEvent.pointerDown samplePointer]) = 2 ∧
    modeFlags (run disjointLib sampleShapes (fun _ => 0) (fun _ => 1) (App.init samplePage)
      [UiEvent.toggle Tool.sketchCarve Btn.sketchCarve,
       UiEvent.pointerDown samplePointer])
      = [false, true, false, false, false, false, false, true] := by
  constructor <;> rfl

/-! ## Registry and scene graph correspondence -/

theorem count_foldl_sceneRemove (l scene : List Nat) (x : Nat) :
    (l.foldl (fun sc r => sceneRemove sc r) scene).count x = scene.count x - l.count x := by
  induction l generalizing scene with
  | nil => simp
  | cons a rest ih =>
    simp only [List.foldl_cons]
    rw [ih]
    unfold sceneRemove
    by_cases h : x = a
    · subst h
      rw [List.count_erase_self, List.count_cons_self]
      omega
    · rw [List.count_erase_of_ne h, List.count_cons_of_ne h]

theorem CorrespondsIds_add (helpers ids scene : List Nat) (next : Nat)
    (h : CorrespondsIds helpers ids scene next) :
    CorrespondsIds helpers (ids ++ [next]) (sceneAdd scene next) (next + 1) := by
  obtain ⟨h1, h2, h3, h4, h5, h6, h7⟩ := h
  have hni : next ∉ ids := fun hm => Nat.lt_irrefl _ (h5 _ hm)
  have hns : next ∉ scene := fun hm => Nat.lt_irrefl _ (h6 _ hm)
  have hnh : next ∉ helpers := fun hm => Nat.lt_irrefl _ (h7 _ hm)
  have hsc : sceneAdd scene next = scene ++ [next] := by
    unfold sceneAdd
    rw [List.erase_of_not_mem hns]
  rw [hsc]
  refine ⟨?_, ?_, ?_, ?_, ?_, ?_, ?_⟩
  · rw [List.nodup_append]
    refine ⟨h1, List.nodup_singleton _, ?_⟩
    intro a ha hb
    rw [List.mem_singleton] at hb
    exact hni (hb ▸ ha)
  · intro i hi
    rw [List.mem_append, List.mem_singleton] at hi
    rw [List.count_append]
    rcases hi with hi | hi
    · have hne : i ≠ next := fun e => hni (e ▸ hi)
      rw [h2 i hi, List.count_cons_of_ne hne]
      rfl
    · subst hi
      rw [List.count_eq_zero_of_not_mem hns, List.count_cons_self]
      rfl
  · intro r hr
    rw [List.mem_append, List.mem_singleton] at hr
    rcases hr with hr | hr
    · rcases h3 r hr with hr1 | hr1
      · exact Or.inl (List.mem_append_left _ hr1)
      · exact Or.inr hr1
    · exact Or.inl (by rw [hr]; exact List.mem_append_right _ (List.mem_singleton_self _))
  · intro i hi
    rw [List.mem_append, List.mem_singleton] at hi
    rcases hi with hi | hi
    · exact h4 i hi
    · rw [hi]; exact hnh
  · intro i hi
    rw [List.mem_append, List.mem_singleton] at hi
    rcases hi with hi | hi
    · exact Nat.lt_succ_of_lt (h5 i hi)
    · rw [hi]; exact Nat.lt_succ_self _
  · intro r hr
    rw [List.mem_append, List.mem_singleton] at hr
    rcases hr with hr | hr
    · exact Nat.lt_succ_of_lt (h6 r hr)
    · rw [hr]; exact Nat.lt_succ_self _
  · intro r hr
    exact Nat.lt_succ_of_lt (h7 r hr)

theorem CorrespondsIds_remove (helpers ids scene : List Nat) (next x : Nat)
    (h : CorrespondsIds helpers ids scene next) :
    CorrespondsIds helpers (ids.erase x) (sceneRemove scene x) next := by
  obtain ⟨h1, h2, h3, h4, h5, h6, h7⟩ := h
  unfold sceneRemove
  refine ⟨h1.erase x, ?_, ?_, ?_, ?_, ?_, h7⟩
  · intro i hi
    have hi2 := (List.Nodup.mem_erase_iff h1).mp hi
    rw [List.count_erase_of_ne hi2.1]
    exact h2 i hi2.2
  · intro r hr
    have hr1 := List.mem_of_mem_erase hr
    rcases h3 r hr1 with hr2 | hr2
    · by_cases hx : r = x
      · subst hx
        have hc : (scene.erase r).count r = 0 := by
          rw [List.count_erase_self, h2 r hr2]
        exact absurd hr (List.count_eq_zero.mp hc)
      · exact Or.inl ((List.Nodup.mem_erase_iff h1).mpr ⟨hx, hr2⟩)
    · exact Or.inr hr2
  · intro i hi
    exact h4 i (List.mem_of_mem_erase hi)
  · intro i hi
    exact h5 i (List.mem_of_mem_erase hi)
  · intro r hr
    exact h6 r (List.mem_of_mem_erase hr)

theorem CorrespondsIds_clear (helpers ids scene : List Nat) (next : Nat)
    (h : CorrespondsIds helpers ids scene next) :
    CorrespondsIds helpers [] (ids.foldl (fun sc r => sceneRemove sc r) scene) next := by
  obtain ⟨h1, h2, h3, h4, h5, h6, h7⟩ := h
  refine ⟨List.nodup_nil, ?_, ?_, ?_, ?_, ?_, h7⟩
  · intro i hi
    simp at hi
  · intro r hr
    have hr1 := foldl_sceneRemove_subset ids scene r hr
    rcases h3 r hr1 with hr2 | hr2
    · have hc := count_foldl_sceneRemove ids scene r
      rw [h2 r hr2, List.count_eq_one_of_mem h1 hr2] at hc
      exact absurd hr (List.count_eq_zero.mp hc)
    · exact Or.inr hr2
  · intro i hi
    simp at hi
  · intro i hi
    simp at hi
  · intro r hr
    exact h6 r (foldl_sceneRemove_subset ids scene r hr)

theorem removeFromRegistry_ids (ms : List (Mesh α)) (mesh : Mesh α) :
    (removeFromRegistry ms mesh).map (fun m => m.id)
      = (ms.map (fun m => m.id)).erase mesh.id := by
  induction ms with
  | nil => rfl
  | cons m rest ih =>
    rw [removeFromRegistry_cons]
    by_cases h : m.id = mesh.id
    · simp [h]
    · rw [if_neg h, List.map_cons, List.map_cons, ih, List.erase_cons_tail]
      simpa using h

theorem filter_ids (ms : List (Mesh α)) (x : Nat)
    (hnodup : (ms.map (fun m => m.id)).Nodup) :
    (ms.filter (fun m => m.id != x)).map (fun m => m.id)
      = (ms.map (fun m => m.id)).erase x := by
  rw [List.Nodup.erase_eq_filter hnodup]
  induction ms with
  | nil => rfl
  | cons m rest ih =>
    have hn : (rest.map (fun m => m.id)).Nodup := (List.nodup_cons.mp hnodup).2
    by_cases h : m.id = x
    · simp [List.filter_cons, h, ih hn]
    · simp [List.filter_cons, h, ih hn]

theorem Corresponds_congr {helpers : List Nat} {a b : App α}
    (hb : shapeState b = shapeState a) (h : Corresponds helpers a) :
    Corresponds helpers b := by
  simp only [shapeState, Prod.mk.injEq] at hb
  obtain ⟨e1, e2, e3, e4, e5⟩ := hb
  unfold Corresponds at h ⊢
  rw [e1, e2, e3, e4, e5]
  exact h

theorem Corresponds_add {helpers : List Nat} {a b : App α} (m : Mesh α)
    (h : Corresponds helpers a)
    (hb : shapeState b = (a.meshes ++ [m], sceneAdd a.scene a.nextRef, a.nextRef + 1,
      a.previewLine, a.circlePreview))
    (hid : m.id = a.nextRef) : Corresponds helpers b := by
  simp only [shapeState, Prod.mk.injEq] at hb
  obtain ⟨e1, e2, e3, e4, e5⟩ := hb
  unfold Corresponds at h ⊢
  rw [e1, e2, e3, e4, e5, List.map_append, List.map_cons, List.map_nil, hid]
  refine ⟨CorrespondsIds_add _ _ _ _ h.1, h.2.1, h.2.2⟩

theorem Corresponds_remove {helpers : List Nat} {a b : App α} (mesh : Mesh α)
    (h : Corresponds helpers a)
    (hb : shapeState b = (removeFromRegistry a.meshes mesh, sceneRemove a.scene mesh.id,
      a.nextRef, a.previewLine, a.circlePreview)) : Corresponds helpers b := by
  simp only [shapeState, Prod.mk.injEq] at hb
  obtain ⟨e1, e2, e3, e4, e5⟩ := hb
  unfold Corresponds at h ⊢
  rw [e1, e2, e3, e4, e5, removeFromRegistry_ids]
  exact ⟨CorrespondsIds_remove _ _ _ _ _ h.1, h.2.1, h.2.2⟩

theorem Corresponds_filter {helpers : List Nat} {a b : App α} (x : Nat)
    (h : Corresponds helpers a)
    (hb : shapeState b = (a.meshes.filter (fun m => m.id != x), sceneRemove a.scene x,
      a.nextRef, a.previewLine, a.circlePreview)) : Corresponds helpers b := by
  simp only [shapeState, Prod.mk.injEq] at hb
  obtain ⟨e1, e2, e3, e4, e5⟩ := hb
  unfold Corresponds at h ⊢
  rw [e1, e2, e3, e4, e5, filter_ids _ _ h.1.1]
  exact ⟨CorrespondsIds_remove _ _ _ _ _ h.1, h.2.1, h.2.2⟩

theorem Corresponds_clear {helpers : List Nat} {a b : App α}
    (h : Corresponds helpers a)
    (hb : shapeState b = ([], (a.meshes.map (fun m => m.id)).foldl
        (fun sc r => sceneRemove sc r) a.scene,
      a.nextRef, a.previewLine, a.circlePreview)) : Corresponds helpers b := by
  simp only [shapeState, Prod.mk.injEq] at hb
  obtain ⟨e1, e2, e3, e4, e5⟩ := hb
  unfold Corresponds at h ⊢
  rw [e1, e2, e3, e4, e5]
  exact ⟨CorrespondsIds_clear _ _ _ _ h.1, h.2.1, h.2.2⟩

/-- Removing a helper: a preview leaves the scene graph and its field is reset. -/
theorem Corresponds_removeHelper {helpers : List Nat} {a b : App α} (x : Nat)
    (h : Corresponds helpers a) (hx : x ∈ helpers)
    (hm : b.meshes = a.meshes) (hs : b.scene = sceneRemove a.scene x)
    (hn : b.nextRef = a.nextRef)
    (hl : ∀ line, b.previewLine = some line → a.previewLine = some line)
    (hc : ∀ preview, b.circlePreview = some preview → a.circlePreview = some preview) :
    Corresponds helpers b := by
  unfold Corresponds at h ⊢
  rw [hm, hs, hn]
  refine ⟨?_, fun l e => h.2.1 l (hl l e), fun q e => h.2.2 q (hc q e)⟩
  have hr := CorrespondsIds_remove _ _ _ _ x h.1
  have hnot : x ∉ a.meshes.map (fun m => m.id) := fun hmem => h.1.2.2.2.1 x hmem hx
  rw [List.erase_of_not_mem hnot] at hr
  exact hr

theorem shapeState_storeLastCarve (app : App α) (type : String) (params : CarveParams α) :
    shapeState (storeLastCarve app type params) = shapeState app := by
  unfold storeLastCarve showRepeatOptions
  simp only [beq_self_eq_true, if_true]
  rfl

theorem Corresponds_deleteSelectedShape (helpers : List Nat) (app : App α)
    (confirmed : Bool) (h : Corresponds helpers app) :
    Corresponds helpers (deleteSelectedShape app confirmed) := by
  unfold deleteSelectedShape
  cases app.attached with
  | none => exact Corresponds_congr rfl h
  | some mesh =>
    simp only
    split_ifs
    · have h1 : Corresponds helpers
          { app with scene := sceneRemove app.scene mesh.id,
                     meshes := app.meshes.filter (fun m => m.id != mesh.id) } :=
        Corresponds_filter mesh.id h rfl
      exact Corresponds_congr rfl h1
    · exact h

theorem Corresponds_clearAll (helpers : List Nat) (app : App α) (silent confirmed : Bool)
    (h : Corresponds helpers app) :
    Corresponds helpers (clearAll app silent confirmed) := by
  have h1 : Corresponds helpers
      { app with
        meshes := []
        scene := (app.meshes.map (fun m => m.id)).foldl
          (fun sc r => sceneRemove sc r) app.scene } :=
    Corresponds_clear h rfl
  by_cases hc : (silent || confirmed) = true
  · refine Corresponds_congr ?_ h1
    cases silent <;> cases confirmed <;>
      simp [clearAll, shapeState, showNotification, detach_eq, updateDeleteButtonText,
        List.foldl_map] at hc ⊢
  · have e : clearAll app silent confirmed = app := by
      unfold clearAll
      rw [if_neg hc]
    rw [e]
    exact h

section CorrespondsTheorems

variable [LinearOrderedField α]

theorem Corresponds_splitMesh_createClipped (helpers : List Nat) (mesh : Mesh α)
    (p n : Vector3 α) (a : App α) (side : α) (h : Corresponds helpers a) :
    Corresponds helpers (splitMesh.createClipped mesh p n a side) :=
  Corresponds_add _ h rfl rfl

theorem Corresponds_splitMeshCustom_createClipped (helpers : List Nat) (mesh : Mesh α)
    (p n : Vector3 α) (a : App α) (side : α) (h : Corresponds helpers a) :
    Corresponds helpers (splitMeshCustom.createClipped mesh p n a side) :=
  Corresponds_add _ h rfl rfl

theorem Corresponds_splitMesh (helpers : List Nat) (app : App α) (mesh : Mesh α)
    (p : Vector3 α) (h : Corresponds helpers app) :
    Corresponds helpers (splitMesh app mesh p) := by
  have h1 : Corresponds helpers
      { app with meshes := removeFromRegistry app.meshes mesh,
                 scene := sceneRemove app.scene mesh.id } :=
    Corresponds_remove mesh h rfl
  have h2 := Corresponds_splitMesh_createClipped helpers mesh p ⟨0, 1, 0⟩ _ 1 h1
  have h3 := Corresponds_splitMesh_createClipped helpers mesh p ⟨0, 1, 0⟩ _ (-1) h2
  unfold splitMesh
  exact Corresponds_congr (shapeState_storeLastCarve _ _ _) h3

theorem Corresponds_splitMeshCustom (helpers : List Nat) (app : App α) (mesh : Mesh α)
    (p n : Vector3 α) (h : Corresponds helpers app) :
    Corresponds helpers (splitMeshCustom app mesh p n) := by
  have h1 : Corresponds helpers
      { app with meshes := removeFromRegistry app.meshes mesh,
                 scene := sceneRemove app.scene mesh.id } :=
    Corresponds_remove mesh h rfl
  have h2 := Corresponds_splitMeshCustom_createClipped helpers mesh p n _ 1 h1
  have h3 := Corresponds_splitMeshCustom_createClipped helpers mesh p n _ (-1) h2
  unfold splitMeshCustom
  exact Corresponds_congr (shapeState_storeLastCarve _ _ _) h3

theorem Corresponds_punchHole (helpers : List Nat) (lib : Three α) (app : App α)
    (mesh : Mesh α) (p : Vector3 α) (h : Corresponds helpers app) :
    Corresponds helpers (punchHole lib app mesh p) := by
  have h1 : Corresponds helpers
      { app with meshes := removeFromRegistry app.meshes mesh,
                 scene := sceneRemove app.scene mesh.id } :=
    Corresponds_remove mesh h rfl
  have h2 : Corresponds helpers
      { app with
        meshes := removeFromRegistry app.meshes mesh ++
          [Mesh.mk app.nextRef (lib.evaluate (targetBrush mesh)
            (punchHole.cutterBrush lib app p) CsgOp.SUBTRACTION) mesh.material
            defaultPosition defaultQuaternion defaultScale],
        scene := sceneAdd (sceneRemove app.scene mesh.id) app.nextRef,
        nextRef := app.nextRef + 1 } :=
    Corresponds_add _ h1 rfl rfl
  unfold punchHole
  exact Corresponds_congr (shapeState_storeLastCarve _ _ _) h2

theorem Corresponds_addPrimitive (helpers : List Nat) (shapes : Shapes α) (app : App α)
    (type : String) (position : Option (Vector3 α)) (random : α × α)
    (h : Corresponds helpers app) :
    Corresponds helpers (addPrimitive shapes app type position random) := by
  unfold addPrimitive
  cases position with
  | none =>
    simp only
    split_ifs
    · exact Corresponds_congr (shapeState_storeLastCarve _ _ _) (Corresponds_add _ h rfl rfl)
    · exact Corresponds_add _ h rfl rfl
  | some position =>
    simp only
    split_ifs
    · exact Corresponds_congr (shapeState_storeLastCarve _ _ _) (Corresponds_add _ h rfl rfl)
    · exact Corresponds_add _ h rfl rfl

theorem Corresponds_shapeify (helpers : List Nat) (shapes : Shapes α) (app : App α)
    (h : Corresponds helpers app) : Corresponds helpers (shapeify shapes app) := by
  unfold shapeify
  split_ifs
  · exact Corresponds_congr rfl h
  · have h1 : Corresponds helpers
        { app with
          nextRef := app.nextRef + 1
          scene := sceneAdd app.scene app.nextRef
          meshes := app.meshes ++ [Mesh.mk app.nextRef
            (shapes.tubeGeometry app.currentDrawPoints) (standardMaterial 0xff00ff)
            defaultPosition defaultQuaternion defaultScale] } :=
      Corresponds_add _ h rfl rfl
    cases hl : app.previewLine with
    | none =>
      simp only [hl]
      refine Corresponds_congr ?_ h1
      rw [show ∀ a : App α, shapeState { a with currentDrawPoints := [] } = shapeState a
        from fun _ => rfl, shapeState_storeLastCarve]
      simp only [shapeState, hl]
    | some line =>
      simp only [hl]
      have h2 : Corresponds helpers
          { app with
            nextRef := app.nextRef + 1
            scene := sceneRemove (sceneAdd app.scene app.nextRef) line
            meshes := app.meshes ++ [Mesh.mk app.nextRef
              (shapes.tubeGeometry app.currentDrawPoints) (standardMaterial 0xff00ff)
              defaultPosition defaultQuaternion defaultScale]
            previewLine := none } :=
        Corresponds_removeHelper line h1 (h.2.1 line hl) rfl rfl rfl
          (fun _ e => nomatch e) (fun _ e => e)
      refine Corresponds_congr ?_ h2
      rw [show ∀ a : App α, shapeState { a with currentDrawPoints := [] } = shapeState a
        from fun _ => rfl, shapeState_storeLastCarve]

theorem Corresponds_finishCircleDraw (helpers : List Nat) (lib : Three α)
    (shapes : Shapes α) (app : App α) (h : Corresponds helpers app) :
    Corresponds helpers (finishCircleDraw lib shapes app) := by
  unfold finishCircleDraw
  cases hp : app.circlePreview with
  | none => exact h
  | some preview =>
    simp only
    have h1 : Corresponds helpers
        { app with
          scene := sceneRemove app.scene preview.id
          circlePreview := none
          circleCenter := none
          controlsEnabled := true } :=
      Corresponds_removeHelper preview.id h (h.2.2 preview hp) rfl rfl rfl
        (fun _ e => e) (fun _ e => nomatch e)
    cases preview.geometry.parameters.head? with
    | none => exact h1
    | some radius =>
      simp only
      split_ifs
      · exact Corresponds_congr (shapeState_storeLastCarve _ _ _)
          (Corresponds_add _ h1 rfl rfl)
      · exact h1

theorem Corresponds_applySketchCarveAt_loop (helpers : List Nat) (lib : Three α)
    (binding : Option CsgOp) (cutter : Brush α) (targets : List (Mesh α)) (app : App α)
    (carved : Bool) (h : Corresponds helpers app) :
    Corresponds helpers (applySketchCarveAt.loop lib binding cutter targets app carved).1 := by
  induction targets generalizing app carved with
  | nil => exact h
  | cons m rest ih =>
    unfold applySketchCarveAt.loop
    cases binding with
    | none => exact h
    | some operation =>
      simp only
      cases (lib.evaluate (targetBrush m) cutter operation).position with
      | none => exact h
      | some position =>
        simp only
        split_ifs
        · apply ih
          have h1 : Corresponds helpers
              { app with meshes := removeFromRegistry app.meshes m,
                         scene := sceneRemove app.scene m.id } :=
            Corresponds_remove m h rfl
          exact Corresponds_add _ h1 rfl rfl
        · exact ih _ _ h

theorem Corresponds_mergeAll (helpers : List Nat) (shapes : Shapes α) (app : App α)
    (h : Corresponds helpers app) (hok : (mergeAll shapes app).2 = Except.ok ()) :
    Corresponds helpers (mergeAll shapes app).1 := by
  unfold mergeAll at hok ⊢
  split_ifs at hok ⊢
  · exact Corresponds_congr rfl h
  · simp only [mergeAll_foldl] at hok ⊢
    cases hg : shapes.mergeGeometries ([] ++ app.meshes.map (fun m =>
        shapes.applyMatrix4 m.geometry m.position m.quaternion m.scale)) with
    | none =>
      rw [hg] at hok
      cases hok
    | some g =>
      simp only []
      have h1 : Corresponds helpers
          { app with
            meshes := []
            scene := (app.meshes.map (fun m => m.id)).foldl
              (fun sc r => sceneRemove sc r) app.scene } :=
        Corresponds_clear h rfl
      have h2 : Corresponds helpers
          { app with
            meshes := [] ++ [Mesh.mk app.nextRef g
              defaultMaterial defaultPosition defaultQuaternion defaultScale]
            scene := sceneAdd ((app.meshes.map (fun m => m.id)).foldl
              (fun sc r => sceneRemove sc r) app.scene) app.nextRef
            nextRef := app.nextRef + 1 } :=
        Corresponds_add _ h1 rfl rfl
      rw [detach_eq]
      exact Corresponds_congr rfl h2

/-- When `mergeGeometries` returns `null` for a registry of two or more shapes, the state
that `mergeAll` leaves does not satisfy the correspondence: the shapes of the registry are
no longer in the scene graph. -/
theorem not_Corresponds_mergeAll (helpers : List Nat) (shapes : Shapes α) (app : App α)
    (h : Corresponds helpers app) (hlen : 2 ≤ app.meshes.length)
    (hg : shapes.mergeGeometries (app.meshes.map (fun m =>
      shapes.applyMatrix4 m.geometry m.position m.quaternion m.scale)) = none) :
    ¬ Corresponds helpers (mergeAll shapes app).1 := by
  have hlt : ¬ app.meshes.length < 2 := by omega
  have hres : mergeAll shapes app
      = ({ app with
            scene := (app.meshes.map (fun m => m.id)).foldl
              (fun sc r => sceneRemove sc r) app.scene },
          Except.error (JsError.TypeError "geometry is null")) := by
    simp only [mergeAll, if_neg hlt, mergeAll_foldl, List.nil_append, hg]
  rw [hres]
  intro hbad
  cases hm : app.meshes with
  | nil => rw [hm] at hlen; simp at hlen
  | cons m rest =>
    have hmem : m.id ∈ app.meshes.map (fun m => m.id) := by
      rw [hm]
      simp
    have hone := hbad.1.2.1 m.id hmem
    have hcount := count_foldl_sceneRemove (app.meshes.map (fun m => m.id)) app.scene m.id
    rw [h.1.2.1 m.id hmem, List.count_eq_one_of_mem h.1.1 hmem] at hcount
    have hone1 : ((app.meshes.map (fun m => m.id)).foldl
        (fun sc r => sceneRemove sc r) app.scene).count m.id = 1 := hone
    omega

theorem Corresponds_loadProject (helpers : List Nat) (shapes : Shapes α) (app : App α)
    (name : String) (entry : Stored α) (h : Corresponds helpers app) :
    Corresponds helpers (loadProject shapes app name entry).1 := by
  have hitems : ∀ (items : List (SceneItem α)) (a : App α), Corresponds helpers a →
      Corresponds helpers (items.foldl (loadProject.item shapes) a) := by
    intro items
    induction items with
    | nil => exact fun _ ha => ha
    | cons item rest ih =>
      intro a ha
      exact ih _ (Corresponds_add _ ha rfl rfl)
  unfold loadProject
  split_ifs
  · exact h
  · cases entry with
    | missing => exact h
    | null => exact h
    | data data =>
      exact Corresponds_congr rfl (hitems data _ (Corresponds_clearAll helpers app true false h))

theorem Corresponds_probe (helpers : List Nat) (view : View α) (app : App α)
    (carve : App α → Mesh α → App α) (offsetPoint : Vector3 α) (distance : α)
    (hcarve : ∀ hit, Corresponds helpers (carve app hit)) (h : Corresponds helpers app) :
    Corresponds helpers (repeatLastCarve.probe view app carve offsetPoint distance) := by
  cases hI : view.intersectObjects (offsetPoint.add ⟨0, 10, 0⟩) ⟨0, -1, 0⟩ app.meshes with
  | none =>
    rw [repeatLastCarve_probe_miss view app carve offsetPoint distance hI]
    exact Corresponds_congr rfl h
  | some hit =>
    obtain ⟨mesh, at_⟩ := hit
    rw [repeatLastCarve_probe_hit view app carve offsetPoint distance mesh at_ hI]
    exact Corresponds_congr rfl (hcarve mesh)

theorem Corresponds_repeatLastCarve (helpers : List Nat) (lib : Three α)
    (shapes : Shapes α) (view : View α) (app : App α) (distanceValue : Option α)
    (h : Corresponds helpers app) :
    Corresponds helpers (repeatLastCarve lib shapes view app distanceValue).1 := by
  cases hc : app.lastCarve with
  | none =>
    rw [repeatLastCarve_eq_none lib shapes view app distanceValue hc]
    exact h
  | some carve =>
    by_cases h0 : carve.type = "split"
    · cases hp : carve.params.point with
      | none =>
        rw [repeatLastCarve_eq_split_none lib shapes view app carve distanceValue hc h0 hp]
        exact h
      | some point =>
        rw [repeatLastCarve_eq_split lib shapes view app carve distanceValue hc h0 point hp]
        exact Corresponds_probe helpers view app _ _ _
          (fun hit => Corresponds_splitMesh helpers app hit _ h) h
    by_cases h1 : carve.type = "splitCustom"
    · cases hp : carve.params.point with
      | none =>
        rw [repeatLastCarve_eq_splitCustom_none lib shapes view app carve distanceValue hc h1
          (Or.inl hp)]
        exact h
      | some point =>
        cases hn : carve.params.normal with
        | none =>
          rw [repeatLastCarve_eq_splitCustom_none lib shapes view app carve distanceValue hc h1
            (Or.inr hn)]
          exact h
        | some normal =>
          rw [repeatLastCarve_eq_splitCustom lib shapes view app carve distanceValue hc h1
            point normal hp hn]
          exact Corresponds_probe helpers view app _ _ _
            (fun hit => Corresponds_splitMeshCustom helpers app hit _ _ h) h
    by_cases h2 : carve.type = "punchHole"
    · cases hp : carve.params.point with
      | none =>
        rw [repeatLastCarve_eq_punchHole_none lib shapes view app carve distanceValue hc h2
          (Or.inl hp)]
        exact h
      | some point =>
        cases hn : carve.params.cameraPos with
        | none =>
          rw [repeatLastCarve_eq_punchHole_none lib shapes view app carve distanceValue hc h2
            (Or.inr hn)]
          exact h
        | some cameraPos =>
          rw [repeatLastCarve_eq_punchHole lib shapes view app carve distanceValue hc h2
            point cameraPos hp hn]
          refine Corresponds_probe helpers view app _ _ _ (fun hit => ?_) h
          have hcam : Corresponds helpers { app with cameraPosition := cameraPos } :=
            Corresponds_congr rfl h
          exact Corresponds_congr rfl (Corresponds_punchHole helpers lib _ hit _ hcam)
    by_cases h3 : carve.type = "shapeify"
    · cases hp : carve.params.points3 with
      | none =>
        rw [repeatLastCarve_eq_shapeify_none lib shapes view app carve distanceValue hc h3 hp]
        exact h
      | some points =>
        rw [repeatLastCarve_eq_shapeify lib shapes view app carve distanceValue hc h3 points hp]
        exact Corresponds_add _ h rfl rfl
    by_cases h4 : carve.type = "circlePrimitive"
    · cases hp : carve.params.position with
      | none =>
        rw [repeatLastCarve_eq_primitive_none lib shapes view app carve distanceValue hc
          (Or.inl h4) hp]
        exact h
      | some position =>
        rw [repeatLastCarve_eq_circle lib shapes view app carve distanceValue hc h4 position hp]
        exact Corresponds_congr rfl (Corresponds_addPrimitive helpers shapes app _ _ _ h)
    by_cases h5 : carve.type = "ringPrimitive"
    · cases hp : carve.params.position with
      | none =>
        rw [repeatLastCarve_eq_primitive_none lib shapes view app carve distanceValue hc
          (Or.inr h5) hp]
        exact h
      | some position =>
        rw [repeatLastCarve_eq_ring lib shapes view app carve distanceValue hc h5 position hp]
        exact Corresponds_congr rfl (Corresponds_addPrimitive helpers shapes app _ _ _ h)
    by_cases h6 : carve.type = "sketchCarve"
    · cases hp : carve.params.center with
      | none =>
        rw [repeatLastCarve_eq_sketch_none lib shapes view app carve distanceValue hc h6
          (Or.inl hp)]
        exact h
      | some center =>
        cases hn : carve.params.cameraDir with
        | none =>
          rw [repeatLastCarve_eq_sketch_none lib shapes view app carve distanceValue hc h6
            (Or.inr hn)]
          exact h
        | some cameraDir =>
          cases hm : app.meshes with
          | nil =>
            rw [repeatLastCarve_eq_sketch_empty lib shapes view app carve distanceValue hc h6
              center cameraDir hp hn hm]
            exact Corresponds_congr rfl h
          | cons m rest =>
            rw [repeatLastCarve_eq_sketch_raises lib shapes view app carve distanceValue hc h6
              center cameraDir hp hn m rest hm]
            exact h
    · rw [repeatLastCarve_eq_other lib shapes view app carve distanceValue hc h0 h1 h2 h3 h4
        h5 h6]
      exact h

/-- C19, as the code has it: if every shape of the registry occurs once in the registry
and once in the scene graph, every child of the scene graph is a shape of the registry or
one of the helper objects (no shape is a helper, the previews are helpers, and the
identities in use were handed out earlier), then the same holds after addPrimitive,
shapeify, finishCircleDraw, splitMesh, splitMeshCustom, punchHole, applySketchCarveAt,
deleteSelectedShape, clearAll, loadProject and repeatLastCarve, for all their arguments, and
after mergeAll when it returns. When mergeGeometries returns null for a registry of two or
more shapes, mergeAll raises an exception and the correspondence does not hold afterwards:
the shapes are in the registry and not in the scene graph. -/
theorem correspondence_preserved (helpers : List Nat) (lib : Three α) (shapes : Shapes α)
    (view : View α) (app : App α) (h : Corresponds helpers app) :
    (∀ type position random,
      Corresponds helpers (addPrimitive shapes app type position random))
    ∧ Corresponds helpers (shapeify shapes app)
    ∧ Corresponds helpers (finishCircleDraw lib shapes app)
    ∧ (∀ mesh point, Corresponds helpers (splitMesh app mesh point))
    ∧ (∀ mesh point normal, Corresponds helpers (splitMeshCustom app mesh point normal))
    ∧ (∀ mesh point, Corresponds helpers (punchHole lib app mesh point))
    ∧ (∀ shapePoints center direction,
      Corresponds helpers (applySketchCarveAt lib app shapePoints center direction).1)
    ∧ ((mergeAll shapes app).2 = Except.ok () →
      Corresponds helpers (mergeAll shapes app).1)
    ∧ (2 ≤ app.meshes.length →
      shapes.mergeGeometries (app.meshes.map (fun m =>
        shapes.applyMatrix4 m.geometry m.position m.quaternion m.scale)) = none →
      ¬ Corresponds helpers (mergeAll shapes app).1)
    ∧ (∀ confirmed, Corresponds helpers (deleteSelectedShape app confirmed))
    ∧ (∀ silent confirmed, Corresponds helpers (clearAll app silent confirmed))
    ∧ (∀ name entry, Corresponds helpers (loadProject shapes app name entry).1)
    ∧ (∀ distanceValue,
      Corresponds helpers (repeatLastCarve lib shapes view app distanceValue).1) :=
  ⟨fun type position random =>
      Corresponds_addPrimitive helpers shapes app type position random h,
    Corresponds_shapeify helpers shapes app h,
    Corresponds_finishCircleDraw helpers lib shapes app h,
    fun mesh point => Corresponds_splitMesh helpers app mesh point h,
    fun mesh point normal => Corresponds_splitMeshCustom helpers app mesh point normal h,
    fun mesh point => Corresponds_punchHole helpers lib app mesh point h,
    fun _ _ _ => Corresponds_applySketchCarveAt_loop helpers lib INTERSECTION _ _ app false h,
    Corresponds_mergeAll helpers shapes app h,
    not_Corresponds_mergeAll helpers shapes app h,
    fun confirmed => Corresponds_deleteSelectedShape helpers app confirmed h,
    fun silent confirmed => Corresponds_clearAll helpers app silent confirmed h,
    fun name entry => Corresponds_loadProject helpers shapes app name entry h,
    fun distanceValue => Corresponds_repeatLastCarve helpers lib shapes view app distanceValue h⟩

end CorrespondsTheorems

theorem correspondence_preserved_witness :
    Corresponds [0, 1, 2, 3] samplePunchedCubeApp
    ∧ 2 ≤ samplePunchedCubeApp.meshes.length
    ∧ strictShapes.mergeGeometries (samplePunchedCubeApp.meshes.map (fun m =>
        strictShapes.applyMatrix4 m.geometry m.position m.quaternion m.scale)) = none
    ∧ ¬ Corresponds [0, 1, 2, 3] (mergeAll strictShapes samplePunchedCubeApp).1
    ∧ (mergeAll sampleShapes samplePunchedCubeApp).2 = Except.ok ()
    ∧ Corresponds [0, 1, 2, 3] (mergeAll sampleShapes samplePunchedCubeApp).1
    ∧ Corresponds [0, 1, 2, 3] (splitMesh samplePunchedCubeApp sampleCube ⟨0, 0, 0⟩) :=
  have h : Corresponds [0, 1, 2, 3] samplePunchedCubeApp := by
    refine ⟨⟨?_, ?_, ?_, ?_, ?_, ?_, ?_⟩, ?_, ?_⟩
    · decide
    · decide
    · decide
    · decide
    · decide
    · decide
    · decide
    · intro line e
      exact nomatch e
    · intro preview e
      exact nomatch e
  have h2 : 2 ≤ samplePunchedCubeApp.meshes.length := by decide
  have h3 : strictShapes.mergeGeometries (samplePunchedCubeApp.meshes.map (fun m =>
      strictShapes.applyMatrix4 m.geometry m.position m.quaternion m.scale)) = none := by
    rfl
  have h4 : (mergeAll sampleShapes samplePunchedCubeApp).2 = Except.ok () := by rfl
  ⟨h, h2, h3,
    (correspondence_preserved [0, 1, 2, 3] overlapLib strictShapes missView
      samplePunchedCubeApp h).2.2.2.2.2.2.2.2.1 h2 h3,
    h4,
    (correspondence_preserved [0, 1, 2, 3] overlapLib sampleShapes missView
      samplePunchedCubeApp h).2.2.2.2.2.2.2.1 h4,
    (correspondence_preserved [0, 1, 2, 3] overlapLib sampleShapes missView
      samplePunchedCubeApp h).2.2.2.1 sampleCube ⟨0, 0, 0⟩⟩

/-! ## The draw buffer -/

theorem toggleTool_buffer (app : App α) (tool : String) (btn : Btn) :
    (toggleTool app tool btn).currentDrawPoints = app.currentDrawPoints
    ∧ (toggleTool app tool btn).previewLine = app.previewLine := by
  unfold toggleTool
  simp only [detach_eq, hideRepeatPrompt, showNotification]
  generalize (if app.attached.isSome = true then "Delete Shape" else app.deleteButtonText)
    = text
  split_ifs <;> exact ⟨rfl, rfl⟩

/-- Claim C21, as the code has it: `toggleTool` leaves the draw buffer (and the preview
line) exactly as it was, for every state, tool string and button; it does not clear an
in-progress gesture. -/
theorem toggleTool_keeps_draw_buffer (app : App α) (tool : String) (btn : Btn) :
    (toggleTool app tool btn).currentDrawPoints = app.currentDrawPoints
    ∧ (toggleTool app tool btn).previewLine = app.previewLine :=
  toggleTool_buffer app tool btn

/-- Claim C21, counterexample: in Draw mode with two points in the draw buffer, switching to
Carve, or back to Select by the active button, changes the mode and leaves the two points in
the buffer. -/
theorem toggleTool_buffer_not_cleared :
    activeModes sampleDrawingApp = [Tool.draw]
    ∧ activeModes (toggleTool sampleDrawingApp "carve" Btn.carve) = [Tool.carve]
    ∧ (toggleTool sampleDrawingApp "carve" Btn.carve).currentDrawPoints
        = [⟨0, 0, 0⟩, ⟨1, 0, 0⟩]
    ∧ activeModes (toggleTool sampleDrawingApp "draw" Btn.draw) = [Tool.select]
    ∧ (toggleTool sampleDrawingApp "draw" Btn.draw).currentDrawPoints
        = [⟨0, 0, 0⟩, ⟨1, 0, 0⟩] := by
  refine ⟨by decide, by decide, rfl, by decide, rfl⟩

section BufferTheorems

variable [LinearOrderedField α]

/-- In Draw mode `onPointerDown` hides the repeat prompt, disables the orbit controls and
resets the draw buffer to the empty list. -/
theorem onPointerDown_draw (lib : Three α) (shapes : Shapes α) (sin cos : α → α)
    (app : App α) (event : PointerEvent α)
    (hdraw : modeFlags app = [false, true, false, false, false, false, false, false]) :
    onPointerDown lib shapes sin cos app event
      = { hideRepeatPrompt app with controlsEnabled := false, currentDrawPoints := [] } := by
  simp only [modeFlags, List.cons.injEq, and_true] at hdraw
  obtain ⟨e1, e2, e3, e4, e5, e6, e7, e8⟩ := hdraw
  have a1 : (hideRepeatPrompt app).isSelecting = false := e1
  have a2 : (hideRepeatPrompt app).isDrawing = true := e2
  have a3 : (hideRepeatPrompt app).isCircleDrawing = false := e3
  have a4 : (hideRepeatPrompt app).isCarving = false := e4
  have a5 : (hideRepeatPrompt app).isScaling = false := e5
  have a6 : (hideRepeatPrompt app).isCircleCarving = false := e6
  have a7 : (hideRepeatPrompt app).isBending = false := e7
  have a8 : (hideRepeatPrompt app).isSketchCarving = false := e8
  unfold onPointerDown
  generalize hideRepeatPrompt app = a at a1 a2 a3 a4 a5 a6 a7 a8 ⊢
  simp only [a1, a2, a3, a4, a5, a6, a7, a8, if_false, Bool.false_eq_true, Bool.not_true]

/-- With an empty draw buffer, outside Scale and Circle Draw, `onPointerMove` returns at its
guard (line 439) and changes nothing. -/
theorem onPointerMove_empty (shapes : Shapes α) (app : App α) (event : PointerEvent α)
    (h1 : app.isScaling = false) (h2 : app.isCircleDrawing = false)
    (h3 : app.currentDrawPoints = []) : onPointerMove shapes app event = app := by
  unfold onPointerMove
  simp [h1, h2, h3]

theorem run_pointerMove_empty (lib : Three α) (shapes : Shapes α) (sin cos : α → α)
    (app : App α) (moves : List (PointerEvent α))
    (h1 : app.isScaling = false) (h2 : app.isCircleDrawing = false)
    (h3 : app.currentDrawPoints = []) :
    run lib shapes sin cos app (moves.map UiEvent.pointerMove) = app := by
  induction moves with
  | nil => rfl
  | cons event rest ih =>
    show run lib shapes sin cos (onPointerMove shapes app event)
      (rest.map UiEvent.pointerMove) = app
    rw [onPointerMove_empty shapes app event h1 h2 h3]
    exact ih

/-- C22, as the code has it: in Draw mode (straight-lines on or off), after a pointer-down
followed by any number of pointer-move events the state is the one the pointer-down left and
the draw buffer is empty; for one or more moves it is not the list of the points computed
for the moves. -/
theorem draw_gesture_buffer_empty (lib : Three α) (shapes : Shapes α) (sin cos : α → α)
    (app : App α) (down : PointerEvent α) (moves : List (PointerEvent α))
    (hdraw : modeFlags app = [false, true, false, false, false, false, false, false]) :
    run lib shapes sin cos app (UiEvent.pointerDown down :: moves.map UiEvent.pointerMove)
      = { hideRepeatPrompt app with controlsEnabled := false, currentDrawPoints := [] }
    ∧ (run lib shapes sin cos app
        (UiEvent.pointerDown down :: moves.map UiEvent.pointerMove)).currentDrawPoints = []
    ∧ (moves ≠ [] →
      (run lib shapes sin cos app
        (UiEvent.pointerDown down :: moves.map UiEvent.pointerMove)).currentDrawPoints
        ≠ moves.map (fun event => event.rayAt5)) := by
  have hrun : run lib shapes sin cos app
      (UiEvent.pointerDown down :: moves.map UiEvent.pointerMove)
      = { hideRepeatPrompt app with controlsEnabled := false, currentDrawPoints := [] } := by
    show run lib shapes sin cos (onPointerDown lib shapes sin cos app down)
      (moves.map UiEvent.pointerMove) = _
    rw [onPointerDown_draw lib shapes sin cos app down hdraw]
    simp only [modeFlags, List.cons.injEq, and_true] at hdraw
    exact run_pointerMove_empty lib shapes sin cos _ moves hdraw.2.2.2.2.1 hdraw.2.2.1 rfl
  refine ⟨hrun, ?_, ?_⟩
  · rw [hrun]
  · intro hne
    rw [hrun]
    intro h
    cases moves with
    | nil => exact hne rfl
    | cons event rest => simp at h

end BufferTheorems

theorem draw_gesture_buffer_empty_witness :
    modeFlags (toggleTool (App.init samplePage : App ℚ) "draw" Btn.draw)
      = [false, true, false, false, false, false, false, false]
    ∧ (toggleTool (App.init samplePage : App ℚ) "draw" Btn.draw).isStraight = false
    ∧ (run disjointLib sampleShapes (fun _ => 0) (fun _ => 1)
        (toggleTool (App.init samplePage) "draw" Btn.draw)
        (UiEvent.pointerDown (samplePointerAt ⟨0, 0, 0⟩) ::
          [samplePointerAt ⟨1, 0, 0⟩, samplePointerAt ⟨2, 0, 0⟩].map
            UiEvent.pointerMove)).currentDrawPoints = []
    ∧ (run disjointLib sampleShapes (fun _ => 0) (fun _ => 1)
        (toggleTool (App.init samplePage) "draw" Btn.draw)
        (UiEvent.pointerDown (samplePointerAt ⟨0, 0, 0⟩) ::
          [samplePointerAt ⟨1, 0, 0⟩, samplePointerAt ⟨2, 0, 0⟩].map
            UiEvent.pointerMove)).currentDrawPoints
      ≠ [samplePointerAt ⟨1, 0, 0⟩, samplePointerAt ⟨2, 0, 0⟩].map
          (fun event => event.rayAt5) :=
  ⟨by decide, rfl,
    (draw_gesture_buffer_empty disjointLib sampleShapes (fun _ => 0) (fun _ => 1)
      (toggleTool (App.init samplePage) "draw" Btn.draw) (samplePointerAt ⟨0, 0, 0⟩)
      [samplePointerAt ⟨1, 0, 0⟩, samplePointerAt ⟨2, 0, 0⟩] (by decide)).2.1,
    (draw_gesture_buffer_empty disjointLib sampleShapes (fun _ => 0) (fun _ => 1)
      (toggleTool (App.init samplePage) "draw" Btn.draw) (samplePointerAt ⟨0, 0, 0⟩)
      [samplePointerAt ⟨1, 0, 0⟩, samplePointerAt ⟨2, 0, 0⟩] (by decide)).2.2
      (List.cons_ne_nil _ _)⟩

/-! ### The draw buffer in reachable states -/

theorem buffer_storeLastCarve (app : App α) (type : String) (params : CarveParams α) :
    (storeLastCarve app type params).currentDrawPoints = app.currentDrawPoints := by
  unfold storeLastCarve showRepeatOptions
  simp only [beq_self_eq_true, if_true]

section ReachableBuffer

variable [LinearOrderedField α]

theorem buffer_onPointerDown (lib : Three α) (shapes : Shapes α) (sin cos : α → α)
    (app : App α) (event : PointerEvent α) (h : app.currentDrawPoints = []) :
    (onPointerDown lib shapes sin cos app event).currentDrawPoints = [] := by
  have ha : (hideRepeatPrompt app).currentDrawPoints = [] := h
  unfold onPointerDown
  generalize hideRepeatPrompt app = a at ha ⊢
  dsimp only
  split_ifs
  · unfold handleSelection updateDeleteButtonText
    simp only [detach_eq, attach_eq]
    rcases event.hit with _ | ⟨object, point⟩
    · cases event.dragging <;> exact ha
    · exact ha
  · unfold handleCarve
    rcases event.hit with _ | ⟨object, point⟩
    · exact ha
    · simp only
      split_ifs
      · unfold splitMeshCustom
        rw [buffer_storeLastCarve]
        exact ha
      · unfold splitMesh
        rw [buffer_storeLastCarve]
        exact ha
  · unfold handleScale
    simp only [detach_eq, attach_eq]
    rcases event.hit with _ | ⟨object, point⟩
    · cases event.dragging <;> exact ha
    · exact ha
  · unfold handleCircleCarve
    rcases event.hit with _ | ⟨object, point⟩
    · exact ha
    · simp only
      unfold punchHole
      simp only [buffer_storeLastCarve]
      exact ha
  · exact ha
  · unfold handleBend
    rcases event.hit with _ | ⟨object, point⟩
    · exact ha
    · simp only
      unfold applyBend
      cases object.geometry.position <;> exact ha
  · rfl
  · exact ha
  · rfl

theorem buffer_onPointerMove (shapes : Shapes α) (app : App α) (event : PointerEvent α)
    (h : app.currentDrawPoints = []) :
    (onPointerMove shapes app event).currentDrawPoints = [] := by
  unfold onPointerMove
  by_cases h1 : app.isScaling = true
  · rw [if_pos h1]
    exact h
  · rw [if_neg h1]
    by_cases h2 : app.isCircleDrawing = true
    · rw [if_pos h2]
      unfold updateCircleDraw
      cases app.circleCenter <;> cases app.circlePreview <;>
        first | exact h | (simp only; split_ifs <;> exact h)
    · rw [if_neg h2, if_pos (by simp [h])]
      exact h

theorem buffer_onPointerUp (lib : Three α) (shapes : Shapes α) (view : View α)
    (app : App α) (h : app.currentDrawPoints = []) :
    (onPointerUp lib shapes view app).1.currentDrawPoints = [] := by
  unfold onPointerUp
  split_ifs
  · simp only
    unfold finishCircleDraw
    cases app.circlePreview with
    | none => exact h
    | some preview =>
      simp only
      cases preview.geometry.parameters.head? with
      | none => exact h
      | some radius =>
        simp only
        split_ifs
        · rw [buffer_storeLastCarve]
          exact h
        · exact h
  · have hf : finishSketchCarve lib view app
        = (finishSketchCarve.reset
            (showNotification app "Draw a more complex shape to carve!"), Except.ok ()) := by
      unfold finishSketchCarve
      rw [if_pos (by simp [h])]
    rw [hf]
    rfl
  · exact h
  · have hc : ∀ a : App α, a.currentDrawPoints = [] →
        (check2DStatus a).currentDrawPoints = [] := by
      intro a ha
      unfold check2DStatus
      rw [if_pos (by simp [ha])]
      exact ha
    exact hc _ h

/-- In every state reachable from the initial state by `toggleTool` calls, Escape and
pointer events the draw buffer is empty: pointer-down resets it and `onPointerMove` returns
at its guard while it is empty. -/
theorem reachable_draw_buffer_empty (lib : Three α) (shapes : Shapes α) (sin cos : α → α)
    (page : Page) (events : List (UiEvent α)) :
    (run lib shapes sin cos (App.init page) events).currentDrawPoints = [] := by
  have hstep : ∀ (app : App α) (event : UiEvent α), app.currentDrawPoints = [] →
      (step lib shapes sin cos app event).currentDrawPoints = [] := by
    intro app event h
    cases event with
    | toggle tool btn => exact (toggleTool_buffer app tool.name btn).1.trans h
    | escape =>
      have h1 : ("Escape" == "Delete") = false := by decide
      have h2 : ("Escape" == "Backspace") = false := by decide
      show (onKeyDown app { key := "Escape", code := "Escape" } "BODY"
        false).currentDrawPoints = []
      simp only [onKeyDown, h1, h2, beq_self_eq_true, if_true, Bool.or_self,
        Bool.false_eq_true, if_false, showNotification]
      exact (toggleTool_buffer app "select" Btn.select).1.trans h
    | pointerDown event => exact buffer_onPointerDown lib shapes sin cos app event h
    | pointerMove event => exact buffer_onPointerMove shapes app event h
    | pointerUp view => exact buffer_onPointerUp lib shapes view app h
  have hrun : ∀ (events : List (UiEvent α)) (app : App α), app.currentDrawPoints = [] →
      (run lib shapes sin cos app events).currentDrawPoints = [] := by
    intro events
    induction events with
    | nil => exact fun _ h => h
    | cons event rest ih => exact fun app h => ih _ (hstep app event h)
  exact hrun events _ rfl

end ReachableBuffer

/-! ## Replay of a sketch carve -/

/-- The loop of `applySketchCarveAt` does not assign to the repeat record. -/
theorem applySketchCarveAt_loop_lastCarve [Zero α] [One α] (lib : Three α) (binding : Option CsgOp)
    (cutter : Brush α) (targets : List (Mesh α)) (app : App α) (carved : Bool) :
    (applySketchCarveAt.loop lib binding cutter targets app carved).1.lastCarve
      = app.lastCarve := by
  induction targets generalizing app carved with
  | nil => rfl
  | cons m rest ih =>
    unfold applySketchCarveAt.loop
    cases binding with
    | none => rfl
    | some operation =>
      simp only
      cases (lib.evaluate (targetBrush m) cutter operation).position with
      | none => rfl
      | some position =>
        simp only
        split_ifs
        · rw [ih]
        · rw [ih]

/-- The loop of `applySketchCarveAt` returns when the identifier is bound and every result
of the evaluator has a position attribute. -/
theorem applySketchCarveAt_loop_returns [Zero α] [One α] (lib : Three α) (operation : CsgOp)
    (hpos : ∀ a b : Brush α, (lib.evaluate a b operation).position ≠ none)
    (cutter : Brush α) (targets : List (Mesh α)) (app : App α) (carved : Bool) :
    ∃ carved1 : Bool, (applySketchCarveAt.loop lib (some operation) cutter targets app
      carved).2 = Except.ok carved1 := by
  induction targets generalizing app carved with
  | nil => exact ⟨carved, rfl⟩
  | cons m rest ih =>
    unfold applySketchCarveAt.loop
    simp only
    cases hq : (lib.evaluate (targetBrush m) cutter operation).position with
    | none => exact absurd hq (hpos _ _)
    | some position =>
      simp only
      split_ifs
      · exact ih _ _
      · exact ih _ _

section SketchRecord

variable [LinearOrderedField α]

/-- As the module is, with the identifier `INTERSECTION` unbound, `finishSketchCarve` leaves
the repeat record as it was: `applySketchCarveAt` returns false on an empty registry and
raises on any other, so the store of a `sketchCarve` record after a successful carve, the
only place where the program creates such a record, is never reached. -/
theorem finishSketchCarve_lastCarve (lib : Three α) (view : View α) (app : App α) :
    (finishSketchCarve lib view app).1.lastCarve = app.lastCarve := by
  have hreset : ∀ a : App α, (finishSketchCarve.reset a).lastCarve = a.lastCarve := by
    intro a
    unfold finishSketchCarve.reset
    cases a.previewLine <;> rfl
  unfold finishSketchCarve
  split_ifs
  · simp only [hreset]
    rfl
  · cases hpts : app.currentDrawPoints with
    | nil => rfl
    | cons origin rest =>
      simp only
      unfold applySketchCarveAt applySketchCarveAtWith
      generalize applySketchCarveAt.cutterBrush lib _ _ _ = cutter
      cases hm : app.meshes with
      | nil =>
        simp only [applySketchCarveAt.loop, hreset, Bool.false_eq_true, if_false]
        rfl
      | cons m rest => rfl

end SketchRecord

section SketchReplayTheorems

set_option linter.unusedSectionVars false

variable [Zero α] [One α] [Add α] [Sub α] [Mul α] [Neg α] [NatCast α]
  [OfScientific α] [LT α] [DecidableRel (α := α) (· < ·)] [DecidableEq α]

/-- The `sketchCarve` branch of `repeatLastCarve`: the result is that of
`applySketchCarveAt` on the stored polygon, the offset centre and the stored direction,
followed, when the call returns, by the notification and the update of the centre. -/
theorem repeatLastCarveWith_eq_sketch (lib : Three α) (binding : Option CsgOp)
    (shapes : Shapes α) (view : View α)
    (app : App α) (carve : LastCarve α) (distanceValue : Option α)
    (hc : app.lastCarve = some carve)
    (ht : carve.type = "sketchCarve") (center cameraDir : Vector3 α)
    (hp : carve.params.center = some center) (hn : carve.params.cameraDir = some cameraDir) :
    repeatLastCarveWith lib binding shapes view app distanceValue
      = match applySketchCarveAtWith lib binding app (carve.params.points.getD [])
          (center.add (view.viewRight.multiplyScalar (orOne distanceValue))) cameraDir with
        | (app, Except.error e) => (app, Except.error e)
        | (app, Except.ok carved) =>
          ({ (if carved then
                showNotification app
                  ("Sketch carve repeated " ++ view.format (orOne distanceValue) ++ "cm away!")
              else showNotification app "Repeated sketch didn\x27t intersect any design.") with
              lastCarve :=
                (if carved then
                  showNotification app
                    ("Sketch carve repeated " ++ view.format (orOne distanceValue)
                      ++ "cm away!")
                else showNotification app
                  "Repeated sketch didn\x27t intersect any design.").lastCarve.map
                  (fun carve => { carve with params := { carve.params with
                    center := some (center.add (view.viewRight.multiplyScalar
                      (orOne distanceValue))) } }) },
            Except.ok ()) := by
  have h0 : ("sketchCarve" == "split") = false := by decide
  have h1 : ("sketchCarve" == "splitCustom") = false := by decide
  have h2 : ("sketchCarve" == "punchHole") = false := by decide
  have h3 : ("sketchCarve" == "shapeify") = false := by decide
  have h4 : ("sketchCarve" == "circlePrimitive") = false := by decide
  have h5 : ("sketchCarve" == "ringPrimitive") = false := by decide
  simp only [repeatLastCarveWith, hc, ht, hp, hn, h0, h1, h2, h3, h4, h5, beq_self_eq_true,
    if_true, if_false, Bool.false_eq_true]

/-- C23: for a record of type sketchCarve with stored polygon P, centre c and direction v,
a non-zero distance d and the right axis r of the camera: repeatLastCarve of the module is
its body with the binding that the module gives the identifier INTERSECTION, and whatever
that identifier is bound to, the result of repeatLastCarve does not depend on what a probe
ray would hit; repeatLastCarve calls applySketchCarveAt(P, c + r*d, v) on the current
state, so on the whole current registry; when that call returns, repeatLastCarve returns,
the registry and the scene graph are those the call left, and the stored record is the
record before the call with the centre c + r*d, so with the same type, P and v; when that
call raises an exception, repeatLastCarve raises it in the state the call left. The call
returns when the registry is empty, and when the identifier is bound and every result of
the evaluator has a position attribute. For the module as it is and an empty registry,
repeatLastCarve reports that nothing was intersected and stores the centre c + r*d. -/
theorem repeat_sketchCarve (lib : Three α) (binding : Option CsgOp) (shapes : Shapes α)
    (view : View α) (app : App α) (carve : LastCarve α) (d : α) (P : List (Vector2 α))
    (c v : Vector3 α)
    (hc : app.lastCarve = some carve) (ht : carve.type = "sketchCarve")
    (hP : carve.params.points = some P)
    (hp : carve.params.center = some c) (hn : carve.params.cameraDir = some v)
    (hd : d ≠ 0) :
    (repeatLastCarve lib shapes view app (some d)
        = repeatLastCarveWith lib INTERSECTION shapes view app (some d)
      ∧ applySketchCarveAt lib app P (c.add (view.viewRight.multiplyScalar d)) v
        = applySketchCarveAtWith lib INTERSECTION app P
            (c.add (view.viewRight.multiplyScalar d)) v)
    ∧ (∀ view2 : View α, view2.viewRight = view.viewRight → view2.format = view.format →
      repeatLastCarveWith lib binding shapes view2 app (some d)
        = repeatLastCarveWith lib binding shapes view app (some d))
    ∧ (∀ (app1 : App α) (carved : Bool),
      applySketchCarveAtWith lib binding app P (c.add (view.viewRight.multiplyScalar d)) v
        = (app1, Except.ok carved) →
      (repeatLastCarveWith lib binding shapes view app (some d)).2 = Except.ok ()
      ∧ (repeatLastCarveWith lib binding shapes view app (some d)).1.meshes = app1.meshes
      ∧ (repeatLastCarveWith lib binding shapes view app (some d)).1.scene = app1.scene
      ∧ (repeatLastCarveWith lib binding shapes view app (some d)).1.lastCarve
        = some { carve with params := { carve.params with
            center := some (c.add (view.viewRight.multiplyScalar d)) } }
      ∧ (repeatLastCarveWith lib binding shapes view app (some d)).1.notifications
        = app1.notifications ++
          [if carved then "Sketch carve repeated " ++ view.format d ++ "cm away!"
            else "Repeated sketch didn\x27t intersect any design."])
    ∧ (∀ (app1 : App α) (e : JsError),
      applySketchCarveAtWith lib binding app P (c.add (view.viewRight.multiplyScalar d)) v
        = (app1, Except.error e) →
      repeatLastCarveWith lib binding shapes view app (some d) = (app1, Except.error e))
    ∧ ((app.meshes = []
        ∨ ∃ operation, binding = some operation
          ∧ ∀ a b : Brush α, (lib.evaluate a b operation).position ≠ none) →
      ∃ (app1 : App α) (carved : Bool),
        applySketchCarveAtWith lib binding app P (c.add (view.viewRight.multiplyScalar d)) v
          = (app1, Except.ok carved))
    ∧ (app.meshes = [] →
      repeatLastCarve lib shapes view app (some d)
        = ({ showNotification app "Repeated sketch didn\x27t intersect any design." with
            lastCarve := some { carve with params := { carve.params with
              center := some (c.add (view.viewRight.multiplyScalar d)) } } },
          Except.ok ())) := by
  have hPd : carve.params.points.getD [] = P := by rw [hP]; rfl
  have hdist : orOne (some d) = d := by
    unfold orOne
    simp only [hd, if_false]
  refine ⟨⟨rfl, rfl⟩, ?_, ?_, ?_, ?_, ?_⟩
  · intro view2 hr hf
    rw [repeatLastCarveWith_eq_sketch lib binding shapes view2 app carve (some d) hc ht c v
        hp hn,
      repeatLastCarveWith_eq_sketch lib binding shapes view app carve (some d) hc ht c v
        hp hn, hr, hf]
  · intro app1 carved hcall
    have hl : app1.lastCarve = some carve := by
      have h := applySketchCarveAt_loop_lastCarve lib binding
        (applySketchCarveAt.cutterBrush lib P (c.add (view.viewRight.multiplyScalar d)) v)
        app.meshes app false
      have h1 : (applySketchCarveAtWith lib binding app P
          (c.add (view.viewRight.multiplyScalar d)) v).1.lastCarve = app.lastCarve := h
      rw [hcall] at h1
      rw [← hc]
      exact h1
    rw [repeatLastCarveWith_eq_sketch lib binding shapes view app carve (some d) hc ht c v
      hp hn, hPd, hdist, hcall]
    cases carved <;> simp [showNotification, hl]
  · intro app1 e hcall
    rw [repeatLastCarveWith_eq_sketch lib binding shapes view app carve (some d) hc ht c v
      hp hn, hPd, hdist, hcall]
  · rintro (hm | ⟨operation, hb, hpos⟩)
    · refine ⟨app, false, ?_⟩
      unfold applySketchCarveAtWith
      simp only [hm]
      rfl
    · subst hb
      obtain ⟨carved1, h1⟩ := applySketchCarveAt_loop_returns lib operation hpos
        (applySketchCarveAt.cutterBrush lib P (c.add (view.viewRight.multiplyScalar d)) v)
        app.meshes app false
      exact ⟨(applySketchCarveAtWith lib (some operation) app P
        (c.add (view.viewRight.multiplyScalar d)) v).1, carved1, Prod.ext rfl h1⟩
  · intro hm
    rw [repeatLastCarve_eq_sketch_empty lib shapes view app carve (some d) hc ht c v hp hn hm,
      hdist]

end SketchReplayTheorems

theorem repeat_sketchCarve_witness :
    sampleSketchApp.lastCarve = some sampleSketchRecord
    ∧ sampleSketchEmptyApp.lastCarve = some sampleSketchRecord
    ∧ sampleSketchRecord.type = "sketchCarve"
    ∧ sampleSketchRecord.params.points = some [⟨0, 0⟩, ⟨1, 0⟩, ⟨0, 1⟩]
    ∧ sampleSketchRecord.params.center = some ⟨0, 0, 0⟩
    ∧ sampleSketchRecord.params.cameraDir = some ⟨0, 0, 1⟩
    ∧ (1 : ℚ) ≠ 0
    ∧ (repeatLastCarveWith overlapLib (some CsgOp.INTERSECTION) sampleShapes missView
        sampleSketchApp (some 1)).1.lastCarve
        = some { sampleSketchRecord with params := { sampleSketchRecord.params with
            center := some ⟨1, 0, 0⟩ } }
    ∧ (repeatLastCarveWith overlapLib (some CsgOp.INTERSECTION) sampleShapes missView
        sampleSketchApp (some 1)).1.meshes.map (fun m => m.id) = [6, 7]
    ∧ (repeatLastCarve overlapLib sampleShapes missView sampleSketchEmptyApp
        (some 1)).1.lastCarve
        = some { sampleSketchRecord with params := { sampleSketchRecord.params with
            center := some ⟨1, 0, 0⟩ } } :=
  have hbound := (repeat_sketchCarve overlapLib (some CsgOp.INTERSECTION) sampleShapes
    missView sampleSketchApp sampleSketchRecord 1 [⟨0, 0⟩, ⟨1, 0⟩, ⟨0, 1⟩] ⟨0, 0, 0⟩ ⟨0, 0, 1⟩
    rfl rfl rfl rfl rfl one_ne_zero).2.2.1
    (applySketchCarveAtWith overlapLib (some CsgOp.INTERSECTION) sampleSketchApp
      [⟨0, 0⟩, ⟨1, 0⟩, ⟨0, 1⟩]
      ((⟨0, 0, 0⟩ : Vector3 ℚ).add (missView.viewRight.multiplyScalar 1)) ⟨0, 0, 1⟩).1
    true rfl
  have hmodule := (repeat_sketchCarve overlapLib INTERSECTION sampleShapes
    missView sampleSketchEmptyApp sampleSketchRecord 1 [⟨0, 0⟩, ⟨1, 0⟩, ⟨0, 1⟩] ⟨0, 0, 0⟩
    ⟨0, 0, 1⟩ rfl rfl rfl rfl rfl one_ne_zero).2.2.1 sampleSketchEmptyApp false rfl
  ⟨rfl, rfl, rfl, rfl, rfl, rfl, one_ne_zero,
    by
      rw [hbound.2.2.2.1]
      simp [Vector3.add, Vector3.multiplyScalar, missView],
    by
      rw [hbound.2.1]
      rfl,
    by
      have h := hmodule.2.2.2.1
      rw [show repeatLastCarve overlapLib sampleShapes missView sampleSketchEmptyApp (some 1)
        = repeatLastCarveWith overlapLib INTERSECTION sampleShapes missView
          sampleSketchEmptyApp (some 1) from rfl, h]
      simp [Vector3.add, Vector3.multiplyScalar, missView]⟩

/-! ## The default split and the custom split with the vertical normal -/

section SplitCompareTheorems

variable [LinearOrderedField α]

/-- The registry after `splitMeshCustom` with the normal `(0, 1, 0)`, with the planes and
positions in the form `splitMesh` computes them. -/
theorem splitMeshCustom_vertical_meshes (app : App α) (mesh : Mesh α) (p : Vector3 α) :
    (splitMeshCustom app mesh p ⟨0, 1, 0⟩).meshes = removeFromRegistry app.meshes mesh ++
      [{ id := app.nextRef, geometry := mesh.geometry,
         material := { mesh.material with
           clippingPlanes := [⟨(⟨0, 1, 0⟩ : Vector3 α).multiplyScalar 1, -p.y⟩] },
         position := { mesh.position with y := mesh.position.y + 1 * 0.2 },
         quaternion := mesh.quaternion, scale := mesh.scale },
       { id := app.nextRef + 1, geometry := mesh.geometry,
         material := { mesh.material with
           clippingPlanes := [⟨(⟨0, 1, 0⟩ : Vector3 α).multiplyScalar (-1), p.y⟩] },
         position := { mesh.position with y := mesh.position.y + -1 * 0.2 },
         quaternion := mesh.quaternion, scale := mesh.scale }] := by
  rw [splitMeshCustom_meshes]
  simp [Vector3.add, Vector3.multiplyScalar, Vector3.dot]

/-- C24, as the code has it: the halves of splitMesh(shape, p) and of
splitMeshCustom(shape, p, (0, 1, 0)) have the same identities, geometry, clipping planes and
positions, but the halves of splitMesh carry the identity rotation and the scale (1, 1, 1)
where those of splitMeshCustom carry the rotation and scale of the shape; the two registries
are equal exactly when the shape has the identity rotation and the scale (1, 1, 1). -/
theorem split_default_vs_custom (app : App α) (mesh : Mesh α) (p : Vector3 α) :
    (∃ top bottom : Mesh α,
      (splitMeshCustom app mesh p ⟨0, 1, 0⟩).meshes
        = removeFromRegistry app.meshes mesh ++ [top, bottom]
      ∧ (splitMesh app mesh p).meshes
        = removeFromRegistry app.meshes mesh ++
          [{ top with quaternion := defaultQuaternion, scale := defaultScale },
           { bottom with quaternion := defaultQuaternion, scale := defaultScale }]
      ∧ top.quaternion = mesh.quaternion ∧ top.scale = mesh.scale
      ∧ bottom.quaternion = mesh.quaternion ∧ bottom.scale = mesh.scale)
    ∧ ((splitMesh app mesh p).meshes = (splitMeshCustom app mesh p ⟨0, 1, 0⟩).meshes
      ↔ mesh.quaternion = defaultQuaternion ∧ mesh.scale = defaultScale) := by
  constructor
  · exact ⟨_, _, splitMeshCustom_vertical_meshes app mesh p, splitMesh_meshes app mesh p,
      rfl, rfl, rfl, rfl⟩
  · rw [splitMeshCustom_vertical_meshes, splitMesh_meshes]
    constructor
    · intro h
      have h1 := List.append_cancel_left h
      simp only [List.cons.injEq, Mesh.mk.injEq, true_and, and_true] at h1
      exact ⟨h1.1.1.symm, h1.1.2.symm⟩
    · rintro ⟨hq, hs⟩
      rw [hq, hs]

end SplitCompareTheorems

theorem split_default_vs_custom_witness :
    (splitMesh sampleScaledApp sampleScaledRod ⟨0, 0, 0⟩).meshes.map (fun m => (m.id, m.scale))
      = [(5, ⟨1, 1, 1⟩), (6, ⟨1, 1, 1⟩), (7, ⟨1, 1, 1⟩)]
    ∧ (splitMeshCustom sampleScaledApp sampleScaledRod ⟨0, 0, 0⟩ ⟨0, 1, 0⟩).meshes.map
        (fun m => (m.id, m.scale))
      = [(5, ⟨1, 1, 1⟩), (6, ⟨2, 2, 2⟩), (7, ⟨2, 2, 2⟩)]
    ∧ (splitMesh sampleScaledApp sampleScaledRod ⟨0, 0, 0⟩).meshes
      ≠ (splitMeshCustom sampleScaledApp sampleScaledRod ⟨0, 0, 0⟩ ⟨0, 1, 0⟩).meshes :=
  ⟨by rw [splitMesh_meshes]; rfl, by rw [splitMeshCustom_meshes]; rfl,
    fun h =>
      absurd ((split_default_vs_custom sampleScaledApp sampleScaledRod ⟨0, 0, 0⟩).2.mp h).2
        (by decide)⟩


end Artisan
